import Mathlib

/-!
# CH341 USB-serial driver: shallow embedding and verified properties

The driver's dispatch routines (`ch341.c`, `ioctl.c`, `pnp.c`) and its USB
protocol routines (`usb.c`) are embedded as pure functions that pass the
device extension, the request and the surrounding system explicitly.

* `DEVICE_EXTENSION`, `IRP`, `URB` mirror the C records field by field.
* `Env` is everything outside the driver: the pool allocator, the lower
  (bus) device and the kernel naming services.  Each of them is an arbitrary
  answer function indexed by the number of calls made so far, so a theorem
  that quantifies over `Env` holds for every behaviour of the system, and a
  concrete `Env` is a scripted bus.
* Machine integers are natural numbers reduced to their width where the C code
  truncates; an `NTSTATUS` is kept in its unsigned 32-bit representation, so
  the success test `(LONG)s >= 0` reads `s < 0x80000000`.
* Debug output and `NT_ASSERT` (compiled out of free builds) have no effect
  and are left out; the fast mutex has none in a sequential run.
-/

namespace CH341

/-! ## Platform constants (ntstatus.h, wdm.h, usb.h, ntddser.h) -/

abbrev NTSTATUS := Nat

def STATUS_SUCCESS : NTSTATUS := 0x00000000
def STATUS_PENDING : NTSTATUS := 0x00000103
def STATUS_CONTINUE_COMPLETION : NTSTATUS := STATUS_SUCCESS
def STATUS_UNSUCCESSFUL : NTSTATUS := 0xC0000001
def STATUS_NO_SUCH_DEVICE : NTSTATUS := 0xC000000E
def STATUS_BUFFER_TOO_SMALL : NTSTATUS := 0xC0000023
def STATUS_INSUFFICIENT_RESOURCES : NTSTATUS := 0xC000009A
def STATUS_NOT_SUPPORTED : NTSTATUS := 0xC00000BB
def STATUS_DEVICE_CONFIGURATION_ERROR : NTSTATUS := 0xC0000182

/-- The test `NT_SUCCESS(Status)`, that is `((NTSTATUS)(Status)) >= 0` on a signed 32-bit value. -/
def NT_SUCCESS (Status : NTSTATUS) : Bool := decide (Status < 0x80000000)

/-- The test `USBD_SUCCESS(Status)`, that is `((USBD_STATUS)(Status) >= 0)` on a signed 32-bit value. -/
def USBD_SUCCESS (Status : Nat) : Bool := decide (Status < 0x80000000)

def IRP_MJ_CREATE : Nat := 0x00
def IRP_MJ_CLOSE : Nat := 0x02
def IRP_MJ_READ : Nat := 0x03
def IRP_MJ_WRITE : Nat := 0x04
def IRP_MJ_DEVICE_CONTROL : Nat := 0x0E
def IRP_MJ_INTERNAL_DEVICE_CONTROL : Nat := 0x0F
def IRP_MJ_POWER : Nat := 0x16
def IRP_MJ_SYSTEM_CONTROL : Nat := 0x17
def IRP_MJ_PNP : Nat := 0x1B

def IRP_MN_START_DEVICE : Nat := 0x00
def IRP_MN_QUERY_REMOVE_DEVICE : Nat := 0x01
def IRP_MN_REMOVE_DEVICE : Nat := 0x02
def IRP_MN_CANCEL_REMOVE_DEVICE : Nat := 0x03
def IRP_MN_STOP_DEVICE : Nat := 0x04
def IRP_MN_QUERY_STOP_DEVICE : Nat := 0x05
def IRP_MN_CANCEL_STOP_DEVICE : Nat := 0x06
def IRP_MN_SURPRISE_REMOVAL : Nat := 0x17

def IOCTL_INTERNAL_USB_SUBMIT_URB : Nat := 0x00220003

def IOCTL_SERIAL_SET_BAUD_RATE : Nat := 0x001B0004
def IOCTL_SERIAL_SET_LINE_CONTROL : Nat := 0x001B000C
def IOCTL_SERIAL_SET_DTR : Nat := 0x001B0024
def IOCTL_SERIAL_CLR_DTR : Nat := 0x001B0028
def IOCTL_SERIAL_SET_RTS : Nat := 0x001B0030
def IOCTL_SERIAL_CLR_RTS : Nat := 0x001B0034
def IOCTL_SERIAL_GET_BAUD_RATE : Nat := 0x001B0050
def IOCTL_SERIAL_GET_LINE_CONTROL : Nat := 0x001B0054
def IOCTL_SERIAL_GET_CHARS : Nat := 0x001B0058
def IOCTL_SERIAL_SET_CHARS : Nat := 0x001B005C
def IOCTL_SERIAL_GET_HANDFLOW : Nat := 0x001B0060
def IOCTL_SERIAL_SET_HANDFLOW : Nat := 0x001B0064
def IOCTL_SERIAL_GET_DTRRTS : Nat := 0x001B0078
def IOCTL_SERIAL_CLEAR_STATS : Nat := 0x001B0090

def SERIAL_DTR_STATE : Nat := 0x00000001
def SERIAL_RTS_STATE : Nat := 0x00000002
def SERIAL_DTR_CONTROL : Nat := 0x01
def SERIAL_RTS_CONTROL : Nat := 0x40

def URB_FUNCTION_SELECT_CONFIGURATION : Nat := 0x0000
def URB_FUNCTION_BULK_OR_INTERRUPT_TRANSFER : Nat := 0x0009
def URB_FUNCTION_GET_DESCRIPTOR_FROM_DEVICE : Nat := 0x000B
def URB_FUNCTION_VENDOR_DEVICE : Nat := 0x0017
def URB_FUNCTION_CLASS_DEVICE : Nat := 0x001A

def USBD_TRANSFER_DIRECTION_OUT : Nat := 0
def USBD_TRANSFER_DIRECTION_IN : Nat := 1
def USBD_SHORT_TRANSFER_OK : Nat := 2

def USB_DEVICE_DESCRIPTOR_TYPE : Nat := 0x01
def USB_CONFIGURATION_DESCRIPTOR_TYPE : Nat := 0x02

def UsbdPipeTypeBulk : Nat := 2
def UsbdPipeTypeInterrupt : Nat := 3

/-- The size `sizeof(USB_DEVICE_DESCRIPTOR)`. -/
def sizeof_USB_DEVICE_DESCRIPTOR : Nat := 18
/-- The size `sizeof(USB_CONFIGURATION_DESCRIPTOR)`. -/
def sizeof_USB_CONFIGURATION_DESCRIPTOR : Nat := 9
/-- The size `sizeof(SERIAL_BAUD_RATE)`: one `ULONG`. -/
def sizeof_SERIAL_BAUD_RATE : Nat := 4
/-- The size `sizeof(SERIAL_LINE_CONTROL)`: three `UCHAR`s. -/
def sizeof_SERIAL_LINE_CONTROL : Nat := 3
/-- The size `sizeof(SERIAL_CHARS)`: six `UCHAR`s. -/
def sizeof_SERIAL_CHARS : Nat := 6
/-- The size `sizeof(SERIAL_HANDFLOW)`: two `ULONG`s and two `LONG`s. -/
def sizeof_SERIAL_HANDFLOW : Nat := 16
/-- The size `sizeof(ULONG)`. -/
def sizeof_ULONG : Nat := 4

/-! ## ch341.h -/

def CH341_VENDOR_READ_REQUEST : Nat := 0x95
def CH341_VENDOR_WRITE_REQUEST : Nat := 0x9A
def CH341_SET_LINE_REQUEST : Nat := 0xA1
def CH341_SET_CONTROL_REQUEST : Nat := 0x10

inductive DEVICE_PNP_STATE where
  | NotStarted
  | Started
  | StopPending
  | Stopped
  | RemovePending
  | SurpriseRemovePending
  | Deleted
  deriving DecidableEq, Repr

open DEVICE_PNP_STATE

/-- A counted string, reduced to its buffer pointer (`0` is `NULL`) and length. -/
structure UNICODE_STRING where
  Length : Nat
  Buffer : Nat
  deriving DecidableEq, Repr

structure SERIAL_CHARS where
  EofChar : Nat
  ErrorChar : Nat
  BreakChar : Nat
  EventChar : Nat
  XonChar : Nat
  XoffChar : Nat
  deriving DecidableEq, Repr

structure SERIAL_HANDFLOW where
  ControlHandShake : Nat
  FlowReplace : Nat
  XonLimit : Nat
  XoffLimit : Nat
  deriving DecidableEq, Repr

/-- The record `DEVICE_EXTENSION` of ch341.h; pointers and handles are numbers, `0` being `NULL`. -/
structure DEVICE_EXTENSION where
  LowerDevice : Nat
  PnpState : DEVICE_PNP_STATE
  PreviousPnpState : DEVICE_PNP_STATE
  DeviceName : UNICODE_STRING
  InterfaceLinkName : UNICODE_STRING
  ComPortName : UNICODE_STRING
  BulkInPipe : Nat
  BulkOutPipe : Nat
  InterruptInPipe : Nat
  BaudRate : Nat
  StopBits : Nat
  Parity : Nat
  DataBits : Nat
  Chars : SERIAL_CHARS
  HandFlow : SERIAL_HANDFLOW
  DtrRts : Nat
  deriving DecidableEq, Repr

/-! ## Requests -/

/-- The fields of an `IRP` and of its current stack location that the driver reads or writes.
`SystemBuffer` is the buffered-I/O buffer as a list of bytes; `Completed` records
`IoCompleteRequest`, `PendingReturned` records `IoMarkIrpPending`. -/
structure IRP where
  MajorFunction : Nat
  MinorFunction : Nat
  IoControlCode : Nat
  InputBufferLength : Nat
  OutputBufferLength : Nat
  Length : Nat
  SystemBuffer : List Nat
  Status : NTSTATUS
  Information : Nat
  PendingReturned : Bool
  Completed : Bool
  deriving DecidableEq, Repr

structure USBD_PIPE_INFORMATION where
  PipeType : Nat
  EndpointAddress : Nat
  PipeHandle : Nat
  deriving DecidableEq, Repr

/-- The union `URB`, flattened: header, control-transfer, bulk-transfer and select-configuration
fields side by side.  `TransferBuffer` holds the bytes of the buffer that are determined (none for
fresh pool or stack memory), `TransferBufferLength` its declared size.  `ConfigurationDescriptor`
is `none` for a `NULL` descriptor; `Pipes` is the pipe array of the selected interface. -/
structure URB where
  Function : Nat
  Status : Nat
  TransferFlags : Nat
  RequestTypeReservedBits : Nat
  Request : Nat
  Value : Nat
  Index : Nat
  DescriptorType : Nat
  LanguageId : Nat
  TransferBuffer : List Nat
  TransferBufferLength : Nat
  PipeHandle : Nat
  ConfigurationDescriptor : Option (List Nat)
  InterfaceDescriptor : Nat
  Pipes : List USBD_PIPE_INFORMATION
  deriving DecidableEq, Repr

inductive COMPLETION_ROUTINE where
  | ReadCompletion
  | WriteCompletion
  deriving DecidableEq, Repr

/-- What the driver hands to the lower device object. -/
inductive LowerRequest where
  /-- A request built by `CH341UsbSubmitUrb` carrying a URB. -/
  | SubmitUrb (Urb : URB)
  /-- The caller's request passed down as it is (skip or synchronous forward). -/
  | Forward (Irp : IRP)
  /-- The caller's read or write request with its next stack location set up (major function,
  control code, URB) and a completion routine registered with the URB block as context. -/
  | Transfer (Irp : IRP) (MajorFunction : Nat) (IoControlCode : Nat) (Urb : URB) (Context : Nat)
      (Routine : COMPLETION_ROUTINE)
  deriving DecidableEq, Repr

/-- What the lower device answers to one request: whether a synchronous forward could be made,
the value `IoCallDriver` returns, the status block the request is completed with, and the
fields of the URB as the bus leaves them. -/
structure Response where
  ForwardOk : Bool
  CallStatus : NTSTATUS
  IoStatus : NTSTATUS
  Information : Nat
  UrbStatus : Nat
  TransferBufferLength : Nat
  TransferBuffer : List Nat
  Pipes : List USBD_PIPE_INFORMATION
  deriving DecidableEq, Repr

/-- Calls into the kernel naming services. -/
inductive PlatformCall where
  | SetDeviceInterfaceState (Name : UNICODE_STRING) (Enable : Bool)
  | CreateSymbolicLink (Link : UNICODE_STRING) (Target : UNICODE_STRING)
  | DeleteSymbolicLink (Link : UNICODE_STRING)
  deriving DecidableEq, Repr

/-- The system around the driver.
* `AllocOk n` tells whether the `n`-th allocation attempt (pool block, request packet or
  completion context) succeeds; `AllocCount` counts the attempts, `Allocated` lists the pool
  blocks handed out and `Freed` the blocks given back, both in order.
* `Lower n` is the answer of the lower device to the `n`-th request it receives and `Sent`
  the requests it has received, oldest first.
* `Platform n` is the status of the `n`-th naming call, `PlatformCalls` the calls made.
* `ParseInterface` is `USBD_ParseConfigurationDescriptorEx` with all-wildcard criteria: the
  offset of the first interface descriptor in a configuration descriptor, if there is one.
* `SerialCount` is the system-wide serial port count.
* `sizeof_PVOID` is the size of a pointer on the platform the driver is built for. -/
structure Env where
  AllocOk : Nat → Bool
  AllocCount : Nat
  Allocated : List Nat
  Freed : List Nat
  Lower : Nat → Response
  Sent : List LowerRequest
  Platform : Nat → NTSTATUS
  PlatformCalls : List PlatformCall
  ParseInterface : List Nat → Option Nat
  SerialCount : Nat
  sizeof_PVOID : Nat

/-! ## Kernel services used by the driver -/

/-- Pool allocation: the block address (`0` for `NULL`) and the new system state. -/
def ExAllocatePoolWithTag (env : Env) : Nat × Env :=
  if env.AllocOk env.AllocCount then
    (env.AllocCount + 1,
     { env with AllocCount := env.AllocCount + 1, Allocated := env.Allocated ++ [env.AllocCount + 1] })
  else
    (0, { env with AllocCount := env.AllocCount + 1 })

def ExFreePoolWithTag (env : Env) (P : Nat) : Env :=
  { env with Freed := env.Freed ++ [P] }

/-- Allocation of a request packet for the lower device; `false` stands for `NULL`. -/
def IoBuildDeviceIoControlRequest (env : Env) : Bool × Env :=
  (env.AllocOk env.AllocCount, { env with AllocCount := env.AllocCount + 1 })

/-- Registration of a completion routine, which allocates a context and can fail for lack of memory. -/
def IoSetCompletionRoutineEx (env : Env) : NTSTATUS × Env :=
  (if env.AllocOk env.AllocCount then STATUS_SUCCESS else STATUS_INSUFFICIENT_RESOURCES,
   { env with AllocCount := env.AllocCount + 1 })

/-- Passing a request to the lower device: its answer and the new system state. -/
def IoCallDriver (env : Env) (Request : LowerRequest) : Response × Env :=
  (env.Lower env.Sent.length, { env with Sent := env.Sent ++ [Request] })

/-- Synchronous forward of the caller's request.  When it cannot be made nothing is sent;
otherwise the lower device leaves its status block in the request. -/
def IoForwardIrpSynchronously (env : Env) (Irp : IRP) : Bool × IRP × Env :=
  let r := env.Lower env.Sent.length
  if r.ForwardOk then
    (true, { Irp with Status := r.IoStatus, Information := r.Information },
     { env with Sent := env.Sent ++ [LowerRequest.Forward Irp] })
  else
    (false, Irp, env)

def PlatformInvoke (env : Env) (Call : PlatformCall) : NTSTATUS × Env :=
  (env.Platform env.PlatformCalls.length, { env with PlatformCalls := env.PlatformCalls ++ [Call] })

def IoSetDeviceInterfaceState (env : Env) (Name : UNICODE_STRING) (Enable : Bool) :
    NTSTATUS × Env :=
  PlatformInvoke env (PlatformCall.SetDeviceInterfaceState Name Enable)

def IoCreateSymbolicLink (env : Env) (Link Target : UNICODE_STRING) : NTSTATUS × Env :=
  PlatformInvoke env (PlatformCall.CreateSymbolicLink Link Target)

def IoDeleteSymbolicLink (env : Env) (Link : UNICODE_STRING) : NTSTATUS × Env :=
  PlatformInvoke env (PlatformCall.DeleteSymbolicLink Link)

def IoCompleteRequest (Irp : IRP) : IRP :=
  { Irp with Completed := true }

def IoMarkIrpPending (Irp : IRP) : IRP :=
  { Irp with PendingReturned := true }

/-! ## Byte access to buffers -/

/-- The byte at offset `off`; a byte outside the determined part of the buffer reads as `0`. -/
def readUCHAR (buf : List Nat) (off : Nat) : Nat :=
  (buf.getD off 0) % 256

def readUSHORT (buf : List Nat) (off : Nat) : Nat :=
  readUCHAR buf off + 256 * readUCHAR buf (off + 1)

def readULONG (buf : List Nat) (off : Nat) : Nat :=
  readUCHAR buf off + 256 * readUCHAR buf (off + 1) + 65536 * readUCHAR buf (off + 2)
    + 16777216 * readUCHAR buf (off + 3)

def writeUCHAR (buf : List Nat) (off : Nat) (v : Nat) : List Nat :=
  buf.set off (v % 256)

def writeULONG (buf : List Nat) (off : Nat) (v : Nat) : List Nat :=
  writeUCHAR (writeUCHAR (writeUCHAR (writeUCHAR buf off v) (off + 1) (v / 256))
    (off + 2) (v / 65536)) (off + 3) (v / 16777216)

/-- The bytes of a `ULONG`, least significant first. -/
def bytesULONG (v : Nat) : List Nat :=
  [v % 256, v / 256 % 256, v / 65536 % 256, v / 16777216 % 256]

/-- The copy `RtlCopyMemory(dst, src, n)`: the first `n` bytes of `src` over the start of `dst`. -/
def RtlCopyMemory (dst src : List Nat) (n : Nat) : List Nat :=
  src.take n ++ dst.drop n

/-! ## usbdlib.h request builders -/

/-- A URB block as it comes from the pool; its contents are not determined and read as zero. -/
def URB.fresh : URB :=
  { Function := 0, Status := 0, TransferFlags := 0, RequestTypeReservedBits := 0, Request := 0,
    Value := 0, Index := 0, DescriptorType := 0, LanguageId := 0, TransferBuffer := [],
    TransferBufferLength := 0, PipeHandle := 0, ConfigurationDescriptor := none,
    InterfaceDescriptor := 0, Pipes := [] }

def UsbBuildGetDescriptorRequest (DescriptorType Index LanguageId : Nat)
    (TransferBuffer : List Nat) (BufferLength : Nat) : URB :=
  { URB.fresh with
    Function := URB_FUNCTION_GET_DESCRIPTOR_FROM_DEVICE
    DescriptorType := DescriptorType
    Index := Index
    LanguageId := LanguageId
    TransferBuffer := TransferBuffer
    TransferBufferLength := BufferLength }

def UsbBuildVendorRequest (Function TransferFlags ReservedBits Request Value Index : Nat)
    (TransferBuffer : List Nat) (TransferBufferLength : Nat) : URB :=
  { URB.fresh with
    Function := Function
    TransferFlags := TransferFlags
    RequestTypeReservedBits := ReservedBits
    Request := Request
    Value := Value
    Index := Index
    TransferBuffer := TransferBuffer
    TransferBufferLength := TransferBufferLength }

def UsbBuildInterruptOrBulkTransferRequest (PipeHandle : Nat) (TransferBuffer : List Nat)
    (TransferBufferLength TransferFlags : Nat) : URB :=
  { URB.fresh with
    Function := URB_FUNCTION_BULK_OR_INTERRUPT_TRANSFER
    PipeHandle := PipeHandle
    TransferBuffer := TransferBuffer
    TransferBufferLength := TransferBufferLength
    TransferFlags := TransferFlags }

def UsbBuildSelectConfigurationRequest (ConfigurationDescriptor : Option (List Nat)) : URB :=
  { URB.fresh with
    Function := URB_FUNCTION_SELECT_CONFIGURATION
    ConfigurationDescriptor := ConfigurationDescriptor }

/-- The library call that allocates and fills a select-configuration URB for one interface:
the block address (`0` for `NULL`), the URB and the new system state. -/
def USBD_CreateConfigurationRequestEx (env : Env) (ConfigDescriptor : List Nat)
    (InterfaceDescriptor : Nat) : Nat × URB × Env :=
  let a := ExAllocatePoolWithTag env
  (a.1,
   { UsbBuildSelectConfigurationRequest (some ConfigDescriptor) with
     InterfaceDescriptor := InterfaceDescriptor },
   a.2)

def USB_ENDPOINT_DIRECTION_IN (addr : Nat) : Bool := decide (addr &&& 0x80 ≠ 0)

def USB_ENDPOINT_DIRECTION_OUT (addr : Nat) : Bool := decide (addr &&& 0x80 = 0)

/-- The URB after the bus has processed it. -/
def Response.applyTo (r : Response) (Urb : URB) : URB :=
  { Urb with
    Status := r.UrbStatus
    TransferBufferLength := r.TransferBufferLength
    TransferBuffer := r.TransferBuffer
    Pipes := r.Pipes }

/-! ## usb.c -/

/-- Synchronous submission of a URB: the status, the URB as the bus left it, the new system state. -/
def CH341UsbSubmitUrb (env : Env) (Urb : URB) : NTSTATUS × URB × Env :=
  let b := IoBuildDeviceIoControlRequest env
  if !b.1 then
    (STATUS_INSUFFICIENT_RESOURCES, Urb, b.2)
  else
    let c := IoCallDriver b.2 (LowerRequest.SubmitUrb Urb)
    let Status := c.1.CallStatus
    let Status := if Status = STATUS_PENDING then c.1.IoStatus else Status
    (Status, c.1.applyTo Urb, c.2)

/-- Outcome of `CH341UsbGetDescriptor`: status, the descriptor block (`0` for `NULL`), its bytes,
its length, and the new system state. -/
structure DescriptorResult where
  Status : NTSTATUS
  Buffer : Nat
  Data : List Nat
  BufferLength : Nat
  env : Env

def CH341UsbGetDescriptor (env : Env) (DescriptorType : Nat) (BufferLength : Nat) :
    DescriptorResult :=
  let a := ExAllocatePoolWithTag env
  let Urb := a.1
  if Urb = 0 then
    ⟨STATUS_INSUFFICIENT_RESOURCES, 0, [], BufferLength, a.2⟩
  else
    let b := ExAllocatePoolWithTag a.2
    let Buffer := b.1
    if Buffer = 0 then
      ⟨STATUS_INSUFFICIENT_RESOURCES, 0, [], BufferLength, ExFreePoolWithTag b.2 Urb⟩
    else
      let s := CH341UsbSubmitUrb b.2
        (UsbBuildGetDescriptorRequest DescriptorType 0 0 [] BufferLength)
      let Status := s.1
      if !NT_SUCCESS Status then
        ⟨Status, 0, [], 0, ExFreePoolWithTag (ExFreePoolWithTag s.2.2 Buffer) Urb⟩
      else if !USBD_SUCCESS s.2.1.Status then
        ⟨s.2.1.Status, 0, [], 0, ExFreePoolWithTag (ExFreePoolWithTag s.2.2 Buffer) Urb⟩
      else
        ⟨Status, Buffer, s.2.1.TransferBuffer, s.2.1.TransferBufferLength,
          ExFreePoolWithTag s.2.2 Urb⟩

/-- Outcome of `CH341UsbVendorRead`: status, the byte buffer, the new system state. -/
def CH341UsbVendorRead (env : Env) (Value Index : Nat) : NTSTATUS × List Nat × Env :=
  let a := ExAllocatePoolWithTag env
  let Urb := a.1
  if Urb = 0 then
    (STATUS_INSUFFICIENT_RESOURCES, [], a.2)
  else
    let s := CH341UsbSubmitUrb a.2
      (UsbBuildVendorRequest URB_FUNCTION_VENDOR_DEVICE
        (USBD_TRANSFER_DIRECTION_IN ||| USBD_SHORT_TRANSFER_OK) 0 CH341_VENDOR_READ_REQUEST
        Value Index [] 1)
    let Status := s.1
    if !NT_SUCCESS Status then
      (Status, s.2.1.TransferBuffer, ExFreePoolWithTag s.2.2 Urb)
    else if !USBD_SUCCESS s.2.1.Status then
      (s.2.1.Status, s.2.1.TransferBuffer, ExFreePoolWithTag s.2.2 Urb)
    else
      (Status, s.2.1.TransferBuffer, ExFreePoolWithTag s.2.2 Urb)

def CH341UsbVendorWrite (env : Env) (Value Index : Nat) : NTSTATUS × Env :=
  let a := ExAllocatePoolWithTag env
  let Urb := a.1
  if Urb = 0 then
    (STATUS_INSUFFICIENT_RESOURCES, a.2)
  else
    let s := CH341UsbSubmitUrb a.2
      (UsbBuildVendorRequest URB_FUNCTION_VENDOR_DEVICE USBD_TRANSFER_DIRECTION_OUT 0
        CH341_VENDOR_WRITE_REQUEST Value Index [] 0)
    let Status := s.1
    if !NT_SUCCESS Status then
      (Status, ExFreePoolWithTag s.2.2 Urb)
    else if !USBD_SUCCESS s.2.1.Status then
      (s.2.1.Status, ExFreePoolWithTag s.2.2 Urb)
    else
      (Status, ExFreePoolWithTag s.2.2 Urb)

/-- One turn of the pipe loop of `CH341UsbConfigureDevice`. -/
def CH341UsbConfigureDevice_pipe (DeviceExtension : DEVICE_EXTENSION)
    (PipeInfo : USBD_PIPE_INFORMATION) : DEVICE_EXTENSION :=
  let DeviceExtension :=
    if PipeInfo.PipeType = UsbdPipeTypeBulk ∧
        USB_ENDPOINT_DIRECTION_IN PipeInfo.EndpointAddress = true ∧
        DeviceExtension.BulkInPipe = 0 then
      { DeviceExtension with BulkInPipe := PipeInfo.PipeHandle }
    else DeviceExtension
  let DeviceExtension :=
    if PipeInfo.PipeType = UsbdPipeTypeBulk ∧
        USB_ENDPOINT_DIRECTION_OUT PipeInfo.EndpointAddress = true ∧
        DeviceExtension.BulkOutPipe = 0 then
      { DeviceExtension with BulkOutPipe := PipeInfo.PipeHandle }
    else DeviceExtension
  if PipeInfo.PipeType = UsbdPipeTypeInterrupt ∧
      USB_ENDPOINT_DIRECTION_IN PipeInfo.EndpointAddress = true ∧
      DeviceExtension.InterruptInPipe = 0 then
    { DeviceExtension with InterruptInPipe := PipeInfo.PipeHandle }
  else DeviceExtension

def CH341UsbConfigureDevice (DeviceExtension : DEVICE_EXTENSION) (env : Env)
    (ConfigDescriptor : List Nat) (InterfaceDescriptor : Nat) :
    NTSTATUS × DEVICE_EXTENSION × Env :=
  let c := USBD_CreateConfigurationRequestEx env ConfigDescriptor InterfaceDescriptor
  let Urb := c.1
  if Urb = 0 then
    (STATUS_INSUFFICIENT_RESOURCES, DeviceExtension, c.2.2)
  else
    let s := CH341UsbSubmitUrb c.2.2 c.2.1
    let Status := s.1
    if !NT_SUCCESS Status then
      (Status, DeviceExtension, ExFreePoolWithTag s.2.2 Urb)
    else
      let DeviceExtension := s.2.1.Pipes.foldl CH341UsbConfigureDevice_pipe DeviceExtension
      if DeviceExtension.BulkInPipe = 0 ∨ DeviceExtension.BulkOutPipe = 0 ∨
          DeviceExtension.InterruptInPipe = 0 then
        (STATUS_DEVICE_CONFIGURATION_ERROR, DeviceExtension, ExFreePoolWithTag s.2.2 Urb)
      else
        (Status, DeviceExtension, ExFreePoolWithTag s.2.2 Urb)

def CH341UsbUnconfigureDevice (env : Env) : NTSTATUS × Env :=
  let a := ExAllocatePoolWithTag env
  let Urb := a.1
  if Urb = 0 then
    (STATUS_INSUFFICIENT_RESOURCES, a.2)
  else
    let s := CH341UsbSubmitUrb a.2 (UsbBuildSelectConfigurationRequest none)
    let Status := s.1
    if !NT_SUCCESS Status then
      (Status, ExFreePoolWithTag s.2.2 Urb)
    else
      (Status, ExFreePoolWithTag s.2.2 Urb)

/-- The pattern `Status = step; if (!NT_SUCCESS(Status)) return Status;` followed by
the rest of the routine, which goes on from the outcome of the step. -/
def returnIfFailed (r : NTSTATUS × Env) (rest : NTSTATUS × Env → NTSTATUS × Env) :
    NTSTATUS × Env :=
  if !NT_SUCCESS r.1 then r else rest r

/-- The outcome of a vendor read without the byte read, which `CH341UsbStart` never looks at. -/
def dropBuffer (r : NTSTATUS × List Nat × Env) : NTSTATUS × Env :=
  (r.1, r.2.2)

/-- The vendor bring-up sequence that ends `CH341UsbStart` (the eleven requests after the
device has been configured). -/
def CH341UsbStart_bringUp (env : Env) : NTSTATUS × Env :=
  returnIfFailed (dropBuffer (CH341UsbVendorRead env 0x8484 0)) fun r =>
  returnIfFailed (CH341UsbVendorWrite r.2 0x0404 0) fun r =>
  returnIfFailed (dropBuffer (CH341UsbVendorRead r.2 0x8484 0)) fun r =>
  returnIfFailed (dropBuffer (CH341UsbVendorRead r.2 0x8383 0)) fun r =>
  returnIfFailed (dropBuffer (CH341UsbVendorRead r.2 0x8484 0)) fun r =>
  returnIfFailed (CH341UsbVendorWrite r.2 0x0404 0) fun r =>
  returnIfFailed (dropBuffer (CH341UsbVendorRead r.2 0x8484 0)) fun r =>
  returnIfFailed (dropBuffer (CH341UsbVendorRead r.2 0x8383 0)) fun r =>
  returnIfFailed (CH341UsbVendorWrite r.2 0 1) fun r =>
  returnIfFailed (CH341UsbVendorWrite r.2 1 0) fun r =>
  returnIfFailed (CH341UsbVendorWrite r.2 2 0x44) fun r =>
  r

def CH341UsbStart (DeviceExtension : DEVICE_EXTENSION) (env : Env) :
    NTSTATUS × DEVICE_EXTENSION × Env :=
  let d := CH341UsbGetDescriptor env USB_DEVICE_DESCRIPTOR_TYPE sizeof_USB_DEVICE_DESCRIPTOR
  if !NT_SUCCESS d.Status then (d.Status, DeviceExtension, d.env) else
  let env := ExFreePoolWithTag d.env d.Buffer
  let p := CH341UsbGetDescriptor env USB_CONFIGURATION_DESCRIPTOR_TYPE
    sizeof_USB_CONFIGURATION_DESCRIPTOR
  if !NT_SUCCESS p.Status then (p.Status, DeviceExtension, p.env) else
  let wTotalLength := readUSHORT p.Data 2
  let env := ExFreePoolWithTag p.env p.Buffer
  let c := CH341UsbGetDescriptor env USB_CONFIGURATION_DESCRIPTOR_TYPE wTotalLength
  if !NT_SUCCESS c.Status then (c.Status, DeviceExtension, c.env) else
  let ConfigDescriptor := c.Data
  let bNumInterfaces := readUCHAR ConfigDescriptor 4
  if bNumInterfaces ≠ 1 then
    (STATUS_DEVICE_CONFIGURATION_ERROR, DeviceExtension, ExFreePoolWithTag c.env c.Buffer)
  else
  match c.env.ParseInterface ConfigDescriptor with
  | none =>
    (STATUS_DEVICE_CONFIGURATION_ERROR, DeviceExtension, ExFreePoolWithTag c.env c.Buffer)
  | some InterfaceDescriptor =>
    let k := CH341UsbConfigureDevice DeviceExtension c.env ConfigDescriptor InterfaceDescriptor
    if !NT_SUCCESS k.1 then
      (k.1, k.2.1, ExFreePoolWithTag k.2.2 c.Buffer)
    else
      let b := CH341UsbStart_bringUp (ExFreePoolWithTag k.2.2 c.Buffer)
      (b.1, k.2.1, b.2)

def CH341UsbStop (env : Env) : NTSTATUS × Env :=
  CH341UsbUnconfigureDevice env

/-- The bytes of the local `Line` record: baud rate (little endian), stop bits, parity, data
bits.  The record is 8 bytes long; its last byte is padding and not determined. -/
def CH341UsbSetLine_Line (BaudRate StopBits Parity DataBits : Nat) : List Nat :=
  [BaudRate % 256, BaudRate / 256 % 256, BaudRate / 65536 % 256, BaudRate / 16777216 % 256,
   StopBits % 256, Parity % 256, DataBits % 256]

def CH341UsbSetLine (env : Env) (BaudRate StopBits Parity DataBits : Nat) : NTSTATUS × Env :=
  let a := ExAllocatePoolWithTag env
  let Urb := a.1
  if Urb = 0 then
    (STATUS_INSUFFICIENT_RESOURCES, a.2)
  else
    let s := CH341UsbSubmitUrb a.2
      (UsbBuildVendorRequest URB_FUNCTION_CLASS_DEVICE USBD_TRANSFER_DIRECTION_OUT 0
        CH341_SET_LINE_REQUEST 0 0 (CH341UsbSetLine_Line BaudRate StopBits Parity DataBits) 8)
    let Status := s.1
    if !NT_SUCCESS Status then
      (Status, ExFreePoolWithTag s.2.2 Urb)
    else if !USBD_SUCCESS s.2.1.Status then
      (s.2.1.Status, ExFreePoolWithTag s.2.2 Urb)
    else
      (Status, ExFreePoolWithTag s.2.2 Urb)

/-- The condition of the `NT_ASSERT` in `CH341UsbSetControlLines`:
`(DtrRts & ~(SERIAL_DTR_STATE | SERIAL_RTS_STATE)) == 0`. -/
def CH341UsbSetControlLines_NT_ASSERT (DtrRts : Nat) : Bool :=
  decide (DtrRts &&& (0xFFFFFFFF ^^^ (SERIAL_DTR_STATE ||| SERIAL_RTS_STATE)) = 0)

def CH341UsbSetControlLines (env : Env) (DtrRts : Nat) : NTSTATUS × Env :=
  let a := ExAllocatePoolWithTag env
  let Urb := a.1
  if Urb = 0 then
    (STATUS_INSUFFICIENT_RESOURCES, a.2)
  else
    let s := CH341UsbSubmitUrb a.2
      (UsbBuildVendorRequest URB_FUNCTION_CLASS_DEVICE USBD_TRANSFER_DIRECTION_OUT 0
        CH341_SET_CONTROL_REQUEST DtrRts 0 [] 0)
    let Status := s.1
    if !NT_SUCCESS Status then
      (Status, ExFreePoolWithTag s.2.2 Urb)
    else if !USBD_SUCCESS s.2.1.Status then
      (s.2.1.Status, ExFreePoolWithTag s.2.2 Urb)
    else
      (Status, ExFreePoolWithTag s.2.2 Urb)

/-- Outcome of a dispatch routine: the returned status, the request, the device extension and
the system as the routine leaves them. -/
structure DispatchResult where
  Status : NTSTATUS
  Irp : IRP
  DeviceExtension : DEVICE_EXTENSION
  env : Env

/-- The completion routine of a read: `Urb` is the URB as the bus left it, `Context` its block. -/
def CH341UsbReadCompletion (env : Env) (Irp : IRP) (Urb : URB) (Context : Nat) :
    NTSTATUS × IRP × Env :=
  let Irp :=
    if NT_SUCCESS Irp.Status then
      if USBD_SUCCESS Urb.Status then { Irp with Information := Urb.TransferBufferLength }
      else Irp
    else Irp
  (STATUS_CONTINUE_COMPLETION, Irp, ExFreePoolWithTag env Context)

def CH341UsbRead (DeviceExtension : DEVICE_EXTENSION) (Irp : IRP) (env : Env) : DispatchResult :=
  let a := ExAllocatePoolWithTag env
  let Urb := a.1
  if Urb = 0 then
    let Status := STATUS_INSUFFICIENT_RESOURCES
    ⟨Status, IoCompleteRequest { Irp with Information := 0, Status := Status },
      DeviceExtension, a.2⟩
  else
    let U := UsbBuildInterruptOrBulkTransferRequest DeviceExtension.BulkInPipe Irp.SystemBuffer
      Irp.Length (USBD_TRANSFER_DIRECTION_IN ||| USBD_SHORT_TRANSFER_OK)
    let c := IoSetCompletionRoutineEx a.2
    let Status := c.1
    if !NT_SUCCESS Status then
      ⟨Status, IoCompleteRequest { Irp with Information := 0, Status := Status },
        DeviceExtension, c.2⟩
    else
      let Irp := IoMarkIrpPending Irp
      let d := IoCallDriver c.2
        (LowerRequest.Transfer Irp IRP_MJ_INTERNAL_DEVICE_CONTROL IOCTL_INTERNAL_USB_SUBMIT_URB U
          Urb COMPLETION_ROUTINE.ReadCompletion)
      ⟨STATUS_PENDING, Irp, DeviceExtension, d.2⟩

/-- The completion routine of a write: `Urb` is the URB as the bus left it, `Context` its block. -/
def CH341UsbWriteCompletion (env : Env) (Irp : IRP) (Urb : URB) (Context : Nat) :
    NTSTATUS × IRP × Env :=
  let Irp :=
    if NT_SUCCESS Irp.Status then
      if USBD_SUCCESS Urb.Status then { Irp with Information := Urb.TransferBufferLength }
      else Irp
    else Irp
  (STATUS_CONTINUE_COMPLETION, Irp, ExFreePoolWithTag env Context)

def CH341UsbWrite (DeviceExtension : DEVICE_EXTENSION) (Irp : IRP) (env : Env) : DispatchResult :=
  let a := ExAllocatePoolWithTag env
  let Urb := a.1
  if Urb = 0 then
    let Status := STATUS_INSUFFICIENT_RESOURCES
    ⟨Status, IoCompleteRequest { Irp with Information := 0, Status := Status },
      DeviceExtension, a.2⟩
  else
    let U := UsbBuildInterruptOrBulkTransferRequest DeviceExtension.BulkOutPipe Irp.SystemBuffer
      Irp.Length USBD_TRANSFER_DIRECTION_OUT
    let c := IoSetCompletionRoutineEx a.2
    let Status := c.1
    if !NT_SUCCESS Status then
      ⟨Status, IoCompleteRequest { Irp with Information := 0, Status := Status },
        DeviceExtension, c.2⟩
    else
      let Irp := IoMarkIrpPending Irp
      let d := IoCallDriver c.2
        (LowerRequest.Transfer Irp IRP_MJ_INTERNAL_DEVICE_CONTROL IOCTL_INTERNAL_USB_SUBMIT_URB U
          Urb COMPLETION_ROUTINE.WriteCompletion)
      ⟨STATUS_PENDING, Irp, DeviceExtension, d.2⟩

/-! ## ioctl.c -/

def CH341SetLine (DeviceExtension : DEVICE_EXTENSION) (env : Env) : NTSTATUS × Env :=
  CH341UsbSetLine env DeviceExtension.BaudRate DeviceExtension.StopBits DeviceExtension.Parity
    DeviceExtension.DataBits

def CH341GetBaudRate (DeviceExtension : DEVICE_EXTENSION) (Irp : IRP) : NTSTATUS × IRP :=
  if Irp.OutputBufferLength < sizeof_SERIAL_BAUD_RATE then
    (STATUS_BUFFER_TOO_SMALL, Irp)
  else
    (STATUS_SUCCESS,
     { Irp with
       SystemBuffer := writeULONG Irp.SystemBuffer 0 DeviceExtension.BaudRate
       Information := sizeof_SERIAL_BAUD_RATE })

def CH341SetBaudRate (DeviceExtension : DEVICE_EXTENSION) (Irp : IRP) (env : Env) :
    NTSTATUS × DEVICE_EXTENSION × Env :=
  if Irp.InputBufferLength < sizeof_SERIAL_BAUD_RATE then
    (STATUS_BUFFER_TOO_SMALL, DeviceExtension, env)
  else
    let DeviceExtension := { DeviceExtension with BaudRate := readULONG Irp.SystemBuffer 0 }
    let l := CH341SetLine DeviceExtension env
    (l.1, DeviceExtension, l.2)

def CH341GetLineControl (DeviceExtension : DEVICE_EXTENSION) (Irp : IRP) : NTSTATUS × IRP :=
  if Irp.OutputBufferLength < sizeof_SERIAL_LINE_CONTROL then
    (STATUS_BUFFER_TOO_SMALL, Irp)
  else
    (STATUS_SUCCESS,
     { Irp with
       SystemBuffer :=
         writeUCHAR (writeUCHAR (writeUCHAR Irp.SystemBuffer 0 DeviceExtension.StopBits)
           1 DeviceExtension.Parity) 2 DeviceExtension.DataBits
       Information := sizeof_SERIAL_LINE_CONTROL })

def CH341SetLineControl (DeviceExtension : DEVICE_EXTENSION) (Irp : IRP) (env : Env) :
    NTSTATUS × DEVICE_EXTENSION × Env :=
  if Irp.InputBufferLength < sizeof_SERIAL_LINE_CONTROL then
    (STATUS_BUFFER_TOO_SMALL, DeviceExtension, env)
  else
    let DeviceExtension :=
      { DeviceExtension with
        StopBits := readUCHAR Irp.SystemBuffer 0
        Parity := readUCHAR Irp.SystemBuffer 1
        DataBits := readUCHAR Irp.SystemBuffer 2 }
    let l := CH341SetLine DeviceExtension env
    (l.1, DeviceExtension, l.2)

/-- The memory at `&DeviceExtension->Chars`: the six characters, then the two bytes of padding
that precede `HandFlow` (zeroed with the extension and never written). -/
def SERIAL_CHARS.bytes (c : SERIAL_CHARS) : List Nat :=
  [c.EofChar % 256, c.ErrorChar % 256, c.BreakChar % 256, c.EventChar % 256,
   c.XonChar % 256, c.XoffChar % 256, 0, 0]

def SERIAL_CHARS.ofBytes (buf : List Nat) : SERIAL_CHARS :=
  { EofChar := readUCHAR buf 0, ErrorChar := readUCHAR buf 1, BreakChar := readUCHAR buf 2,
    EventChar := readUCHAR buf 3, XonChar := readUCHAR buf 4, XoffChar := readUCHAR buf 5 }

/-- The memory at `&DeviceExtension->HandFlow`: four 32-bit fields. -/
def SERIAL_HANDFLOW.bytes (h : SERIAL_HANDFLOW) : List Nat :=
  bytesULONG h.ControlHandShake ++ bytesULONG h.FlowReplace ++ bytesULONG h.XonLimit
    ++ bytesULONG h.XoffLimit

def SERIAL_HANDFLOW.ofBytes (buf : List Nat) : SERIAL_HANDFLOW :=
  { ControlHandShake := readULONG buf 0, FlowReplace := readULONG buf 4,
    XonLimit := readULONG buf 8, XoffLimit := readULONG buf 12 }

/-- The copy length is `sizeof(Chars)`, the size of the pointer. -/
def CH341GetChars (DeviceExtension : DEVICE_EXTENSION) (Irp : IRP) (env : Env) : NTSTATUS × IRP :=
  if Irp.OutputBufferLength < sizeof_SERIAL_CHARS then
    (STATUS_BUFFER_TOO_SMALL, Irp)
  else
    (STATUS_SUCCESS,
     { Irp with
       SystemBuffer := RtlCopyMemory Irp.SystemBuffer DeviceExtension.Chars.bytes env.sizeof_PVOID
       Information := sizeof_SERIAL_CHARS })

/-- The copy length is `sizeof(HandFlow)`, the size of the pointer. -/
def CH341GetHandFlow (DeviceExtension : DEVICE_EXTENSION) (Irp : IRP) (env : Env) :
    NTSTATUS × IRP :=
  if Irp.OutputBufferLength < sizeof_SERIAL_HANDFLOW then
    (STATUS_BUFFER_TOO_SMALL, Irp)
  else
    (STATUS_SUCCESS,
     { Irp with
       SystemBuffer :=
         RtlCopyMemory Irp.SystemBuffer DeviceExtension.HandFlow.bytes env.sizeof_PVOID
       Information := sizeof_SERIAL_HANDFLOW })

/-- The `switch` of `CH341DispatchDeviceControl`; `Status` of the result is the local `Status`
at the end of the `switch`. -/
def CH341DispatchDeviceControl_switch (DeviceExtension : DEVICE_EXTENSION) (Irp : IRP)
    (env : Env) : DispatchResult :=
  let IoControlCode := Irp.IoControlCode
  if IoControlCode = IOCTL_SERIAL_GET_BAUD_RATE then
    let g := CH341GetBaudRate DeviceExtension Irp
    ⟨g.1, g.2, DeviceExtension, env⟩
  else if IoControlCode = IOCTL_SERIAL_SET_BAUD_RATE then
    let r := CH341SetBaudRate DeviceExtension Irp env
    ⟨r.1, Irp, r.2.1, r.2.2⟩
  else if IoControlCode = IOCTL_SERIAL_GET_LINE_CONTROL then
    let g := CH341GetLineControl DeviceExtension Irp
    ⟨g.1, g.2, DeviceExtension, env⟩
  else if IoControlCode = IOCTL_SERIAL_SET_LINE_CONTROL then
    let r := CH341SetLineControl DeviceExtension Irp env
    ⟨r.1, Irp, r.2.1, r.2.2⟩
  else if IoControlCode = IOCTL_SERIAL_GET_CHARS then
    let g := CH341GetChars DeviceExtension Irp env
    ⟨g.1, g.2, DeviceExtension, env⟩
  else if IoControlCode = IOCTL_SERIAL_SET_CHARS then
    let DeviceExtension :=
      if Irp.InputBufferLength < sizeof_SERIAL_CHARS then DeviceExtension
      else { DeviceExtension with Chars := SERIAL_CHARS.ofBytes Irp.SystemBuffer }
    ⟨STATUS_SUCCESS, Irp, DeviceExtension, env⟩
  else if IoControlCode = IOCTL_SERIAL_GET_HANDFLOW then
    let g := CH341GetHandFlow DeviceExtension Irp env
    ⟨g.1, g.2, DeviceExtension, env⟩
  else if IoControlCode = IOCTL_SERIAL_SET_HANDFLOW then
    let DeviceExtension :=
      if Irp.InputBufferLength < sizeof_SERIAL_HANDFLOW then DeviceExtension
      else { DeviceExtension with HandFlow := SERIAL_HANDFLOW.ofBytes Irp.SystemBuffer }
    ⟨STATUS_SUCCESS, Irp, DeviceExtension, env⟩
  else if IoControlCode = IOCTL_SERIAL_CLR_DTR then
    let DeviceExtension :=
      { DeviceExtension with
        DtrRts := (DeviceExtension.DtrRts &&& (0xFFFFFFFF ^^^ SERIAL_DTR_STATE)) % 65536 }
    let r := CH341UsbSetControlLines env DeviceExtension.DtrRts
    ⟨r.1, Irp, DeviceExtension, r.2⟩
  else if IoControlCode = IOCTL_SERIAL_SET_DTR then
    let DeviceExtension :=
      { DeviceExtension with DtrRts := (DeviceExtension.DtrRts ||| SERIAL_DTR_STATE) % 65536 }
    let r := CH341UsbSetControlLines env DeviceExtension.DtrRts
    ⟨r.1, Irp, DeviceExtension, r.2⟩
  else if IoControlCode = IOCTL_SERIAL_CLR_RTS then
    let DeviceExtension :=
      { DeviceExtension with
        DtrRts := (DeviceExtension.DtrRts &&& (0xFFFFFFFF ^^^ SERIAL_RTS_STATE)) % 65536 }
    let r := CH341UsbSetControlLines env DeviceExtension.DtrRts
    ⟨r.1, Irp, DeviceExtension, r.2⟩
  else if IoControlCode = IOCTL_SERIAL_SET_RTS then
    let DeviceExtension :=
      { DeviceExtension with DtrRts := (DeviceExtension.DtrRts ||| SERIAL_RTS_STATE) % 65536 }
    let r := CH341UsbSetControlLines env DeviceExtension.DtrRts
    ⟨r.1, Irp, DeviceExtension, r.2⟩
  else if IoControlCode = IOCTL_SERIAL_GET_DTRRTS then
    let Irp :=
      if Irp.OutputBufferLength < sizeof_ULONG then Irp
      else { Irp with SystemBuffer := writeULONG Irp.SystemBuffer 0 DeviceExtension.DtrRts }
    ⟨STATUS_NOT_SUPPORTED, Irp, DeviceExtension, env⟩
  else
    ⟨STATUS_NOT_SUPPORTED, Irp, DeviceExtension, env⟩

def CH341DispatchDeviceControl (DeviceExtension : DEVICE_EXTENSION) (Irp : IRP) (env : Env) :
    DispatchResult :=
  if DeviceExtension.PnpState = Deleted then
    let Status := STATUS_NO_SUCH_DEVICE
    ⟨Status, IoCompleteRequest { Irp with Status := Status }, DeviceExtension, env⟩
  else
    let r := CH341DispatchDeviceControl_switch DeviceExtension Irp env
    ⟨r.Status, IoCompleteRequest { r.Irp with Status := r.Status }, r.DeviceExtension, r.env⟩

/-! ## pnp.c -/

def CH341DestroyDevice (DeviceExtension : DEVICE_EXTENSION) (env : Env) :
    NTSTATUS × DEVICE_EXTENSION × Env :=
  let env := { env with SerialCount := (env.SerialCount + 4294967295) % 4294967296 }
  let env :=
    if DeviceExtension.ComPortName.Buffer ≠ 0 then
      ExFreePoolWithTag env DeviceExtension.ComPortName.Buffer
    else env
  let env :=
    if DeviceExtension.InterfaceLinkName.Buffer ≠ 0 then
      ExFreePoolWithTag env DeviceExtension.InterfaceLinkName.Buffer
    else env
  let DeviceExtension :=
    if DeviceExtension.InterfaceLinkName.Buffer ≠ 0 then
      { DeviceExtension with InterfaceLinkName := ⟨0, 0⟩ }
    else DeviceExtension
  let env := ExFreePoolWithTag env DeviceExtension.DeviceName.Buffer
  (STATUS_SUCCESS, DeviceExtension, env)

/-- The device extension after `RtlZeroMemory`: every field zero, which for the two lifecycle
fields is `NotStarted`, the first enumerator. -/
def RtlZeroMemory : DEVICE_EXTENSION :=
  { LowerDevice := 0, PnpState := NotStarted, PreviousPnpState := NotStarted,
    DeviceName := ⟨0, 0⟩, InterfaceLinkName := ⟨0, 0⟩, ComPortName := ⟨0, 0⟩,
    BulkInPipe := 0, BulkOutPipe := 0, InterruptInPipe := 0,
    BaudRate := 0, StopBits := 0, Parity := 0, DataBits := 0,
    Chars := ⟨0, 0, 0, 0, 0, 0⟩, HandFlow := ⟨0, 0, 0, 0⟩, DtrRts := 0 }

/-- The device extension that `CH341AddDevice` leaves when it succeeds: zeroed, then the device
name stored, the lower device set by the attach call and, in `CH341InitializeDevice`, the
interface link name and the COM port name (null when there is none) filled in.  The names and
the lower device are what the platform hands out; the failure paths, which leave no device, are
not part of this definition. -/
def CH341AddDevice (DeviceName : UNICODE_STRING) (LowerDevice : Nat)
    (InterfaceLinkName ComPortName : UNICODE_STRING) : DEVICE_EXTENSION :=
  let DeviceExtension := RtlZeroMemory
  let DeviceExtension := { DeviceExtension with DeviceName := DeviceName }
  let DeviceExtension := { DeviceExtension with LowerDevice := LowerDevice }
  let DeviceExtension := { DeviceExtension with InterfaceLinkName := InterfaceLinkName }
  { DeviceExtension with ComPortName := ComPortName }

def CH341StartDevice (DeviceExtension : DEVICE_EXTENSION) (env : Env) :
    NTSTATUS × DEVICE_EXTENSION × Env :=
  let u := CH341UsbStart DeviceExtension env
  if !NT_SUCCESS u.1 then u
  else
    let DeviceExtension :=
      { u.2.1 with
        BaudRate := 115200
        StopBits := 0
        Parity := 0
        DataBits := 0
        Chars := { u.2.1.Chars with XonChar := 0x11, XoffChar := 0x13 }
        HandFlow :=
          { ControlHandShake := SERIAL_DTR_CONTROL, FlowReplace := SERIAL_RTS_CONTROL,
            XonLimit := 2048, XoffLimit := 512 } }
    let l := CH341SetLine DeviceExtension u.2.2
    let i := IoSetDeviceInterfaceState l.2 DeviceExtension.InterfaceLinkName true
    if !NT_SUCCESS i.1 then (i.1, DeviceExtension, i.2)
    else if DeviceExtension.ComPortName.Buffer ≠ 0 then
      let c := IoCreateSymbolicLink i.2 DeviceExtension.ComPortName DeviceExtension.DeviceName
      if !NT_SUCCESS c.1 then
        let d := IoSetDeviceInterfaceState c.2 DeviceExtension.InterfaceLinkName false
        (c.1, DeviceExtension, d.2)
      else (c.1, DeviceExtension, c.2)
    else (i.1, DeviceExtension, i.2)

def CH341StopDevice (DeviceExtension : DEVICE_EXTENSION) (env : Env) : NTSTATUS × Env :=
  let env :=
    if DeviceExtension.ComPortName.Buffer ≠ 0 then
      (IoDeleteSymbolicLink env DeviceExtension.ComPortName).2
    else env
  IoSetDeviceInterfaceState env DeviceExtension.InterfaceLinkName false

/-- The common tail of `CH341DispatchPnp`: success status, skip, pass down. -/
def CH341DispatchPnp_passDown (DeviceExtension : DEVICE_EXTENSION) (Irp : IRP) (env : Env) :
    DispatchResult :=
  let Irp := { Irp with Status := STATUS_SUCCESS }
  let c := IoCallDriver env (LowerRequest.Forward Irp)
  ⟨c.1.CallStatus, Irp, DeviceExtension, c.2⟩

/-- The `switch` on the minor function is a chain of tests in the order of the source.  On
removal the device extension is kept as `CH341DestroyDevice` leaves it: detaching from and
deleting the device object have no counterpart here. -/
def CH341DispatchPnp (DeviceExtension : DEVICE_EXTENSION) (Irp : IRP) (env : Env) :
    DispatchResult :=
  if DeviceExtension.PnpState = Deleted then
    let Status := STATUS_NO_SUCH_DEVICE
    ⟨Status, IoCompleteRequest { Irp with Status := Status }, DeviceExtension, env⟩
  else if Irp.MinorFunction = IRP_MN_START_DEVICE then
    let f := IoForwardIrpSynchronously env Irp
    let Irp := f.2.1
    let Status := if f.1 then Irp.Status else STATUS_UNSUCCESSFUL
    if !NT_SUCCESS Status then
      ⟨Status, IoCompleteRequest { Irp with Status := Status }, DeviceExtension, f.2.2⟩
    else
      let s := CH341StartDevice DeviceExtension f.2.2
      let Status := s.1
      if !NT_SUCCESS Status then
        ⟨Status, IoCompleteRequest { Irp with Status := Status }, s.2.1, s.2.2⟩
      else
        ⟨Status, IoCompleteRequest { Irp with Status := Status },
          { s.2.1 with PnpState := Started }, s.2.2⟩
  else if Irp.MinorFunction = IRP_MN_QUERY_STOP_DEVICE then
    CH341DispatchPnp_passDown
      { DeviceExtension with
        PreviousPnpState := DeviceExtension.PnpState
        PnpState := StopPending } Irp env
  else if Irp.MinorFunction = IRP_MN_QUERY_REMOVE_DEVICE then
    CH341DispatchPnp_passDown
      { DeviceExtension with
        PreviousPnpState := DeviceExtension.PnpState
        PnpState := RemovePending } Irp env
  else if Irp.MinorFunction = IRP_MN_CANCEL_REMOVE_DEVICE ∨
      Irp.MinorFunction = IRP_MN_CANCEL_STOP_DEVICE then
    CH341DispatchPnp_passDown
      { DeviceExtension with PnpState := DeviceExtension.PreviousPnpState } Irp env
  else if Irp.MinorFunction = IRP_MN_STOP_DEVICE then
    let DeviceExtension := { DeviceExtension with PnpState := Stopped }
    let u := CH341UsbStop env
    CH341DispatchPnp_passDown DeviceExtension Irp u.2
  else if Irp.MinorFunction = IRP_MN_SURPRISE_REMOVAL then
    let DeviceExtension := { DeviceExtension with PnpState := SurpriseRemovePending }
    let t := CH341StopDevice DeviceExtension env
    CH341DispatchPnp_passDown DeviceExtension Irp t.2
  else if Irp.MinorFunction = IRP_MN_REMOVE_DEVICE then
    let DeviceExtension :=
      { DeviceExtension with
        PreviousPnpState := DeviceExtension.PnpState
        PnpState := Deleted }
    let env :=
      if DeviceExtension.PreviousPnpState ≠ SurpriseRemovePending then
        (CH341StopDevice DeviceExtension env).2
      else env
    let Irp := { Irp with Status := STATUS_SUCCESS }
    let c := IoCallDriver env (LowerRequest.Forward Irp)
    let d := CH341DestroyDevice DeviceExtension c.2
    ⟨c.1.CallStatus, Irp, d.2.1, d.2.2⟩
  else
    let c := IoCallDriver env (LowerRequest.Forward Irp)
    ⟨c.1.CallStatus, Irp, DeviceExtension, c.2⟩

/-! ## ch341.c -/

/-- The call `PoStartNextPowerIrp` has no effect on the state kept here; `PoCallDriver` is a pass
to the lower device like `IoCallDriver`. -/
def CH341DispatchPower (DeviceExtension : DEVICE_EXTENSION) (Irp : IRP) (env : Env) :
    DispatchResult :=
  if DeviceExtension.PnpState = Deleted then
    let Status := STATUS_NO_SUCH_DEVICE
    ⟨Status, IoCompleteRequest { Irp with Status := Status }, DeviceExtension, env⟩
  else
    let c := IoCallDriver env (LowerRequest.Forward Irp)
    ⟨c.1.CallStatus, Irp, DeviceExtension, c.2⟩

def CH341DispatchSystemControl (DeviceExtension : DEVICE_EXTENSION) (Irp : IRP) (env : Env) :
    DispatchResult :=
  if DeviceExtension.PnpState = Deleted then
    let Status := STATUS_NO_SUCH_DEVICE
    ⟨Status, IoCompleteRequest { Irp with Status := Status }, DeviceExtension, env⟩
  else
    let c := IoCallDriver env (LowerRequest.Forward Irp)
    ⟨c.1.CallStatus, Irp, DeviceExtension, c.2⟩

def CH341DispatchCreate (DeviceExtension : DEVICE_EXTENSION) (Irp : IRP) (env : Env) :
    DispatchResult :=
  let Status := STATUS_SUCCESS
  ⟨Status, IoCompleteRequest { Irp with Status := Status }, DeviceExtension, env⟩

def CH341DispatchClose (DeviceExtension : DEVICE_EXTENSION) (Irp : IRP) (env : Env) :
    DispatchResult :=
  let Status := STATUS_SUCCESS
  ⟨Status, IoCompleteRequest { Irp with Status := Status }, DeviceExtension, env⟩

def CH341DispatchRead (DeviceExtension : DEVICE_EXTENSION) (Irp : IRP) (env : Env) :
    DispatchResult :=
  if Irp.Length = 0 then
    let Status := STATUS_SUCCESS
    ⟨Status, IoCompleteRequest { Irp with Status := Status }, DeviceExtension, env⟩
  else
    CH341UsbRead DeviceExtension Irp env

def CH341DispatchWrite (DeviceExtension : DEVICE_EXTENSION) (Irp : IRP) (env : Env) :
    DispatchResult :=
  if Irp.Length = 0 then
    let Status := STATUS_SUCCESS
    ⟨Status, IoCompleteRequest { Irp with Status := Status }, DeviceExtension, env⟩
  else
    CH341UsbWrite DeviceExtension Irp env

/-- The dispatch table that `DriverEntry` fills in: the routine for each major function code,
`none` for a code the driver sets no routine for. -/
def DriverEntry (MajorFunction : Nat) :
    Option (DEVICE_EXTENSION → IRP → Env → DispatchResult) :=
  if MajorFunction = IRP_MJ_PNP then some CH341DispatchPnp
  else if MajorFunction = IRP_MJ_POWER then some CH341DispatchPower
  else if MajorFunction = IRP_MJ_SYSTEM_CONTROL then some CH341DispatchSystemControl
  else if MajorFunction = IRP_MJ_DEVICE_CONTROL then some CH341DispatchDeviceControl
  else if MajorFunction = IRP_MJ_INTERNAL_DEVICE_CONTROL then some CH341DispatchDeviceControl
  else if MajorFunction = IRP_MJ_CREATE then some CH341DispatchCreate
  else if MajorFunction = IRP_MJ_CLOSE then some CH341DispatchClose
  else if MajorFunction = IRP_MJ_READ then some CH341DispatchRead
  else if MajorFunction = IRP_MJ_WRITE then some CH341DispatchWrite
  else none

/-- One request delivered to the device: the routine of its major function runs on the device
extension and the system; a request the driver has no routine for leaves both as they are. -/
def deliver (s : DEVICE_EXTENSION × Env) (Irp : IRP) : DEVICE_EXTENSION × Env :=
  match DriverEntry Irp.MajorFunction with
  | some Dispatch => ((Dispatch s.1 Irp s.2).DeviceExtension, (Dispatch s.1 Irp s.2).env)
  | none => s

/-- A sequence of requests delivered one after the other. -/
def deliverAll (s : DEVICE_EXTENSION × Env) (Irps : List IRP) : DEVICE_EXTENSION × Env :=
  Irps.foldl deliver s

/-- The lower device completes a transfer handed to it with the status block and URB fields of
`Answer`: the completion routine registered on the request runs with the registered context.
Requests without a completion routine of the driver give `none`. -/
def completeTransfer (env : Env) (Request : LowerRequest) (Answer : Response) :
    Option (NTSTATUS × IRP × Env) :=
  match Request with
  | LowerRequest.Transfer Irp _ _ Urb Context Routine =>
    match Routine with
    | COMPLETION_ROUTINE.ReadCompletion =>
      some (CH341UsbReadCompletion env
        { Irp with Status := Answer.IoStatus, Information := Answer.Information }
        (Answer.applyTo Urb) Context)
    | COMPLETION_ROUTINE.WriteCompletion =>
      some (CH341UsbWriteCompletion env
        { Irp with Status := Answer.IoStatus, Information := Answer.Information }
        (Answer.applyTo Urb) Context)
  | _ => none

/-! ## Sample objects -/

/-- An answer of the lower device reporting success everywhere and carrying no data. -/
def okResponse : Response :=
  { ForwardOk := true, CallStatus := STATUS_SUCCESS, IoStatus := STATUS_SUCCESS, Information := 0,
    UrbStatus := 0, TransferBufferLength := 0, TransferBuffer := [], Pipes := [] }

/-- A system in which every allocation and every naming call succeeds and whose lower device
answers the `n`-th request with `Lower n`; nothing has happened in it yet. -/
def scriptedEnv (Lower : Nat → Response) : Env :=
  { AllocOk := fun _ => true, AllocCount := 0, Allocated := [], Freed := [],
    Lower := Lower, Sent := [], Platform := fun _ => STATUS_SUCCESS, PlatformCalls := [],
    ParseInterface := fun _ => some 9, SerialCount := 1, sizeof_PVOID := 8 }

/-- A device extension in lifecycle state `s` with handles `1`, `2`, `3` bound and the line
state zero. -/
def sampleExtension (s : DEVICE_PNP_STATE) : DEVICE_EXTENSION :=
  { LowerDevice := 1, PnpState := s, PreviousPnpState := NotStarted,
    DeviceName := ⟨44, 100⟩, InterfaceLinkName := ⟨80, 101⟩, ComPortName := ⟨0, 0⟩,
    BulkInPipe := 1, BulkOutPipe := 2, InterruptInPipe := 3,
    BaudRate := 0, StopBits := 0, Parity := 0, DataBits := 0,
    Chars := ⟨0, 0, 0, 0, 0, 0⟩, HandFlow := ⟨0, 0, 0, 0⟩, DtrRts := 0 }

/-- A request as the I/O manager delivers it: status and byte count zero, not pending, not
completed. -/
def freshIrp (MajorFunction MinorFunction IoControlCode InputBufferLength OutputBufferLength
    Length : Nat) (SystemBuffer : List Nat) : IRP :=
  { MajorFunction := MajorFunction, MinorFunction := MinorFunction,
    IoControlCode := IoControlCode, InputBufferLength := InputBufferLength,
    OutputBufferLength := OutputBufferLength, Length := Length, SystemBuffer := SystemBuffer,
    Status := 0, Information := 0, PendingReturned := false, Completed := false }

/-- A started device whose lower device accepts everything receives a set-DTR request, a set-RTS
request, then a get-DTR/RTS request with a four-byte output buffer: the outcome of the last. -/
def getDtrRtsScenario : DispatchResult :=
  let a := CH341DispatchDeviceControl (sampleExtension Started)
    (freshIrp IRP_MJ_DEVICE_CONTROL 0 IOCTL_SERIAL_SET_DTR 0 0 0 [])
    (scriptedEnv fun _ => okResponse)
  let b := CH341DispatchDeviceControl a.DeviceExtension
    (freshIrp IRP_MJ_DEVICE_CONTROL 0 IOCTL_SERIAL_SET_RTS 0 0 0 []) a.env
  CH341DispatchDeviceControl b.DeviceExtension
    (freshIrp IRP_MJ_DEVICE_CONTROL 0 IOCTL_SERIAL_GET_DTRRTS 0 4 0 [0, 0, 0, 0]) b.env

/-- A set-baud-rate request carrying 9600. -/
def sampleSetBaud : IRP :=
  freshIrp IRP_MJ_DEVICE_CONTROL 0 IOCTL_SERIAL_SET_BAUD_RATE 4 0 0 [128, 37, 0, 0]

/-- A set-line-control request carrying stop-bits code 2, parity code 0, word length 8. -/
def sampleSetLine : IRP :=
  freshIrp IRP_MJ_DEVICE_CONTROL 0 IOCTL_SERIAL_SET_LINE_CONTROL 3 0 0 [2, 0, 8]

/-- A get-baud-rate request with a four-byte output buffer. -/
def sampleGetBaud : IRP :=
  freshIrp IRP_MJ_DEVICE_CONTROL 0 IOCTL_SERIAL_GET_BAUD_RATE 0 4 0 [255, 255, 255, 255]

/-- A get-line-control request with a three-byte output buffer. -/
def sampleGetLine : IRP :=
  freshIrp IRP_MJ_DEVICE_CONTROL 0 IOCTL_SERIAL_GET_LINE_CONTROL 0 3 0 [255, 255, 255]

/-- A bus that accepts the first two bring-up requests and refuses the third at bus level. -/
def failingThirdBus (n : Nat) : Response :=
  if n = 2 then { okResponse with CallStatus := STATUS_UNSUCCESSFUL } else okResponse

/-- A bus that accepts everything and answers every read with the byte `7`. -/
def oddProbeBus (_ : Nat) : Response :=
  { okResponse with TransferBufferLength := 1, TransferBuffer := [7] }

/-- A bus whose answer to a select-configuration request lists a single pipe: bulk, direction in
(endpoint address `0x82`), handle `5`. -/
def bulkInOnlyBus (_ : Nat) : Response :=
  { okResponse with Pipes := [{ PipeType := UsbdPipeTypeBulk, EndpointAddress := 0x82, PipeHandle := 5 }] }

/-- A device extension that has not been configured: the three endpoint handles are unset. -/
def unconfiguredExtension : DEVICE_EXTENSION :=
  { sampleExtension NotStarted with BulkInPipe := 0, BulkOutPipe := 0, InterruptInPipe := 0 }

/-- A bus that answers the three descriptor fetches of start-up with success; the configuration
descriptor it returns has total length 9 and declares two interfaces. -/
def twoInterfacesBus (_ : Nat) : Response :=
  { okResponse with TransferBufferLength := 9, TransferBuffer := [9, 2, 9, 0, 2, 1, 0, 0x80, 50] }

/-- A read request for four bytes. -/
def sampleRead : IRP :=
  freshIrp IRP_MJ_READ 0 0 0 0 4 [0, 0, 0, 0]

/-- A write request carrying the four bytes `1, 2, 3, 4`. -/
def sampleWrite : IRP :=
  freshIrp IRP_MJ_WRITE 0 0 0 0 4 [1, 2, 3, 4]

/-- A system in which the first allocation succeeds and every later one fails. -/
def firstAllocationOnly : Env :=
  { scriptedEnv fun _ => okResponse with AllocOk := fun n => decide (n = 0) }

/-- A bus on which the whole of start-up succeeds: the descriptor fetches return a configuration
descriptor of total length 9 declaring one interface (its bytes serve as device descriptor too)
and the select-configuration request is answered with a bulk-in pipe (handle `5`), a bulk-out
pipe (handle `6`) and an interrupt-in pipe (handle `7`). -/
def startBus (_ : Nat) : Response :=
  { okResponse with
    TransferBufferLength := 9
    TransferBuffer := [9, 2, 9, 0, 1, 1, 0, 0x80, 50]
    Pipes :=
      [{ PipeType := UsbdPipeTypeBulk, EndpointAddress := 0x82, PipeHandle := 5 },
       { PipeType := UsbdPipeTypeBulk, EndpointAddress := 0x02, PipeHandle := 6 },
       { PipeType := UsbdPipeTypeInterrupt, EndpointAddress := 0x81, PipeHandle := 7 }] }

/-- The bus `startBus` with the one difference that the request of index 16, which in a start
is the set-line request (after the forwarded start request, three descriptor fetches, the
select-configuration request and the eleven bring-up requests), fails at bus level. -/
def lineFailsBus (n : Nat) : Response :=
  if n = 16 then { startBus n with CallStatus := STATUS_UNSUCCESSFUL } else startBus n

/-- A start request as the PnP manager delivers it. -/
def sampleStart : IRP :=
  freshIrp IRP_MJ_PNP IRP_MN_START_DEVICE 0 0 0 0 []

/-- A freshly attached device without COM port name. -/
def freshDevice : DEVICE_EXTENSION :=
  CH341AddDevice ⟨44, 100⟩ 1 ⟨80, 101⟩ ⟨0, 0⟩

/-- A PnP request with the given minor function code. -/
def pnpIrp (MinorFunction : Nat) : IRP :=
  freshIrp IRP_MJ_PNP MinorFunction 0 0 0 0 []

/-- A set-chars request carrying the six characters `1, 2, 3, 4, 0x11, 0x13`. -/
def sampleSetChars : IRP :=
  freshIrp IRP_MJ_DEVICE_CONTROL 0 IOCTL_SERIAL_SET_CHARS 6 0 0 [1, 2, 3, 4, 0x11, 0x13]

/-- A set-chars request with a two-byte input buffer. -/
def shortSetChars : IRP :=
  freshIrp IRP_MJ_DEVICE_CONTROL 0 IOCTL_SERIAL_SET_CHARS 2 0 0 [1, 2]

/-- A set-handflow request carrying control handshake `1`, flow replace `0x80`, Xon limit
`2048`, Xoff limit `512`. -/
def sampleSetHandFlow : IRP :=
  freshIrp IRP_MJ_DEVICE_CONTROL 0 IOCTL_SERIAL_SET_HANDFLOW 16 0 0
    [1, 0, 0, 0, 128, 0, 0, 0, 0, 8, 0, 0, 0, 2, 0, 0]

/-- A get-handflow request with a sixteen-byte output buffer holding `0xFF` bytes. -/
def sampleGetHandFlow : IRP :=
  freshIrp IRP_MJ_DEVICE_CONTROL 0 IOCTL_SERIAL_GET_HANDFLOW 0 16 0 (List.replicate 16 255)

/-- A get-chars request with a six-byte output buffer holding `0xFF` bytes. -/
def sampleGetChars : IRP :=
  freshIrp IRP_MJ_DEVICE_CONTROL 0 IOCTL_SERIAL_GET_CHARS 0 6 0 (List.replicate 6 255)

/-! ## Specification-side predicates -/

/-- A bulk pipe with direction in. -/
def IsBulkIn (p : USBD_PIPE_INFORMATION) : Prop :=
  p.PipeType = UsbdPipeTypeBulk ∧ USB_ENDPOINT_DIRECTION_IN p.EndpointAddress = true

/-- A bulk pipe with direction out. -/
def IsBulkOut (p : USBD_PIPE_INFORMATION) : Prop :=
  p.PipeType = UsbdPipeTypeBulk ∧ USB_ENDPOINT_DIRECTION_OUT p.EndpointAddress = true

/-- An interrupt pipe with direction in. -/
def IsInterruptIn (p : USBD_PIPE_INFORMATION) : Prop :=
  p.PipeType = UsbdPipeTypeInterrupt ∧ USB_ENDPOINT_DIRECTION_IN p.EndpointAddress = true

instance (p : USBD_PIPE_INFORMATION) : Decidable (IsBulkIn p) :=
  inferInstanceAs (Decidable (_ ∧ _))

instance (p : USBD_PIPE_INFORMATION) : Decidable (IsBulkOut p) :=
  inferInstanceAs (Decidable (_ ∧ _))

instance (p : USBD_PIPE_INFORMATION) : Decidable (IsInterruptIn p) :=
  inferInstanceAs (Decidable (_ ∧ _))

/-- Between `old` and `new` nothing but the stored DTR/RTS mask differs, bit `bit` of the new mask
is `val`, and every other bit of the mask is as it was. -/
def OnlyMaskBitSet (old new : DEVICE_EXTENSION) (bit : Nat) (val : Bool) : Prop :=
  new = { old with DtrRts := new.DtrRts }
  ∧ new.DtrRts.testBit bit = val
  ∧ ∀ i, i ≠ bit → new.DtrRts.testBit i = old.DtrRts.testBit i

/-- The status `CH341UsbSubmitUrb` returns when the lower device answers `r`: the status of the
call, or the completion status when the call returned pending (the bus-level status). -/
def Response.Status (r : Response) : NTSTATUS :=
  if r.CallStatus = STATUS_PENDING then r.IoStatus else r.CallStatus

/-- A control request answered by `r` succeeds: bus-level and protocol-level status are both
successes. -/
def Response.Succeeds (r : Response) : Prop :=
  NT_SUCCESS r.Status = true ∧ USBD_SUCCESS r.UrbStatus = true

/-- A control request answered by `r` fails with error `e`: a failed bus-level status `e`, or a
successful bus-level status with a failed protocol-level status `e`. -/
def Response.FailsWith (r : Response) (e : NTSTATUS) : Prop :=
  (NT_SUCCESS r.Status = false ∧ e = r.Status)
  ∨ (NT_SUCCESS r.Status = true ∧ USBD_SUCCESS r.UrbStatus = false ∧ e = r.UrbStatus)

instance (r : Response) : Decidable r.Succeeds :=
  inferInstanceAs (Decidable (NT_SUCCESS r.Status = true ∧ USBD_SUCCESS r.UrbStatus = true))

instance (r : Response) (e : NTSTATUS) : Decidable (r.FailsWith e) :=
  inferInstanceAs (Decidable
    ((NT_SUCCESS r.Status = false ∧ e = r.Status)
      ∨ (NT_SUCCESS r.Status = true ∧ USBD_SUCCESS r.UrbStatus = false ∧ e = r.UrbStatus)))

/-- A vendor read in the words of the specification: vendor device request, direction in with
short transfer allowed, request code `0x95`, a one-byte response buffer. -/
def vendorRead (Value Index : Nat) : URB :=
  { URB.fresh with
    Function := 0x17, TransferFlags := 3, Request := 0x95, Value := Value, Index := Index,
    TransferBuffer := [], TransferBufferLength := 1 }

/-- A vendor write in the words of the specification: vendor device request, direction out,
request code `0x9A`, no data. -/
def vendorWrite (Value Index : Nat) : URB :=
  { URB.fresh with
    Function := 0x17, TransferFlags := 0, Request := 0x9A, Value := Value, Index := Index,
    TransferBuffer := [], TransferBufferLength := 0 }

/-- The eleven bring-up requests in the order of the specification (value, index). -/
def bringUpRequests : List URB :=
  [vendorRead 0x8484 0, vendorWrite 0x0404 0, vendorRead 0x8484 0, vendorRead 0x8383 0,
   vendorRead 0x8484 0, vendorWrite 0x0404 0, vendorRead 0x8484 0, vendorRead 0x8383 0,
   vendorWrite 0 1, vendorWrite 1 0, vendorWrite 2 0x44]

/-! ## Proof devices -/

/-- The system after a control helper whose three allocations succeeded has run: the URB block
allocated and freed, a request packet allocated, the URB handed to the lower device. -/
def Env.afterControl (env : Env) (Urb : URB) : Env :=
  { env with
    AllocCount := env.AllocCount + 2
    Allocated := env.Allocated ++ [env.AllocCount + 1]
    Freed := env.Freed ++ [env.AllocCount + 1]
    Sent := env.Sent ++ [LowerRequest.SubmitUrb Urb] }

/-- The status a control helper derives from an answer: the bus-level status when it is a
failure, else the protocol-level status when that is a failure, else the bus-level status. -/
def Response.Outcome (r : Response) : NTSTATUS :=
  if !NT_SUCCESS r.Status then r.Status
  else if !USBD_SUCCESS r.UrbStatus then r.UrbStatus
  else r.Status

/-- One step of a vendor sequence: a read or a write of `Value`/`Index`. -/
structure VendorStep where
  IsRead : Bool
  Value : Nat
  Index : Nat

def VendorStep.run (s : VendorStep) (env : Env) : NTSTATUS × Env :=
  if s.IsRead then dropBuffer (CH341UsbVendorRead env s.Value s.Index)
  else CH341UsbVendorWrite env s.Value s.Index

def VendorStep.urb (s : VendorStep) : URB :=
  if s.IsRead then vendorRead s.Value s.Index else vendorWrite s.Value s.Index

/-- Run the steps in order and stop at the first one whose status is a failure. -/
def runVendorSteps : List VendorStep → NTSTATUS → Env → NTSTATUS × Env
  | [], Status, env => (Status, env)
  | s :: rest, _, env => returnIfFailed (s.run env) fun r => runVendorSteps rest r.1 r.2

/-- The steps of `CH341UsbStart_bringUp`. -/
def bringUpSteps : List VendorStep :=
  [⟨true, 0x8484, 0⟩, ⟨false, 0x0404, 0⟩, ⟨true, 0x8484, 0⟩, ⟨true, 0x8383, 0⟩,
   ⟨true, 0x8484, 0⟩, ⟨false, 0x0404, 0⟩, ⟨true, 0x8484, 0⟩, ⟨true, 0x8383, 0⟩,
   ⟨false, 0, 1⟩, ⟨false, 1, 0⟩, ⟨false, 2, 0x44⟩]

/-- The five control request helpers of usb.c with their arguments. -/
inductive ControlHelper where
  | GetDescriptor (DescriptorType BufferLength : Nat)
  | VendorRead (Value Index : Nat)
  | VendorWrite (Value Index : Nat)
  | SetLine (BaudRate StopBits Parity DataBits : Nat)
  | SetControlLines (DtrRts : Nat)

/-- The status a control helper returns when run in `env`. -/
def ControlHelper.result (c : ControlHelper) (env : Env) : NTSTATUS :=
  match c with
  | GetDescriptor DescriptorType BufferLength =>
    (CH341UsbGetDescriptor env DescriptorType BufferLength).Status
  | VendorRead Value Index => (CH341UsbVendorRead env Value Index).1
  | VendorWrite Value Index => (CH341UsbVendorWrite env Value Index).1
  | SetLine BaudRate StopBits Parity DataBits =>
    (CH341UsbSetLine env BaudRate StopBits Parity DataBits).1
  | SetControlLines DtrRts => (CH341UsbSetControlLines env DtrRts).1

/-! ## Properties -/

/-- C1, at the failing input.  On a device whose lifecycle state is `Deleted`, a one-byte read
and a one-byte write are not completed with the no-such-device status: each returns
`STATUS_PENDING`, is marked pending, is left uncompleted, and hands one bulk transfer to the lower
device; a zero-length read returns `STATUS_SUCCESS`.  In general the returned status, the request
and the effect on the system of a read or a write do not depend on the lifecycle state at all. -/
theorem C1_read_write_reach_bus_when_Deleted :
    (CH341DispatchRead (sampleExtension Deleted) (freshIrp IRP_MJ_READ 0 0 0 0 1 [0])
        (scriptedEnv fun _ => okResponse)).Status = STATUS_PENDING
    ∧ (CH341DispatchRead (sampleExtension Deleted) (freshIrp IRP_MJ_READ 0 0 0 0 1 [0])
        (scriptedEnv fun _ => okResponse)).Irp.Completed = false
    ∧ (CH341DispatchRead (sampleExtension Deleted) (freshIrp IRP_MJ_READ 0 0 0 0 1 [0])
        (scriptedEnv fun _ => okResponse)).env.Sent
        = [LowerRequest.Transfer
            { freshIrp IRP_MJ_READ 0 0 0 0 1 [0] with PendingReturned := true }
            IRP_MJ_INTERNAL_DEVICE_CONTROL IOCTL_INTERNAL_USB_SUBMIT_URB
            (UsbBuildInterruptOrBulkTransferRequest 1 [0] 1 3) 1 COMPLETION_ROUTINE.ReadCompletion]
    ∧ (CH341DispatchWrite (sampleExtension Deleted) (freshIrp IRP_MJ_WRITE 0 0 0 0 1 [65])
        (scriptedEnv fun _ => okResponse)).Status = STATUS_PENDING
    ∧ (CH341DispatchWrite (sampleExtension Deleted) (freshIrp IRP_MJ_WRITE 0 0 0 0 1 [65])
        (scriptedEnv fun _ => okResponse)).env.Sent
        = [LowerRequest.Transfer
            { freshIrp IRP_MJ_WRITE 0 0 0 0 1 [65] with PendingReturned := true }
            IRP_MJ_INTERNAL_DEVICE_CONTROL IOCTL_INTERNAL_USB_SUBMIT_URB
            (UsbBuildInterruptOrBulkTransferRequest 2 [65] 1 0) 1
            COMPLETION_ROUTINE.WriteCompletion]
    ∧ (CH341DispatchRead (sampleExtension Deleted) (freshIrp IRP_MJ_READ 0 0 0 0 0 [])
        (scriptedEnv fun _ => okResponse)).Status = STATUS_SUCCESS
    ∧ STATUS_PENDING ≠ STATUS_NO_SUCH_DEVICE ∧ STATUS_SUCCESS ≠ STATUS_NO_SUCH_DEVICE
    ∧ (∀ (DeviceExtension : DEVICE_EXTENSION) (Irp : IRP) (env : Env) (s : DEVICE_PNP_STATE),
        (CH341DispatchRead { DeviceExtension with PnpState := s } Irp env).Status
          = (CH341DispatchRead DeviceExtension Irp env).Status
        ∧ (CH341DispatchRead { DeviceExtension with PnpState := s } Irp env).Irp
          = (CH341DispatchRead DeviceExtension Irp env).Irp
        ∧ (CH341DispatchRead { DeviceExtension with PnpState := s } Irp env).env
          = (CH341DispatchRead DeviceExtension Irp env).env
        ∧ (CH341DispatchWrite { DeviceExtension with PnpState := s } Irp env).Status
          = (CH341DispatchWrite DeviceExtension Irp env).Status
        ∧ (CH341DispatchWrite { DeviceExtension with PnpState := s } Irp env).Irp
          = (CH341DispatchWrite DeviceExtension Irp env).Irp
        ∧ (CH341DispatchWrite { DeviceExtension with PnpState := s } Irp env).env
          = (CH341DispatchWrite DeviceExtension Irp env).env) := by
  refine ⟨rfl, rfl, rfl, rfl, rfl, rfl, by decide, by decide, ?_⟩
  intro DeviceExtension Irp env s
  simp only [CH341DispatchRead, CH341DispatchWrite, CH341UsbRead, CH341UsbWrite]
  refine ⟨?_, ?_, ?_, ?_, ?_, ?_⟩ <;> split_ifs <;> rfl

/-- C2.  From every lifecycle state other than `Deleted`, a query-stop event followed by a
cancel-stop event leaves the lifecycle state as it was, and so does a query-remove event followed
by a cancel-remove event, whatever the lower device answers and whatever else the requests
carry. -/
theorem C2_query_cancel_restores_state (DeviceExtension : DEVICE_EXTENSION) (Query Cancel : IRP)
    (env env2 : Env) (h : DeviceExtension.PnpState ≠ Deleted) :
    (CH341DispatchPnp
        (CH341DispatchPnp DeviceExtension
          { Query with MinorFunction := IRP_MN_QUERY_STOP_DEVICE } env).DeviceExtension
        { Cancel with MinorFunction := IRP_MN_CANCEL_STOP_DEVICE } env2).DeviceExtension.PnpState
      = DeviceExtension.PnpState
    ∧ (CH341DispatchPnp
        (CH341DispatchPnp DeviceExtension
          { Query with MinorFunction := IRP_MN_QUERY_REMOVE_DEVICE } env).DeviceExtension
        { Cancel with MinorFunction := IRP_MN_CANCEL_REMOVE_DEVICE } env2).DeviceExtension.PnpState
      = DeviceExtension.PnpState := by
  simp [CH341DispatchPnp, CH341DispatchPnp_passDown, h, IRP_MN_START_DEVICE,
    IRP_MN_QUERY_STOP_DEVICE, IRP_MN_QUERY_REMOVE_DEVICE, IRP_MN_CANCEL_REMOVE_DEVICE,
    IRP_MN_CANCEL_STOP_DEVICE]

/-- C2 at a concrete device: a started device is started again after query-stop, cancel-stop and
after query-remove, cancel-remove. -/
theorem C2_query_cancel_restores_state_witness :
    (CH341DispatchPnp
        (CH341DispatchPnp (sampleExtension Started)
          { freshIrp IRP_MJ_PNP 0 0 0 0 0 [] with MinorFunction := IRP_MN_QUERY_STOP_DEVICE }
          (scriptedEnv fun _ => okResponse)).DeviceExtension
        { freshIrp IRP_MJ_PNP 0 0 0 0 0 [] with MinorFunction := IRP_MN_CANCEL_STOP_DEVICE }
        (scriptedEnv fun _ => okResponse)).DeviceExtension.PnpState
      = (sampleExtension Started).PnpState
    ∧ (CH341DispatchPnp
        (CH341DispatchPnp (sampleExtension Started)
          { freshIrp IRP_MJ_PNP 0 0 0 0 0 [] with MinorFunction := IRP_MN_QUERY_REMOVE_DEVICE }
          (scriptedEnv fun _ => okResponse)).DeviceExtension
        { freshIrp IRP_MJ_PNP 0 0 0 0 0 [] with MinorFunction := IRP_MN_CANCEL_REMOVE_DEVICE }
        (scriptedEnv fun _ => okResponse)).DeviceExtension.PnpState
      = (sampleExtension Started).PnpState :=
  C2_query_cancel_restores_state (sampleExtension Started) (freshIrp IRP_MJ_PNP 0 0 0 0 0 [])
    (freshIrp IRP_MJ_PNP 0 0 0 0 0 []) (scriptedEnv fun _ => okResponse)
    (scriptedEnv fun _ => okResponse) (by decide)

theorem readUCHAR_lt (buf : List Nat) (off : Nat) : readUCHAR buf off < 256 := by
  unfold readUCHAR; omega

theorem readULONG_lt (buf : List Nat) (off : Nat) : readULONG buf off < 4294967296 := by
  have h0 := readUCHAR_lt buf off
  have h1 := readUCHAR_lt buf (off + 1)
  have h2 := readUCHAR_lt buf (off + 2)
  have h3 := readUCHAR_lt buf (off + 3)
  unfold readULONG; omega

theorem length_writeUCHAR (buf : List Nat) (off v : Nat) :
    (writeUCHAR buf off v).length = buf.length := by
  simp [writeUCHAR]

theorem readUCHAR_writeUCHAR_same (buf : List Nat) (off v : Nat) (h : off < buf.length) :
    readUCHAR (writeUCHAR buf off v) off = v % 256 := by
  simp [readUCHAR, writeUCHAR, List.getD_eq_getElem?_getD, List.getElem?_set, h]

theorem readUCHAR_writeUCHAR_ne (buf : List Nat) (off off2 v : Nat) (h : off2 ≠ off) :
    readUCHAR (writeUCHAR buf off2 v) off = readUCHAR buf off := by
  simp [readUCHAR, writeUCHAR, List.getD_eq_getElem?_getD, List.getElem?_set, h]

theorem readULONG_writeULONG (buf : List Nat) (v : Nat) (h : 4 ≤ buf.length) :
    readULONG (writeULONG buf 0 v) 0 = v % 4294967296 := by
  unfold readULONG writeULONG
  rw [readUCHAR_writeUCHAR_ne _ 0 3, readUCHAR_writeUCHAR_ne _ 0 2, readUCHAR_writeUCHAR_ne _ 0 1,
    readUCHAR_writeUCHAR_same _ 0,
    readUCHAR_writeUCHAR_ne _ (0 + 1) (0 + 3), readUCHAR_writeUCHAR_ne _ (0 + 1) (0 + 2),
    readUCHAR_writeUCHAR_same _ (0 + 1),
    readUCHAR_writeUCHAR_ne _ (0 + 2) (0 + 3), readUCHAR_writeUCHAR_same _ (0 + 2),
    readUCHAR_writeUCHAR_same _ (0 + 3)]
  all_goals (try simp only [length_writeUCHAR])
  all_goals omega

theorem testBit_eq_false_of_lt_65536 (x i : Nat) (hx : x < 65536) (hi : 16 ≤ i) :
    x.testBit i = false := by
  apply Nat.testBit_lt_two_pow
  calc x < 2 ^ 16 := by simpa using hx
    _ ≤ 2 ^ i := Nat.pow_le_pow_right (by decide) hi

/-- Clearing bit `k` of a 16-bit value the way the driver does it. -/
theorem testBit_clear (x k i : Nat) (hx : x < 65536) :
    ((x &&& (0xFFFFFFFF ^^^ 2 ^ k)) % 65536).testBit i = (decide (i ≠ k) && x.testBit i) := by
  have e1 : (65536 : Nat) = 2 ^ 16 := by norm_num
  have e2 : (0xFFFFFFFF : Nat) = 2 ^ 32 - 1 := by norm_num
  rw [e1, e2, Nat.testBit_mod_two_pow, Nat.testBit_and, Nat.testBit_xor,
    Nat.testBit_two_pow_sub_one, Nat.testBit_two_pow]
  by_cases hi : i < 16
  · have h32 : i < 32 := by omega
    by_cases hik : k = i
    · subst hik; simp [hi, h32]
    · have : i ≠ k := fun h => hik h.symm
      simp [hi, h32, hik, this]
  · have := testBit_eq_false_of_lt_65536 x i hx (by omega)
    simp [this]

/-- Setting bit `k` of a 16-bit value the way the driver does it. -/
theorem testBit_set (x k i : Nat) (hx : x < 65536) (hk : k < 16) :
    ((x ||| 2 ^ k) % 65536).testBit i = (decide (i = k) || x.testBit i) := by
  have e1 : (65536 : Nat) = 2 ^ 16 := by norm_num
  rw [e1, Nat.testBit_mod_two_pow, Nat.testBit_or, Nat.testBit_two_pow]
  by_cases hi : i < 16
  · by_cases hik : k = i
    · subst hik; simp [hi]
    · have : i ≠ k := fun h => hik h.symm
      simp [hi, hik, this]
  · have := testBit_eq_false_of_lt_65536 x i hx (by omega)
    have hik : ¬ k = i := by omega
    have hik2 : ¬ i = k := by omega
    simp [this, hi, hik, hik2]

/-! ### Device control -/

/-- C4, at the failing input and in general.  After set-DTR and set-RTS on a started device the
stored mask is `3` and the get-DTR/RTS request does write `3` to the caller's buffer, but the
request is completed with `STATUS_NOT_SUPPORTED`, a failure status, and byte count zero; and on no
device, with no buffer and under no behaviour of the system does a get-DTR/RTS request return a
success status. -/
theorem C4_get_dtrrts_never_succeeds :
    getDtrRtsScenario.DeviceExtension.DtrRts = SERIAL_DTR_STATE ||| SERIAL_RTS_STATE
    ∧ readULONG getDtrRtsScenario.Irp.SystemBuffer 0 = SERIAL_DTR_STATE ||| SERIAL_RTS_STATE
    ∧ getDtrRtsScenario.Status = STATUS_NOT_SUPPORTED
    ∧ getDtrRtsScenario.Irp.Status = STATUS_NOT_SUPPORTED
    ∧ getDtrRtsScenario.Irp.Information = 0
    ∧ NT_SUCCESS getDtrRtsScenario.Status = false
    ∧ ∀ (DeviceExtension : DEVICE_EXTENSION) (Irp : IRP) (env : Env),
        NT_SUCCESS (CH341DispatchDeviceControl DeviceExtension
          { Irp with IoControlCode := IOCTL_SERIAL_GET_DTRRTS } env).Status = false := by
  refine ⟨by decide, by decide, by decide, by decide, by decide, by decide, ?_⟩
  intro DeviceExtension Irp env
  by_cases h : DeviceExtension.PnpState = Deleted
  · simp [CH341DispatchDeviceControl, h, NT_SUCCESS, STATUS_NO_SUCH_DEVICE]
  · simp [CH341DispatchDeviceControl, CH341DispatchDeviceControl_switch, h, NT_SUCCESS,
      STATUS_NOT_SUPPORTED, IOCTL_SERIAL_GET_DTRRTS, IOCTL_SERIAL_GET_BAUD_RATE,
      IOCTL_SERIAL_SET_BAUD_RATE, IOCTL_SERIAL_GET_LINE_CONTROL, IOCTL_SERIAL_SET_LINE_CONTROL,
      IOCTL_SERIAL_GET_CHARS, IOCTL_SERIAL_SET_CHARS, IOCTL_SERIAL_GET_HANDFLOW,
      IOCTL_SERIAL_SET_HANDFLOW, IOCTL_SERIAL_CLR_DTR, IOCTL_SERIAL_SET_DTR,
      IOCTL_SERIAL_CLR_RTS, IOCTL_SERIAL_SET_RTS]

/-- C5.  On a device that is not `Deleted` (its mask a 16-bit value), clear-DTR leaves a device
extension that differs from the old one in the mask only, with the DTR bit (bit 0) clear and
every other bit, the RTS bit among them, as before; set-DTR likewise with bit 0 set; clear-RTS
and set-RTS likewise for the RTS bit (bit 1).  So the line coding, the characters, the handshake
record, the endpoint handles and the lifecycle state are unchanged. -/
theorem C5_control_line_request_changes_own_bit (DeviceExtension : DEVICE_EXTENSION) (Irp : IRP)
    (env : Env) (hw : DeviceExtension.DtrRts < 65536)
    (hs : DeviceExtension.PnpState ≠ Deleted) :
    SERIAL_DTR_STATE = 2 ^ 0 ∧ SERIAL_RTS_STATE = 2 ^ 1
    ∧ OnlyMaskBitSet DeviceExtension
        (CH341DispatchDeviceControl DeviceExtension
          { Irp with IoControlCode := IOCTL_SERIAL_CLR_DTR } env).DeviceExtension 0 false
    ∧ OnlyMaskBitSet DeviceExtension
        (CH341DispatchDeviceControl DeviceExtension
          { Irp with IoControlCode := IOCTL_SERIAL_SET_DTR } env).DeviceExtension 0 true
    ∧ OnlyMaskBitSet DeviceExtension
        (CH341DispatchDeviceControl DeviceExtension
          { Irp with IoControlCode := IOCTL_SERIAL_CLR_RTS } env).DeviceExtension 1 false
    ∧ OnlyMaskBitSet DeviceExtension
        (CH341DispatchDeviceControl DeviceExtension
          { Irp with IoControlCode := IOCTL_SERIAL_SET_RTS } env).DeviceExtension 1 true := by
  have c0 := fun i => testBit_clear DeviceExtension.DtrRts 0 i hw
  have c1 := fun i => testBit_clear DeviceExtension.DtrRts 1 i hw
  have s0 := fun i => testBit_set DeviceExtension.DtrRts 0 i hw (by decide)
  have s1 := fun i => testBit_set DeviceExtension.DtrRts 1 i hw (by decide)
  simp only [Nat.pow_zero, Nat.pow_one] at c0 c1 s0 s1
  refine ⟨rfl, rfl, ?_, ?_, ?_, ?_⟩
  all_goals
    simp only [OnlyMaskBitSet, CH341DispatchDeviceControl, CH341DispatchDeviceControl_switch, hs,
      if_false, IOCTL_SERIAL_GET_BAUD_RATE,
      IOCTL_SERIAL_SET_BAUD_RATE, IOCTL_SERIAL_GET_LINE_CONTROL, IOCTL_SERIAL_SET_LINE_CONTROL,
      IOCTL_SERIAL_GET_CHARS, IOCTL_SERIAL_SET_CHARS, IOCTL_SERIAL_GET_HANDFLOW,
      IOCTL_SERIAL_SET_HANDFLOW, IOCTL_SERIAL_CLR_DTR, IOCTL_SERIAL_SET_DTR,
      IOCTL_SERIAL_CLR_RTS, IOCTL_SERIAL_SET_RTS, SERIAL_DTR_STATE, SERIAL_RTS_STATE,
      Nat.reduceEqDiff, if_true]
    refine ⟨trivial, ?_, ?_⟩
  · rw [c0]; simp
  · intro i hi; rw [c0]; simp [hi]
  · rw [s0]; simp
  · intro i hi; rw [s0]; simp [hi]
  · rw [c1]; simp
  · intro i hi; rw [c1]; simp [hi]
  · rw [s1]; simp
  · intro i hi; rw [s1]; simp [hi]

/-- C5 at a concrete device: a started device with the RTS bit set. -/
theorem C5_control_line_request_changes_own_bit_witness :
    SERIAL_DTR_STATE = 2 ^ 0 ∧ SERIAL_RTS_STATE = 2 ^ 1
    ∧ OnlyMaskBitSet { sampleExtension Started with DtrRts := 2 }
        (CH341DispatchDeviceControl { sampleExtension Started with DtrRts := 2 }
          { freshIrp IRP_MJ_DEVICE_CONTROL 0 0 0 0 0 [] with
            IoControlCode := IOCTL_SERIAL_CLR_DTR }
          (scriptedEnv fun _ => okResponse)).DeviceExtension 0 false
    ∧ OnlyMaskBitSet { sampleExtension Started with DtrRts := 2 }
        (CH341DispatchDeviceControl { sampleExtension Started with DtrRts := 2 }
          { freshIrp IRP_MJ_DEVICE_CONTROL 0 0 0 0 0 [] with
            IoControlCode := IOCTL_SERIAL_SET_DTR }
          (scriptedEnv fun _ => okResponse)).DeviceExtension 0 true
    ∧ OnlyMaskBitSet { sampleExtension Started with DtrRts := 2 }
        (CH341DispatchDeviceControl { sampleExtension Started with DtrRts := 2 }
          { freshIrp IRP_MJ_DEVICE_CONTROL 0 0 0 0 0 [] with
            IoControlCode := IOCTL_SERIAL_CLR_RTS }
          (scriptedEnv fun _ => okResponse)).DeviceExtension 1 false
    ∧ OnlyMaskBitSet { sampleExtension Started with DtrRts := 2 }
        (CH341DispatchDeviceControl { sampleExtension Started with DtrRts := 2 }
          { freshIrp IRP_MJ_DEVICE_CONTROL 0 0 0 0 0 [] with
            IoControlCode := IOCTL_SERIAL_SET_RTS }
          (scriptedEnv fun _ => okResponse)).DeviceExtension 1 true :=
  C5_control_line_request_changes_own_bit { sampleExtension Started with DtrRts := 2 }
    (freshIrp IRP_MJ_DEVICE_CONTROL 0 0 0 0 0 []) (scriptedEnv fun _ => okResponse)
    (by decide) (by decide)

theorem setBaudRate_extension (DeviceExtension : DEVICE_EXTENSION) (Irp : IRP) (env : Env)
    (h : sizeof_SERIAL_BAUD_RATE ≤ Irp.InputBufferLength) :
    (CH341SetBaudRate DeviceExtension Irp env).2.1
      = { DeviceExtension with BaudRate := readULONG Irp.SystemBuffer 0 } := by
  have n : ¬ Irp.InputBufferLength < sizeof_SERIAL_BAUD_RATE := by omega
  simp only [CH341SetBaudRate, n, if_false]

theorem setLineControl_extension (DeviceExtension : DEVICE_EXTENSION) (Irp : IRP) (env : Env)
    (h : sizeof_SERIAL_LINE_CONTROL ≤ Irp.InputBufferLength) :
    (CH341SetLineControl DeviceExtension Irp env).2.1
      = { DeviceExtension with
          StopBits := readUCHAR Irp.SystemBuffer 0
          Parity := readUCHAR Irp.SystemBuffer 1
          DataBits := readUCHAR Irp.SystemBuffer 2 } := by
  have n : ¬ Irp.InputBufferLength < sizeof_SERIAL_LINE_CONTROL := by omega
  simp only [CH341SetLineControl, n, if_false]

theorem getBaudRate_of_buffer (DeviceExtension : DEVICE_EXTENSION) (Irp : IRP)
    (h : sizeof_SERIAL_BAUD_RATE ≤ Irp.OutputBufferLength) :
    CH341GetBaudRate DeviceExtension Irp
      = (STATUS_SUCCESS,
         { Irp with
           SystemBuffer := writeULONG Irp.SystemBuffer 0 DeviceExtension.BaudRate
           Information := sizeof_SERIAL_BAUD_RATE }) := by
  have n : ¬ Irp.OutputBufferLength < sizeof_SERIAL_BAUD_RATE := by omega
  simp only [CH341GetBaudRate, n, if_false]

theorem getLineControl_of_buffer (DeviceExtension : DEVICE_EXTENSION) (Irp : IRP)
    (h : sizeof_SERIAL_LINE_CONTROL ≤ Irp.OutputBufferLength) :
    CH341GetLineControl DeviceExtension Irp
      = (STATUS_SUCCESS,
         { Irp with
           SystemBuffer :=
             writeUCHAR (writeUCHAR (writeUCHAR Irp.SystemBuffer 0 DeviceExtension.StopBits)
               1 DeviceExtension.Parity) 2 DeviceExtension.DataBits
           Information := sizeof_SERIAL_LINE_CONTROL }) := by
  have n : ¬ Irp.OutputBufferLength < sizeof_SERIAL_LINE_CONTROL := by omega
  simp only [CH341GetLineControl, n, if_false]

theorem readUCHAR_line_control (buf : List Nat) (x y z : Nat) (h : 3 ≤ buf.length) :
    readUCHAR (writeUCHAR (writeUCHAR (writeUCHAR buf 0 x) 1 y) 2 z) 0 = x % 256
    ∧ readUCHAR (writeUCHAR (writeUCHAR (writeUCHAR buf 0 x) 1 y) 2 z) 1 = y % 256
    ∧ readUCHAR (writeUCHAR (writeUCHAR (writeUCHAR buf 0 x) 1 y) 2 z) 2 = z % 256 := by
  refine ⟨?_, ?_, ?_⟩
  · rw [readUCHAR_writeUCHAR_ne _ 0 2 _ (by decide), readUCHAR_writeUCHAR_ne _ 0 1 _ (by decide),
      readUCHAR_writeUCHAR_same _ 0 _ (by omega)]
  · rw [readUCHAR_writeUCHAR_ne _ 1 2 _ (by decide),
      readUCHAR_writeUCHAR_same _ 1 _ (by rw [length_writeUCHAR]; omega)]
  · rw [readUCHAR_writeUCHAR_same _ 2 _ (by rw [length_writeUCHAR, length_writeUCHAR]; omega)]

theorem dispatch_setBaudRate (DeviceExtension : DEVICE_EXTENSION) (Irp : IRP) (env : Env)
    (h : DeviceExtension.PnpState ≠ Deleted) :
    (CH341DispatchDeviceControl DeviceExtension
        { Irp with IoControlCode := IOCTL_SERIAL_SET_BAUD_RATE } env).DeviceExtension
      = (CH341SetBaudRate DeviceExtension Irp env).2.1 := by
  simp only [CH341DispatchDeviceControl, CH341DispatchDeviceControl_switch, h, if_false,
    IOCTL_SERIAL_GET_BAUD_RATE, IOCTL_SERIAL_SET_BAUD_RATE, Nat.reduceEqDiff, if_true]
  rfl

theorem dispatch_setLineControl (DeviceExtension : DEVICE_EXTENSION) (Irp : IRP) (env : Env)
    (h : DeviceExtension.PnpState ≠ Deleted) :
    (CH341DispatchDeviceControl DeviceExtension
        { Irp with IoControlCode := IOCTL_SERIAL_SET_LINE_CONTROL } env).DeviceExtension
      = (CH341SetLineControl DeviceExtension Irp env).2.1 := by
  simp only [CH341DispatchDeviceControl, CH341DispatchDeviceControl_switch, h, if_false,
    IOCTL_SERIAL_GET_BAUD_RATE, IOCTL_SERIAL_SET_BAUD_RATE, IOCTL_SERIAL_GET_LINE_CONTROL,
    IOCTL_SERIAL_SET_LINE_CONTROL, Nat.reduceEqDiff, if_true]
  rfl

theorem dispatch_getBaudRate (DeviceExtension : DEVICE_EXTENSION) (Irp : IRP) (env : Env)
    (h : DeviceExtension.PnpState ≠ Deleted) :
    CH341DispatchDeviceControl DeviceExtension
        { Irp with IoControlCode := IOCTL_SERIAL_GET_BAUD_RATE } env
      = ⟨(CH341GetBaudRate DeviceExtension Irp).1,
         IoCompleteRequest
           { (CH341GetBaudRate DeviceExtension Irp).2 with
             IoControlCode := IOCTL_SERIAL_GET_BAUD_RATE
             Status := (CH341GetBaudRate DeviceExtension Irp).1 },
         DeviceExtension, env⟩ := by
  simp only [CH341DispatchDeviceControl, CH341DispatchDeviceControl_switch, h, if_false, if_true]
  unfold CH341GetBaudRate
  split_ifs <;> rfl

theorem dispatch_getLineControl (DeviceExtension : DEVICE_EXTENSION) (Irp : IRP) (env : Env)
    (h : DeviceExtension.PnpState ≠ Deleted) :
    CH341DispatchDeviceControl DeviceExtension
        { Irp with IoControlCode := IOCTL_SERIAL_GET_LINE_CONTROL } env
      = ⟨(CH341GetLineControl DeviceExtension Irp).1,
         IoCompleteRequest
           { (CH341GetLineControl DeviceExtension Irp).2 with
             IoControlCode := IOCTL_SERIAL_GET_LINE_CONTROL
             Status := (CH341GetLineControl DeviceExtension Irp).1 },
         DeviceExtension, env⟩ := by
  simp only [CH341DispatchDeviceControl, CH341DispatchDeviceControl_switch, h, if_false,
    IOCTL_SERIAL_GET_BAUD_RATE, IOCTL_SERIAL_SET_BAUD_RATE, IOCTL_SERIAL_GET_LINE_CONTROL,
    Nat.reduceEqDiff, if_true]
  unfold CH341GetLineControl
  split_ifs <;> rfl

/-- C3.  Let a set-baud-rate request carry `b` and a set-line-control request carry `(s, p, d)`,
each with an input buffer of at least the record size.  After the two requests, whatever the
device held before and whether or not the pushes to the hardware succeed, get-baud-rate with an
output buffer of at least four bytes returns `STATUS_SUCCESS`, byte count `4` and `b`, and
get-line-control with an output buffer of at least three bytes returns `STATUS_SUCCESS`, byte
count `3` and `(s, p, d)`.  This holds of the four routines themselves (`s1`, `s2` the outcomes
of the two set routines) and, on a device that is not `Deleted`, of the same four requests sent
through `CH341DispatchDeviceControl` (`r1` to `r4` their outcomes). -/
theorem C3_line_coding_round_trip (DeviceExtension : DEVICE_EXTENSION) (env : Env)
    (SetBaud SetLine GetBaud GetLine : IRP) (b s p d : Nat)
    (hb : readULONG SetBaud.SystemBuffer 0 = b)
    (hs : readUCHAR SetLine.SystemBuffer 0 = s)
    (hp : readUCHAR SetLine.SystemBuffer 1 = p)
    (hd : readUCHAR SetLine.SystemBuffer 2 = d)
    (hSetBaud : sizeof_SERIAL_BAUD_RATE ≤ SetBaud.InputBufferLength)
    (hSetLine : sizeof_SERIAL_LINE_CONTROL ≤ SetLine.InputBufferLength)
    (hGetBaud : sizeof_SERIAL_BAUD_RATE ≤ GetBaud.OutputBufferLength)
    (hGetBaudBuf : GetBaud.OutputBufferLength ≤ GetBaud.SystemBuffer.length)
    (hGetLine : sizeof_SERIAL_LINE_CONTROL ≤ GetLine.OutputBufferLength)
    (hGetLineBuf : GetLine.OutputBufferLength ≤ GetLine.SystemBuffer.length) :
    (∀ s1 s2 : NTSTATUS × DEVICE_EXTENSION × Env,
        s1 = CH341SetBaudRate DeviceExtension SetBaud env →
        s2 = CH341SetLineControl s1.2.1 SetLine s1.2.2 →
        (CH341GetBaudRate s2.2.1 GetBaud).1 = STATUS_SUCCESS
        ∧ (CH341GetBaudRate s2.2.1 GetBaud).2.Information = sizeof_SERIAL_BAUD_RATE
        ∧ readULONG (CH341GetBaudRate s2.2.1 GetBaud).2.SystemBuffer 0 = b
        ∧ (CH341GetLineControl s2.2.1 GetLine).1 = STATUS_SUCCESS
        ∧ (CH341GetLineControl s2.2.1 GetLine).2.Information = sizeof_SERIAL_LINE_CONTROL
        ∧ readUCHAR (CH341GetLineControl s2.2.1 GetLine).2.SystemBuffer 0 = s
        ∧ readUCHAR (CH341GetLineControl s2.2.1 GetLine).2.SystemBuffer 1 = p
        ∧ readUCHAR (CH341GetLineControl s2.2.1 GetLine).2.SystemBuffer 2 = d)
    ∧ (DeviceExtension.PnpState ≠ Deleted →
      ∀ r1 r2 r3 r4 : DispatchResult,
        r1 = CH341DispatchDeviceControl DeviceExtension
          { SetBaud with IoControlCode := IOCTL_SERIAL_SET_BAUD_RATE } env →
        r2 = CH341DispatchDeviceControl r1.DeviceExtension
          { SetLine with IoControlCode := IOCTL_SERIAL_SET_LINE_CONTROL } r1.env →
        r3 = CH341DispatchDeviceControl r2.DeviceExtension
          { GetBaud with IoControlCode := IOCTL_SERIAL_GET_BAUD_RATE } r2.env →
        r4 = CH341DispatchDeviceControl r3.DeviceExtension
          { GetLine with IoControlCode := IOCTL_SERIAL_GET_LINE_CONTROL } r3.env →
        r3.Status = STATUS_SUCCESS ∧ r3.Irp.Status = STATUS_SUCCESS ∧ r3.Irp.Completed = true
        ∧ r3.Irp.Information = sizeof_SERIAL_BAUD_RATE
        ∧ readULONG r3.Irp.SystemBuffer 0 = b
        ∧ r4.Status = STATUS_SUCCESS ∧ r4.Irp.Status = STATUS_SUCCESS ∧ r4.Irp.Completed = true
        ∧ r4.Irp.Information = sizeof_SERIAL_LINE_CONTROL
        ∧ readUCHAR r4.Irp.SystemBuffer 0 = s
        ∧ readUCHAR r4.Irp.SystemBuffer 1 = p
        ∧ readUCHAR r4.Irp.SystemBuffer 2 = d) := by
  have hb32 : b % 4294967296 = b := by
    have := readULONG_lt SetBaud.SystemBuffer 0
    omega
  have hs8 : s % 256 = s := by have := readUCHAR_lt SetLine.SystemBuffer 0; omega
  have hp8 : p % 256 = p := by have := readUCHAR_lt SetLine.SystemBuffer 1; omega
  have hd8 : d % 256 = d := by have := readUCHAR_lt SetLine.SystemBuffer 2; omega
  have l3 : 4 ≤ GetBaud.SystemBuffer.length := by
    simp only [sizeof_SERIAL_BAUD_RATE] at hGetBaud; omega
  have l4 : 3 ≤ GetLine.SystemBuffer.length := by
    simp only [sizeof_SERIAL_LINE_CONTROL] at hGetLine; omega
  have rb := readULONG_writeULONG GetBaud.SystemBuffer b l3
  obtain ⟨rl0, rl1, rl2⟩ := readUCHAR_line_control GetLine.SystemBuffer s p d l4
  rw [hb32] at rb
  rw [hs8] at rl0
  rw [hp8] at rl1
  rw [hd8] at rl2
  -- the device extension after the two set requests
  have key : ∀ e2 : DEVICE_EXTENSION,
      e2 = { DeviceExtension with BaudRate := b, StopBits := s, Parity := p, DataBits := d } →
      (CH341GetBaudRate e2 GetBaud).1 = STATUS_SUCCESS
      ∧ (CH341GetBaudRate e2 GetBaud).2.Information = sizeof_SERIAL_BAUD_RATE
      ∧ readULONG (CH341GetBaudRate e2 GetBaud).2.SystemBuffer 0 = b
      ∧ (CH341GetLineControl e2 GetLine).1 = STATUS_SUCCESS
      ∧ (CH341GetLineControl e2 GetLine).2.Information = sizeof_SERIAL_LINE_CONTROL
      ∧ readUCHAR (CH341GetLineControl e2 GetLine).2.SystemBuffer 0 = s
      ∧ readUCHAR (CH341GetLineControl e2 GetLine).2.SystemBuffer 1 = p
      ∧ readUCHAR (CH341GetLineControl e2 GetLine).2.SystemBuffer 2 = d := by
    intro e2 he2
    rw [getBaudRate_of_buffer e2 GetBaud hGetBaud, getLineControl_of_buffer e2 GetLine hGetLine]
    subst he2
    exact ⟨rfl, rfl, rb, rfl, rfl, rl0, rl1, rl2⟩
  refine ⟨?_, ?_⟩
  · intro s1 s2 e1 e2
    apply key
    rw [e2, setLineControl_extension _ _ _ hSetLine, e1, setBaudRate_extension _ _ _ hSetBaud,
      hb, hs, hp, hd]
  · intro hdel r1 r2 r3 r4 e1 e2 e3 e4
    have x1 : r1.DeviceExtension = { DeviceExtension with BaudRate := b } := by
      rw [e1, dispatch_setBaudRate _ _ _ hdel, setBaudRate_extension _ _ _ hSetBaud, hb]
    have d1 : r1.DeviceExtension.PnpState ≠ Deleted := by rw [x1]; exact hdel
    have x2 : r2.DeviceExtension
        = { DeviceExtension with BaudRate := b, StopBits := s, Parity := p, DataBits := d } := by
      rw [e2, dispatch_setLineControl _ _ _ d1, setLineControl_extension _ _ _ hSetLine, x1,
        hs, hp, hd]
    have d2 : r2.DeviceExtension.PnpState ≠ Deleted := by rw [x2]; exact hdel
    have y3 := dispatch_getBaudRate r2.DeviceExtension GetBaud r2.env d2
    rw [← e3] at y3
    have x3 : r3.DeviceExtension = r2.DeviceExtension := by rw [y3]
    have d3 : r3.DeviceExtension.PnpState ≠ Deleted := by rw [x3]; exact d2
    have y4 := dispatch_getLineControl r3.DeviceExtension GetLine r3.env d3
    rw [← e4, x3] at y4
    obtain ⟨k1, k2, k3, k4, k5, k6, k7, k8⟩ := key r2.DeviceExtension x2
    rw [y3, y4]
    exact ⟨k1, k1, rfl, k2, k3, k4, k4, rfl, k5, k6, k7, k8⟩

/-- C3 at concrete requests: 9600 baud and line control `(2, 0, 8)` set on a started device are
read back. -/
theorem C3_line_coding_round_trip_witness :
    readULONG (CH341GetBaudRate
        (CH341SetLineControl
          (CH341SetBaudRate (sampleExtension Started) sampleSetBaud
            (scriptedEnv fun _ => okResponse)).2.1 sampleSetLine
          (CH341SetBaudRate (sampleExtension Started) sampleSetBaud
            (scriptedEnv fun _ => okResponse)).2.2).2.1 sampleGetBaud).2.SystemBuffer 0 = 9600
    ∧ (CH341GetLineControl
        (CH341SetLineControl
          (CH341SetBaudRate (sampleExtension Started) sampleSetBaud
            (scriptedEnv fun _ => okResponse)).2.1 sampleSetLine
          (CH341SetBaudRate (sampleExtension Started) sampleSetBaud
            (scriptedEnv fun _ => okResponse)).2.2).2.1 sampleGetLine).1 = STATUS_SUCCESS
    ∧ readUCHAR (CH341GetLineControl
        (CH341SetLineControl
          (CH341SetBaudRate (sampleExtension Started) sampleSetBaud
            (scriptedEnv fun _ => okResponse)).2.1 sampleSetLine
          (CH341SetBaudRate (sampleExtension Started) sampleSetBaud
            (scriptedEnv fun _ => okResponse)).2.2).2.1 sampleGetLine).2.SystemBuffer 2 = 8 :=
  have h := (C3_line_coding_round_trip (sampleExtension Started) (scriptedEnv fun _ => okResponse)
    sampleSetBaud sampleSetLine sampleGetBaud sampleGetLine 9600 2 0 8
    (by decide) (by decide) (by decide) (by decide) (by decide) (by decide) (by decide)
    (by decide) (by decide) (by decide)).1 _ _ rfl rfl
  ⟨h.2.2.1, h.2.2.2.1, h.2.2.2.2.2.2.2⟩

/-! ### Vendor bring-up -/

theorem submitUrb_of_alloc (env : Env) (Urb : URB) (h : env.AllocOk env.AllocCount = true) :
    CH341UsbSubmitUrb env Urb
      = ((env.Lower env.Sent.length).Status, (env.Lower env.Sent.length).applyTo Urb,
         { env with AllocCount := env.AllocCount + 1,
                    Sent := env.Sent ++ [LowerRequest.SubmitUrb Urb] }) := by
  simp [CH341UsbSubmitUrb, IoBuildDeviceIoControlRequest, IoCallDriver, h, Response.Status]


theorem vendorWrite_of_alloc (env : Env) (Value Index : Nat) (h : ∀ n, env.AllocOk n = true) :
    CH341UsbVendorWrite env Value Index
      = ((env.Lower env.Sent.length).Outcome, env.afterControl (vendorWrite Value Index)) := by
  have e : UsbBuildVendorRequest URB_FUNCTION_VENDOR_DEVICE USBD_TRANSFER_DIRECTION_OUT 0
      CH341_VENDOR_WRITE_REQUEST Value Index [] 0 = vendorWrite Value Index := rfl
  unfold CH341UsbVendorWrite
  simp only [ExAllocatePoolWithTag, h, if_true, e]
  simp only [submitUrb_of_alloc, h]
  simp only [Response.Outcome, Response.applyTo, ExFreePoolWithTag, Env.afterControl,
    Nat.add_eq_zero, one_ne_zero, and_false, if_false]
  split_ifs <;> rfl

theorem vendorRead_of_alloc (env : Env) (Value Index : Nat) (h : ∀ n, env.AllocOk n = true) :
    CH341UsbVendorRead env Value Index
      = ((env.Lower env.Sent.length).Outcome, (env.Lower env.Sent.length).TransferBuffer,
         env.afterControl (vendorRead Value Index)) := by
  have e : UsbBuildVendorRequest URB_FUNCTION_VENDOR_DEVICE
      (USBD_TRANSFER_DIRECTION_IN ||| USBD_SHORT_TRANSFER_OK) 0
      CH341_VENDOR_READ_REQUEST Value Index [] 1 = vendorRead Value Index := rfl
  unfold CH341UsbVendorRead
  simp only [ExAllocatePoolWithTag, h, if_true, e]
  simp only [submitUrb_of_alloc, h]
  simp only [Response.Outcome, Response.applyTo, ExFreePoolWithTag, Env.afterControl,
    Nat.add_eq_zero, one_ne_zero, and_false, if_false]
  split_ifs <;> rfl

theorem vendorStep_run_of_alloc (s : VendorStep) (env : Env) (h : ∀ n, env.AllocOk n = true) :
    s.run env = ((env.Lower env.Sent.length).Outcome, env.afterControl s.urb) := by
  unfold VendorStep.run VendorStep.urb
  cases hr : s.IsRead
  · simp [vendorWrite_of_alloc env _ _ h]
  · simp [vendorRead_of_alloc env _ _ h, dropBuffer]

theorem outcome_of_succeeds (r : Response) (h : r.Succeeds) :
    r.Outcome = r.Status ∧ NT_SUCCESS r.Outcome = true := by
  obtain ⟨h1, h2⟩ := h
  simp [Response.Outcome, h1, h2]

theorem outcome_of_failsWith (r : Response) (e : NTSTATUS) (h : r.FailsWith e) :
    r.Outcome = e ∧ NT_SUCCESS e = false := by
  rcases h with ⟨h1, h2⟩ | ⟨h1, h2, h3⟩
  · subst h2; simp [Response.Outcome, h1]
  · subst h3
    refine ⟨by simp [Response.Outcome, h1, h2], ?_⟩
    simpa [NT_SUCCESS, USBD_SUCCESS] using h2

theorem runVendorSteps_cons (s : VendorStep) (rest : List VendorStep) (Status : NTSTATUS)
    (env : Env) :
    runVendorSteps (s :: rest) Status env
      = returnIfFailed (s.run env) fun r => runVendorSteps rest r.1 r.2 := rfl

theorem bringUp_eq_runVendorSteps (env : Env) :
    CH341UsbStart_bringUp env = runVendorSteps bringUpSteps STATUS_SUCCESS env := by
  rfl

theorem bringUpSteps_urbs : bringUpSteps.map VendorStep.urb = bringUpRequests := by
  decide

theorem runVendorSteps_fails (steps : List VendorStep) :
    ∀ (Status : NTSTATUS) (env : Env) (k : Nat) (e : NTSTATUS),
      (∀ n, env.AllocOk n = true) → k < steps.length →
      (∀ j, j < k → (env.Lower (env.Sent.length + j)).Succeeds) →
      (env.Lower (env.Sent.length + k)).FailsWith e →
      (runVendorSteps steps Status env).1 = e
      ∧ (runVendorSteps steps Status env).2.Sent
          = env.Sent ++ ((steps.take (k + 1)).map fun s => LowerRequest.SubmitUrb s.urb)
      ∧ (runVendorSteps steps Status env).2.AllocOk = env.AllocOk
      ∧ (runVendorSteps steps Status env).2.Lower = env.Lower := by
  induction steps with
  | nil => intro _ _ k _ _ hk; simp at hk
  | cons s rest ih =>
    intro Status env k e hA hk hok hfail
    rw [runVendorSteps, returnIfFailed, vendorStep_run_of_alloc s env hA]
    cases k with
    | zero =>
      obtain ⟨ho, hn⟩ := outcome_of_failsWith _ _ hfail
      simp only [Nat.add_zero] at ho
      simp [ho, hn, Env.afterControl]
    | succ k =>
      obtain ⟨_, hn⟩ := outcome_of_succeeds _ (by simpa using hok 0 (Nat.succ_pos k))
      have hA2 : ∀ n, (env.afterControl s.urb).AllocOk n = true := hA
      have hlen : (env.afterControl s.urb).Sent.length = env.Sent.length + 1 := by
        simp [Env.afterControl]
      obtain ⟨i1, i2, i3, i4⟩ := ih (env.Lower env.Sent.length).Outcome (env.afterControl s.urb)
        k e hA2 (by simpa using hk)
        (by
          intro j hj
          have := hok (j + 1) (by omega)
          rw [hlen]
          simpa [Env.afterControl, Nat.add_assoc, Nat.add_comm 1 j] using this)
        (by
          rw [hlen]
          simpa [Env.afterControl, Nat.add_assoc, Nat.add_comm 1 k] using hfail)
      simp only [hn, Bool.not_true, Bool.false_eq_true, if_false]
      refine ⟨i1, ?_, ?_, ?_⟩
      · rw [i2]; simp [Env.afterControl]
      · rw [i3]; rfl
      · rw [i4]; rfl

theorem runVendorSteps_succeeds (steps : List VendorStep) :
    ∀ (Status : NTSTATUS) (env : Env),
      (∀ n, env.AllocOk n = true) → NT_SUCCESS Status = true →
      (∀ j, j < steps.length → (env.Lower (env.Sent.length + j)).Succeeds) →
      NT_SUCCESS (runVendorSteps steps Status env).1 = true
      ∧ (runVendorSteps steps Status env).2.Sent
          = env.Sent ++ (steps.map fun s => LowerRequest.SubmitUrb s.urb) := by
  induction steps with
  | nil => intro Status env _ hS _; simp [runVendorSteps, hS]
  | cons s rest ih =>
    intro Status env hA hS hok
    rw [runVendorSteps, returnIfFailed, vendorStep_run_of_alloc s env hA]
    obtain ⟨_, hn⟩ := outcome_of_succeeds _ (by simpa using hok 0 (by simp))
    have hA2 : ∀ n, (env.afterControl s.urb).AllocOk n = true := hA
    have hlen : (env.afterControl s.urb).Sent.length = env.Sent.length + 1 := by
      simp [Env.afterControl]
    obtain ⟨i1, i2⟩ := ih (env.Lower env.Sent.length).Outcome (env.afterControl s.urb) hA2 hn
      (by
        intro j hj
        have := hok (j + 1) (by simp; omega)
        rw [hlen]
        simpa [Env.afterControl, Nat.add_assoc, Nat.add_comm 1 j] using this)
    simp only [hn, Bool.not_true, Bool.false_eq_true, if_false]
    refine ⟨i1, ?_⟩
    rw [i2]; simp [Env.afterControl]

/-- C9.  Let every allocation succeed and let the lower device answer the first `k - 1` requests
of the bring-up sequence with success and the `k`-th with a failure `e` (a failed bus-level
status, or a successful bus-level status with a failed protocol-level status), `1 ≤ k ≤ 11`.
Then bring-up returns `e` and has handed to the lower device exactly the first `k` of its eleven
requests, in order, and nothing else. -/
theorem C9_bring_up_stops_at_first_failure (env : Env) (k : Nat) (e : NTSTATUS)
    (hA : ∀ n, env.AllocOk n = true) (hk1 : 1 ≤ k) (hk : k ≤ 11)
    (hok : ∀ j, 1 ≤ j → j < k → (env.Lower (env.Sent.length + (j - 1))).Succeeds)
    (hfail : (env.Lower (env.Sent.length + (k - 1))).FailsWith e) :
    (CH341UsbStart_bringUp env).1 = e
    ∧ (CH341UsbStart_bringUp env).2.Sent
        = env.Sent ++ (bringUpRequests.take k).map LowerRequest.SubmitUrb
    ∧ (CH341UsbStart_bringUp env).2.Sent.length = env.Sent.length + k := by
  obtain ⟨k, rfl⟩ : ∃ k', k = k' + 1 := ⟨k - 1, by omega⟩
  have h := runVendorSteps_fails bringUpSteps STATUS_SUCCESS env k e hA
    (by simp [bringUpSteps]; omega)
    (fun j hj => by simpa using hok (j + 1) (by omega) (by omega))
    (by simpa using hfail)
  rw [bringUp_eq_runVendorSteps]
  have hmap : (bringUpSteps.take (k + 1)).map (fun s => LowerRequest.SubmitUrb s.urb)
      = (bringUpRequests.take (k + 1)).map LowerRequest.SubmitUrb := by
    rw [← bringUpSteps_urbs, ← List.map_take, List.map_map]; rfl
  refine ⟨h.1, by rw [h.2.1, hmap], ?_⟩
  rw [h.2.1, List.length_append, List.length_map, List.length_take]
  simp [bringUpSteps]; omega

/-- C9 at a concrete bus: the third request is refused with `STATUS_UNSUCCESSFUL`; bring-up
returns that status after exactly three requests. -/
theorem C9_bring_up_stops_at_first_failure_witness :
    (CH341UsbStart_bringUp (scriptedEnv failingThirdBus)).1 = STATUS_UNSUCCESSFUL
    ∧ (CH341UsbStart_bringUp (scriptedEnv failingThirdBus)).2.Sent
        = [LowerRequest.SubmitUrb (vendorRead 0x8484 0),
           LowerRequest.SubmitUrb (vendorWrite 0x0404 0),
           LowerRequest.SubmitUrb (vendorRead 0x8484 0)]
    ∧ (CH341UsbStart_bringUp (scriptedEnv failingThirdBus)).2.Sent.length = 3 :=
  C9_bring_up_stops_at_first_failure (scriptedEnv failingThirdBus) 3 STATUS_UNSUCCESSFUL
    (fun _ => rfl) (by decide) (by decide)
    (fun j h1 h2 => by
      have hj : j = 1 ∨ j = 2 := by omega
      rcases hj with rfl | rfl <;> decide)
    (by decide)

/-- C10.  Let every allocation succeed and let the lower device answer the eleven requests of
bring-up with success, whatever bytes it returns for the reads.  Then bring-up returns a success
status and has handed to the lower device exactly the eleven requests of `bringUpRequests`, in
order: reads of `0x8484/0`, write `0x0404/0`, reads `0x8484/0`, `0x8383/0`, `0x8484/0`, write
`0x0404/0`, reads `0x8484/0`, `0x8383/0`, writes `0/1`, `1/0`, `2/0x44`; each read is a vendor
device request with code `0x95`, direction in, and a one-byte buffer, each write a vendor device
request with code `0x9A`, direction out, and no data. -/
theorem C10_bring_up_sequence (env : Env) (hA : ∀ n, env.AllocOk n = true)
    (hok : ∀ j, j < 11 → (env.Lower (env.Sent.length + j)).Succeeds) :
    NT_SUCCESS (CH341UsbStart_bringUp env).1 = true
    ∧ (CH341UsbStart_bringUp env).2.Sent = env.Sent ++ bringUpRequests.map LowerRequest.SubmitUrb
    ∧ bringUpRequests.map (fun u => (u.Request, u.Value, u.Index))
        = [(0x95, 0x8484, 0), (0x9A, 0x0404, 0), (0x95, 0x8484, 0), (0x95, 0x8383, 0),
           (0x95, 0x8484, 0), (0x9A, 0x0404, 0), (0x95, 0x8484, 0), (0x95, 0x8383, 0),
           (0x9A, 0, 1), (0x9A, 1, 0), (0x9A, 2, 0x44)]
    ∧ (∀ u ∈ bringUpRequests, u.Function = URB_FUNCTION_VENDOR_DEVICE
        ∧ ((u.Request = CH341_VENDOR_READ_REQUEST
              ∧ u.TransferFlags = (USBD_TRANSFER_DIRECTION_IN ||| USBD_SHORT_TRANSFER_OK)
              ∧ u.TransferBufferLength = 1)
          ∨ (u.Request = CH341_VENDOR_WRITE_REQUEST
              ∧ u.TransferFlags = USBD_TRANSFER_DIRECTION_OUT
              ∧ u.TransferBuffer = [] ∧ u.TransferBufferLength = 0))) := by
  have h := runVendorSteps_succeeds bringUpSteps STATUS_SUCCESS env hA rfl
    (fun j hj => hok j (by simpa [bringUpSteps] using hj))
  rw [bringUp_eq_runVendorSteps]
  refine ⟨h.1, ?_, by decide, by decide⟩
  rw [h.2, ← bringUpSteps_urbs, List.map_map]; rfl

/-- C10 at a concrete bus that answers every probe with the unexpected byte `7`. -/
theorem C10_bring_up_sequence_witness :
    NT_SUCCESS (CH341UsbStart_bringUp (scriptedEnv oddProbeBus)).1 = true
    ∧ (CH341UsbStart_bringUp (scriptedEnv oddProbeBus)).2.Sent
        = bringUpRequests.map LowerRequest.SubmitUrb :=
  have h := C10_bring_up_sequence (scriptedEnv oddProbeBus) (fun _ => rfl)
    (fun _ _ => ⟨rfl, rfl⟩)
  ⟨h.1, h.2.1⟩


/-! ### Start-up and configuration -/

theorem not_NT_SUCCESS_INSUFFICIENT_RESOURCES :
    NT_SUCCESS STATUS_INSUFFICIENT_RESOURCES = false := by decide

theorem getDescriptor_sent_of_success (env : Env) (DescriptorType BufferLength : Nat)
    (h : NT_SUCCESS (CH341UsbGetDescriptor env DescriptorType BufferLength).Status = true) :
    (CH341UsbGetDescriptor env DescriptorType BufferLength).env.Sent
      = env.Sent ++ [LowerRequest.SubmitUrb
          (UsbBuildGetDescriptorRequest DescriptorType 0 0 [] BufferLength)] := by
  have bad : ¬ NT_SUCCESS STATUS_INSUFFICIENT_RESOURCES = true := by decide
  by_cases a1 : env.AllocOk env.AllocCount = true
  · by_cases a2 : env.AllocOk (env.AllocCount + 1) = true
    · by_cases a3 : env.AllocOk (env.AllocCount + 1 + 1) = true
      · unfold CH341UsbGetDescriptor
        simp only [ExAllocatePoolWithTag, a1, a2, if_true, Nat.add_eq_zero, one_ne_zero,
          and_false, if_false]
        simp only [submitUrb_of_alloc, a3]
        simp only [ExFreePoolWithTag]
        split_ifs <;> simp
      · exfalso
        unfold CH341UsbGetDescriptor at h
        simp only [ExAllocatePoolWithTag, a1, a2, if_true, Nat.add_eq_zero, one_ne_zero,
          and_false, if_false, CH341UsbSubmitUrb, IoBuildDeviceIoControlRequest, a3,
          Bool.not_false, not_NT_SUCCESS_INSUFFICIENT_RESOURCES, Bool.not_true] at h
        exact bad h
    · exfalso
      unfold CH341UsbGetDescriptor at h
      simp only [ExAllocatePoolWithTag, a1, a2, if_true, Nat.add_eq_zero, one_ne_zero,
        and_false, if_false, Bool.false_eq_true] at h
      exact bad h
  · exfalso
    unfold CH341UsbGetDescriptor at h
    simp only [ExAllocatePoolWithTag, a1, if_false, if_true, Bool.false_eq_true] at h
    exact bad h

/-- C7.  Let the fetch of the device descriptor, the nine-byte fetch of the configuration
descriptor and its full-length fetch all return success, and let the configuration descriptor
fetched last declare a number of interfaces other than one.  Then `CH341UsbStart` returns
`STATUS_DEVICE_CONFIGURATION_ERROR`, leaves the device extension (the three endpoint handles
among its fields) as it was, and has handed to the lower device the three get-descriptor requests
and nothing else: no select-configuration request and no vendor request. -/
theorem C7_interface_count_not_one (DeviceExtension : DEVICE_EXTENSION) (env : Env)
    (d p c : DescriptorResult)
    (hd : d = CH341UsbGetDescriptor env USB_DEVICE_DESCRIPTOR_TYPE sizeof_USB_DEVICE_DESCRIPTOR)
    (hp : p = CH341UsbGetDescriptor (ExFreePoolWithTag d.env d.Buffer)
      USB_CONFIGURATION_DESCRIPTOR_TYPE sizeof_USB_CONFIGURATION_DESCRIPTOR)
    (hc : c = CH341UsbGetDescriptor (ExFreePoolWithTag p.env p.Buffer)
      USB_CONFIGURATION_DESCRIPTOR_TYPE (readUSHORT p.Data 2))
    (hds : NT_SUCCESS d.Status = true) (hps : NT_SUCCESS p.Status = true)
    (hcs : NT_SUCCESS c.Status = true) (hn : readUCHAR c.Data 4 ≠ 1) :
    (CH341UsbStart DeviceExtension env).1 = STATUS_DEVICE_CONFIGURATION_ERROR
    ∧ (CH341UsbStart DeviceExtension env).2.1 = DeviceExtension
    ∧ (CH341UsbStart DeviceExtension env).2.2.Sent
        = env.Sent ++
          [LowerRequest.SubmitUrb (UsbBuildGetDescriptorRequest USB_DEVICE_DESCRIPTOR_TYPE 0 0 []
              sizeof_USB_DEVICE_DESCRIPTOR),
           LowerRequest.SubmitUrb (UsbBuildGetDescriptorRequest USB_CONFIGURATION_DESCRIPTOR_TYPE
              0 0 [] sizeof_USB_CONFIGURATION_DESCRIPTOR),
           LowerRequest.SubmitUrb (UsbBuildGetDescriptorRequest USB_CONFIGURATION_DESCRIPTOR_TYPE
              0 0 [] (readUSHORT p.Data 2))] := by
  have s1 := getDescriptor_sent_of_success env _ _ (hd ▸ hds)
  have s2 := getDescriptor_sent_of_success (ExFreePoolWithTag d.env d.Buffer) _ _ (hp ▸ hps)
  have s3 := getDescriptor_sent_of_success (ExFreePoolWithTag p.env p.Buffer) _ _ (hc ▸ hcs)
  rw [← hd] at s1
  rw [← hp] at s2
  rw [← hc] at s3
  have e : CH341UsbStart DeviceExtension env
      = (STATUS_DEVICE_CONFIGURATION_ERROR, DeviceExtension, ExFreePoolWithTag c.env c.Buffer) := by
    unfold CH341UsbStart
    simp only [← hd, hds, ← hp, hps, ← hc, hcs, Bool.not_true, Bool.false_eq_true, if_false, hn,
      ne_eq, not_false_eq_true, if_true]
  rw [e]
  refine ⟨rfl, rfl, ?_⟩
  show c.env.Sent = _
  rw [s3]
  show p.env.Sent ++ _ = _
  rw [s2]
  show d.env.Sent ++ _ ++ _ = _
  rw [s1]
  simp


/-- C7 at a concrete bus whose configuration descriptor declares two interfaces. -/
theorem C7_interface_count_not_one_witness :
    (CH341UsbStart unconfiguredExtension (scriptedEnv twoInterfacesBus)).1
      = STATUS_DEVICE_CONFIGURATION_ERROR
    ∧ (CH341UsbStart unconfiguredExtension (scriptedEnv twoInterfacesBus)).2.1
      = unconfiguredExtension
    ∧ (CH341UsbStart unconfiguredExtension (scriptedEnv twoInterfacesBus)).2.2.Sent
        = [LowerRequest.SubmitUrb (UsbBuildGetDescriptorRequest USB_DEVICE_DESCRIPTOR_TYPE 0 0 []
              18),
           LowerRequest.SubmitUrb (UsbBuildGetDescriptorRequest USB_CONFIGURATION_DESCRIPTOR_TYPE
              0 0 [] 9),
           LowerRequest.SubmitUrb (UsbBuildGetDescriptorRequest USB_CONFIGURATION_DESCRIPTOR_TYPE
              0 0 [] 9)] :=
  C7_interface_count_not_one unconfiguredExtension (scriptedEnv twoInterfacesBus) _ _ _
    rfl rfl rfl (by decide) (by decide) (by decide) (by decide)

theorem configure_pipes_frame (Pipes : List USBD_PIPE_INFORMATION) :
    ∀ DeviceExtension : DEVICE_EXTENSION,
      Pipes.foldl CH341UsbConfigureDevice_pipe DeviceExtension
        = { DeviceExtension with
            BulkInPipe := (Pipes.foldl CH341UsbConfigureDevice_pipe DeviceExtension).BulkInPipe
            BulkOutPipe := (Pipes.foldl CH341UsbConfigureDevice_pipe DeviceExtension).BulkOutPipe
            InterruptInPipe :=
              (Pipes.foldl CH341UsbConfigureDevice_pipe DeviceExtension).InterruptInPipe } := by
  induction Pipes with
  | nil => intro DeviceExtension; rfl
  | cons q rest ih =>
    intro DeviceExtension
    rw [List.foldl_cons]
    have h := ih (CH341UsbConfigureDevice_pipe DeviceExtension q)
    rw [h]
    simp only [CH341UsbConfigureDevice_pipe]
    split_ifs <;> rfl

theorem configure_pipes_bulkIn (Pipes : List USBD_PIPE_INFORMATION) :
    ∀ DeviceExtension : DEVICE_EXTENSION,
      (Pipes.foldl CH341UsbConfigureDevice_pipe DeviceExtension).BulkInPipe
          = DeviceExtension.BulkInPipe
      ∨ ∃ q ∈ Pipes, IsBulkIn q
          ∧ q.PipeHandle = (Pipes.foldl CH341UsbConfigureDevice_pipe DeviceExtension).BulkInPipe := by
  induction Pipes with
  | nil => intro DeviceExtension; exact Or.inl rfl
  | cons q rest ih =>
    intro DeviceExtension
    rw [List.foldl_cons]
    rcases ih (CH341UsbConfigureDevice_pipe DeviceExtension q) with h | ⟨q2, hq2, h2, h3⟩
    · rw [h]
      by_cases hb : q.PipeType = UsbdPipeTypeBulk ∧
          USB_ENDPOINT_DIRECTION_IN q.EndpointAddress = true ∧ DeviceExtension.BulkInPipe = 0
      · right
        refine ⟨q, List.mem_cons_self _ _, ⟨hb.1, hb.2.1⟩, ?_⟩
        simp only [CH341UsbConfigureDevice_pipe, hb, and_self, if_true]
        split_ifs <;> rfl
      · left
        simp only [CH341UsbConfigureDevice_pipe, hb, if_false]
        split_ifs <;> rfl
    · exact Or.inr ⟨q2, List.mem_cons_of_mem _ hq2, h2, h3⟩

theorem configure_pipes_bulkOut (Pipes : List USBD_PIPE_INFORMATION) :
    ∀ DeviceExtension : DEVICE_EXTENSION,
      (Pipes.foldl CH341UsbConfigureDevice_pipe DeviceExtension).BulkOutPipe
          = DeviceExtension.BulkOutPipe
      ∨ ∃ q ∈ Pipes, IsBulkOut q
          ∧ q.PipeHandle
            = (Pipes.foldl CH341UsbConfigureDevice_pipe DeviceExtension).BulkOutPipe := by
  induction Pipes with
  | nil => intro DeviceExtension; exact Or.inl rfl
  | cons q rest ih =>
    intro DeviceExtension
    rw [List.foldl_cons]
    rcases ih (CH341UsbConfigureDevice_pipe DeviceExtension q) with h | ⟨q2, hq2, h2, h3⟩
    · rw [h]
      by_cases hb : q.PipeType = UsbdPipeTypeBulk ∧
          USB_ENDPOINT_DIRECTION_OUT q.EndpointAddress = true ∧ DeviceExtension.BulkOutPipe = 0
      · right
        refine ⟨q, List.mem_cons_self _ _, ⟨hb.1, hb.2.1⟩, ?_⟩
        simp only [CH341UsbConfigureDevice_pipe]
        split_ifs <;> simp_all
      · left
        simp only [CH341UsbConfigureDevice_pipe]
        split_ifs <;> simp_all
    · exact Or.inr ⟨q2, List.mem_cons_of_mem _ hq2, h2, h3⟩

theorem configure_pipes_interruptIn (Pipes : List USBD_PIPE_INFORMATION) :
    ∀ DeviceExtension : DEVICE_EXTENSION,
      (Pipes.foldl CH341UsbConfigureDevice_pipe DeviceExtension).InterruptInPipe
          = DeviceExtension.InterruptInPipe
      ∨ ∃ q ∈ Pipes, IsInterruptIn q
          ∧ q.PipeHandle
            = (Pipes.foldl CH341UsbConfigureDevice_pipe DeviceExtension).InterruptInPipe := by
  induction Pipes with
  | nil => intro DeviceExtension; exact Or.inl rfl
  | cons q rest ih =>
    intro DeviceExtension
    rw [List.foldl_cons]
    rcases ih (CH341UsbConfigureDevice_pipe DeviceExtension q) with h | ⟨q2, hq2, h2, h3⟩
    · rw [h]
      by_cases hb : q.PipeType = UsbdPipeTypeInterrupt ∧
          USB_ENDPOINT_DIRECTION_IN q.EndpointAddress = true ∧
          DeviceExtension.InterruptInPipe = 0
      · right
        refine ⟨q, List.mem_cons_self _ _, ⟨hb.1, hb.2.1⟩, ?_⟩
        simp only [CH341UsbConfigureDevice_pipe]
        split_ifs <;> simp_all
      · left
        simp only [CH341UsbConfigureDevice_pipe]
        split_ifs <;> simp_all
    · exact Or.inr ⟨q2, List.mem_cons_of_mem _ hq2, h2, h3⟩


theorem configureDevice_of_selected (DeviceExtension : DEVICE_EXTENSION) (env : Env)
    (ConfigDescriptor : List Nat) (InterfaceDescriptor : Nat)
    (ha1 : env.AllocOk env.AllocCount = true) (ha2 : env.AllocOk (env.AllocCount + 1) = true)
    (hs : NT_SUCCESS (env.Lower env.Sent.length).Status = true) :
    (CH341UsbConfigureDevice DeviceExtension env ConfigDescriptor InterfaceDescriptor).2.1
        = (env.Lower env.Sent.length).Pipes.foldl CH341UsbConfigureDevice_pipe DeviceExtension
    ∧ (CH341UsbConfigureDevice DeviceExtension env ConfigDescriptor InterfaceDescriptor).1
        = (if ((env.Lower env.Sent.length).Pipes.foldl CH341UsbConfigureDevice_pipe
                DeviceExtension).BulkInPipe = 0
              ∨ ((env.Lower env.Sent.length).Pipes.foldl CH341UsbConfigureDevice_pipe
                DeviceExtension).BulkOutPipe = 0
              ∨ ((env.Lower env.Sent.length).Pipes.foldl CH341UsbConfigureDevice_pipe
                DeviceExtension).InterruptInPipe = 0
           then STATUS_DEVICE_CONFIGURATION_ERROR else (env.Lower env.Sent.length).Status) := by
  unfold CH341UsbConfigureDevice
  simp only [USBD_CreateConfigurationRequestEx, ExAllocatePoolWithTag, ha1, if_true]
  rw [submitUrb_of_alloc _ _ ha2]
  simp only [Nat.add_eq_zero, one_ne_zero, and_false, if_false, hs, Bool.not_true,
    Bool.false_eq_true, Response.applyTo]
  split_ifs <;> exact ⟨rfl, rfl⟩

/-- C8 as amended.  For a device whose three endpoint handles are unset, when the select-
configuration request has been created and accepted and the pipe list it returns lacks a bulk-in,
a bulk-out or an interrupt-in pipe, `CH341UsbConfigureDevice` returns
`STATUS_DEVICE_CONFIGURATION_ERROR`; afterwards the handle of every category the list lacks is
still unset, a handle that is set is the handle of a pipe of its category in the list, and no
other field of the device extension has changed. -/
theorem C8_missing_endpoint_amended (DeviceExtension : DEVICE_EXTENSION) (env : Env)
    (ConfigDescriptor : List Nat) (InterfaceDescriptor : Nat)
    (hin : DeviceExtension.BulkInPipe = 0) (hout : DeviceExtension.BulkOutPipe = 0)
    (hint : DeviceExtension.InterruptInPipe = 0)
    (ha1 : env.AllocOk env.AllocCount = true) (ha2 : env.AllocOk (env.AllocCount + 1) = true)
    (hs : NT_SUCCESS (env.Lower env.Sent.length).Status = true)
    (hl : (∀ q ∈ (env.Lower env.Sent.length).Pipes, ¬ IsBulkIn q)
      ∨ (∀ q ∈ (env.Lower env.Sent.length).Pipes, ¬ IsBulkOut q)
      ∨ (∀ q ∈ (env.Lower env.Sent.length).Pipes, ¬ IsInterruptIn q)) :
    ∀ r, r = CH341UsbConfigureDevice DeviceExtension env ConfigDescriptor InterfaceDescriptor →
      r.1 = STATUS_DEVICE_CONFIGURATION_ERROR
      ∧ ((∀ q ∈ (env.Lower env.Sent.length).Pipes, ¬ IsBulkIn q) → r.2.1.BulkInPipe = 0)
      ∧ ((∀ q ∈ (env.Lower env.Sent.length).Pipes, ¬ IsBulkOut q) → r.2.1.BulkOutPipe = 0)
      ∧ ((∀ q ∈ (env.Lower env.Sent.length).Pipes, ¬ IsInterruptIn q) →
          r.2.1.InterruptInPipe = 0)
      ∧ (r.2.1.BulkInPipe ≠ 0 →
          ∃ q ∈ (env.Lower env.Sent.length).Pipes, IsBulkIn q ∧ q.PipeHandle = r.2.1.BulkInPipe)
      ∧ (r.2.1.BulkOutPipe ≠ 0 →
          ∃ q ∈ (env.Lower env.Sent.length).Pipes, IsBulkOut q ∧ q.PipeHandle = r.2.1.BulkOutPipe)
      ∧ (r.2.1.InterruptInPipe ≠ 0 →
          ∃ q ∈ (env.Lower env.Sent.length).Pipes,
            IsInterruptIn q ∧ q.PipeHandle = r.2.1.InterruptInPipe)
      ∧ r.2.1 = { DeviceExtension with
                  BulkInPipe := r.2.1.BulkInPipe
                  BulkOutPipe := r.2.1.BulkOutPipe
                  InterruptInPipe := r.2.1.InterruptInPipe } := by
  intro r hr
  obtain ⟨e1, e2⟩ := configureDevice_of_selected DeviceExtension env ConfigDescriptor
    InterfaceDescriptor ha1 ha2 hs
  rw [← hr] at e1 e2
  have fI := configure_pipes_bulkIn (env.Lower env.Sent.length).Pipes DeviceExtension
  have fO := configure_pipes_bulkOut (env.Lower env.Sent.length).Pipes DeviceExtension
  have fT := configure_pipes_interruptIn (env.Lower env.Sent.length).Pipes DeviceExtension
  have fF := configure_pipes_frame (env.Lower env.Sent.length).Pipes DeviceExtension
  rw [← e1] at e2 fI fO fT fF
  rw [hin] at fI
  rw [hout] at fO
  rw [hint] at fT
  have kI : (∀ q ∈ (env.Lower env.Sent.length).Pipes, ¬ IsBulkIn q) → r.2.1.BulkInPipe = 0 := by
    intro h
    rcases fI with h1 | ⟨q, hq, hb, _⟩
    · exact h1
    · exact absurd hb (h q hq)
  have kO : (∀ q ∈ (env.Lower env.Sent.length).Pipes, ¬ IsBulkOut q) →
      r.2.1.BulkOutPipe = 0 := by
    intro h
    rcases fO with h1 | ⟨q, hq, hb, _⟩
    · exact h1
    · exact absurd hb (h q hq)
  have kT : (∀ q ∈ (env.Lower env.Sent.length).Pipes, ¬ IsInterruptIn q) →
      r.2.1.InterruptInPipe = 0 := by
    intro h
    rcases fT with h1 | ⟨q, hq, hb, _⟩
    · exact h1
    · exact absurd hb (h q hq)
  have hz : r.2.1.BulkInPipe = 0 ∨ r.2.1.BulkOutPipe = 0 ∨ r.2.1.InterruptInPipe = 0 := by
    rcases hl with h | h | h
    · exact Or.inl (kI h)
    · exact Or.inr (Or.inl (kO h))
    · exact Or.inr (Or.inr (kT h))
  refine ⟨by rw [e2, if_pos hz], kI, kO, kT, ?_, ?_, ?_, fF⟩
  · intro hne
    rcases fI with h1 | h1
    · exact absurd h1 hne
    · exact h1
  · intro hne
    rcases fO with h1 | h1
    · exact absurd h1 hne
    · exact h1
  · intro hne
    rcases fT with h1 | h1
    · exact absurd h1 hne
    · exact h1

/-- C8 as amended, at the bus that lists a single bulk-in pipe. -/
theorem C8_missing_endpoint_amended_witness :
    (CH341UsbConfigureDevice unconfiguredExtension (scriptedEnv bulkInOnlyBus) [] 0).1
      = STATUS_DEVICE_CONFIGURATION_ERROR
    ∧ (CH341UsbConfigureDevice unconfiguredExtension (scriptedEnv bulkInOnlyBus) [] 0).2.1.BulkOutPipe
      = 0 :=
  have h := C8_missing_endpoint_amended unconfiguredExtension (scriptedEnv bulkInOnlyBus) [] 0
    rfl rfl rfl rfl rfl (by decide) (Or.inr (Or.inl (by decide))) _ rfl
  ⟨h.1, h.2.2.1 (by decide)⟩

/-- C8 fails as stated.  On an unconfigured device (three handles unset), with a pipe list that
holds one bulk-in pipe with handle `5` and so lacks a bulk-out and an interrupt-in pipe,
configuration returns `STATUS_DEVICE_CONFIGURATION_ERROR` but the bulk-in handle is `5`
afterwards: the three handles are not all unset. -/
theorem C8_partial_binding_counterexample :
    unconfiguredExtension.BulkInPipe = 0 ∧ unconfiguredExtension.BulkOutPipe = 0
    ∧ unconfiguredExtension.InterruptInPipe = 0
    ∧ (∀ q ∈ ((scriptedEnv bulkInOnlyBus).Lower 0).Pipes, ¬ IsBulkOut q)
    ∧ (CH341UsbConfigureDevice unconfiguredExtension (scriptedEnv bulkInOnlyBus) [] 0).1
        = STATUS_DEVICE_CONFIGURATION_ERROR
    ∧ (CH341UsbConfigureDevice unconfiguredExtension (scriptedEnv bulkInOnlyBus) [] 0).2.1.BulkInPipe
        = 5
    ∧ ¬ ((CH341UsbConfigureDevice unconfiguredExtension (scriptedEnv bulkInOnlyBus) [] 0).2.1.BulkInPipe
          = 0
        ∧ (CH341UsbConfigureDevice unconfiguredExtension (scriptedEnv bulkInOnlyBus) [] 0).2.1.BulkOutPipe
          = 0
        ∧ (CH341UsbConfigureDevice unconfiguredExtension
            (scriptedEnv bulkInOnlyBus) [] 0).2.1.InterruptInPipe = 0) := by
  refine ⟨rfl, rfl, rfl, by decide, by decide, by decide, by decide⟩

/-! ### Lifecycle -/

/-- No routine of the dispatch table changes a device extension whose state is `Deleted`. -/
theorem dispatch_of_Deleted (MajorFunction : Nat)
    (Dispatch : DEVICE_EXTENSION → IRP → Env → DispatchResult)
    (h : DriverEntry MajorFunction = some Dispatch) (DeviceExtension : DEVICE_EXTENSION)
    (hs : DeviceExtension.PnpState = Deleted) (Irp : IRP) (env : Env) :
    (Dispatch DeviceExtension Irp env).DeviceExtension = DeviceExtension := by
  unfold DriverEntry at h
  split_ifs at h <;> simp only [Option.some.injEq, reduceCtorEq] at h <;> subst h
  · simp [CH341DispatchPnp, hs]
  · simp [CH341DispatchPower, hs]
  · simp [CH341DispatchSystemControl, hs]
  · simp [CH341DispatchDeviceControl, hs]
  · simp [CH341DispatchDeviceControl, hs]
  · simp [CH341DispatchCreate]
  · simp [CH341DispatchClose]
  · simp only [CH341DispatchRead, CH341UsbRead]
    split_ifs <;> rfl
  · simp only [CH341DispatchWrite, CH341UsbWrite]
    split_ifs <;> rfl

theorem deliver_of_Deleted (s : DEVICE_EXTENSION × Env) (hs : s.1.PnpState = Deleted)
    (Irp : IRP) : (deliver s Irp).1 = s.1 := by
  unfold deliver
  cases h : DriverEntry Irp.MajorFunction with
  | none => rfl
  | some Dispatch => exact dispatch_of_Deleted _ _ h _ hs _ _

theorem deliverAll_of_Deleted (Irps : List IRP) (s : DEVICE_EXTENSION × Env)
    (hs : s.1.PnpState = Deleted) : (deliverAll s Irps).1 = s.1 := by
  induction Irps generalizing s with
  | nil => rfl
  | cons Irp Irps ih =>
    have h1 := deliver_of_Deleted s hs Irp
    have h2 := ih (deliver s Irp) (by rw [h1]; exact hs)
    simp only [deliverAll, List.foldl_cons] at h2 ⊢
    rw [h2, h1]

/-- C16: in the state `Deleted` the PnP, power, system-control and device-control routines each
return `STATUS_NO_SUCH_DEVICE`, complete the request themselves, send nothing to the lower device
and leave the device extension and the whole system state as they were; and after any sequence
of requests delivered through the dispatch table the device extension is still the same, so its
state is still `Deleted`. -/
theorem C16_Deleted_is_absorbing (DeviceExtension : DEVICE_EXTENSION) (env : Env)
    (hs : DeviceExtension.PnpState = Deleted) :
    (∀ (Dispatch : DEVICE_EXTENSION → IRP → Env → DispatchResult) (Irp : IRP),
      Dispatch = CH341DispatchPnp ∨ Dispatch = CH341DispatchPower ∨
        Dispatch = CH341DispatchSystemControl ∨ Dispatch = CH341DispatchDeviceControl →
      (Dispatch DeviceExtension Irp env).Status = STATUS_NO_SUCH_DEVICE ∧
      (Dispatch DeviceExtension Irp env).Irp =
        { Irp with Status := STATUS_NO_SUCH_DEVICE, Completed := true } ∧
      (Dispatch DeviceExtension Irp env).DeviceExtension = DeviceExtension ∧
      (Dispatch DeviceExtension Irp env).env = env) ∧
    (∀ Irps : List IRP,
      (deliverAll (DeviceExtension, env) Irps).1 = DeviceExtension ∧
      (deliverAll (DeviceExtension, env) Irps).1.PnpState = Deleted) := by
  refine ⟨?_, ?_⟩
  · intro Dispatch Irp h
    rcases h with h | h | h | h <;> subst h
    · simp [CH341DispatchPnp, hs, IoCompleteRequest]
    · simp [CH341DispatchPower, hs, IoCompleteRequest]
    · simp [CH341DispatchSystemControl, hs, IoCompleteRequest]
    · simp [CH341DispatchDeviceControl, hs, IoCompleteRequest]
  · intro Irps
    have h := deliverAll_of_Deleted Irps (DeviceExtension, env) hs
    exact ⟨h, by rw [h]; exact hs⟩

theorem C16_Deleted_is_absorbing_witness :
    (deliverAll (sampleExtension Deleted, scriptedEnv fun _ => okResponse)
      [freshIrp IRP_MJ_PNP IRP_MN_START_DEVICE 0 0 0 0 [],
        freshIrp IRP_MJ_PNP IRP_MN_CANCEL_REMOVE_DEVICE 0 0 0 0 []]).1.PnpState = Deleted :=
  ((C16_Deleted_is_absorbing (sampleExtension Deleted) (scriptedEnv fun _ => okResponse)
    rfl).2 _).2


/-- C13: for a device that is not `Deleted`, whatever the lower device and the platform answer to
the calls made on the way: query-stop saves the current state and moves to `StopPending`,
query-remove saves it and moves to `RemovePending` (from `Started` in particular), stop moves
to `Stopped` (from `StopPending` in particular), surprise removal moves to
`SurpriseRemovePending`, none of them touching any other field; and a request whose minor code is
none of the eight handled ones leaves the whole device extension unchanged and is passed to the
lower device exactly as it came, its status included, the result being the lower device's. -/
theorem C13_next_state_table (DeviceExtension : DEVICE_EXTENSION) (Irp : IRP) (env : Env)
    (hs : DeviceExtension.PnpState ≠ Deleted) :
    (CH341DispatchPnp DeviceExtension { Irp with MinorFunction := IRP_MN_QUERY_STOP_DEVICE }
        env).DeviceExtension =
      { DeviceExtension with
        PreviousPnpState := DeviceExtension.PnpState, PnpState := StopPending } ∧
    (CH341DispatchPnp DeviceExtension { Irp with MinorFunction := IRP_MN_QUERY_REMOVE_DEVICE }
        env).DeviceExtension =
      { DeviceExtension with
        PreviousPnpState := DeviceExtension.PnpState, PnpState := RemovePending } ∧
    (CH341DispatchPnp DeviceExtension { Irp with MinorFunction := IRP_MN_STOP_DEVICE }
        env).DeviceExtension = { DeviceExtension with PnpState := Stopped } ∧
    (CH341DispatchPnp DeviceExtension { Irp with MinorFunction := IRP_MN_SURPRISE_REMOVAL }
        env).DeviceExtension = { DeviceExtension with PnpState := SurpriseRemovePending } ∧
    (Irp.MinorFunction ≠ IRP_MN_START_DEVICE → Irp.MinorFunction ≠ IRP_MN_QUERY_STOP_DEVICE →
      Irp.MinorFunction ≠ IRP_MN_QUERY_REMOVE_DEVICE →
      Irp.MinorFunction ≠ IRP_MN_CANCEL_STOP_DEVICE →
      Irp.MinorFunction ≠ IRP_MN_CANCEL_REMOVE_DEVICE → Irp.MinorFunction ≠ IRP_MN_STOP_DEVICE →
      Irp.MinorFunction ≠ IRP_MN_SURPRISE_REMOVAL → Irp.MinorFunction ≠ IRP_MN_REMOVE_DEVICE →
      (CH341DispatchPnp DeviceExtension Irp env).DeviceExtension = DeviceExtension ∧
      (CH341DispatchPnp DeviceExtension Irp env).Irp = Irp ∧
      (CH341DispatchPnp DeviceExtension Irp env).env =
        { env with Sent := env.Sent ++ [LowerRequest.Forward Irp] } ∧
      (CH341DispatchPnp DeviceExtension Irp env).Status =
        (env.Lower env.Sent.length).CallStatus) := by
  refine ⟨?_, ?_, ?_, ?_, ?_⟩
  · simp [CH341DispatchPnp, hs, CH341DispatchPnp_passDown, IRP_MN_START_DEVICE,
      IRP_MN_QUERY_STOP_DEVICE]
  · simp [CH341DispatchPnp, hs, CH341DispatchPnp_passDown, IRP_MN_START_DEVICE,
      IRP_MN_QUERY_STOP_DEVICE, IRP_MN_QUERY_REMOVE_DEVICE]
  · simp [CH341DispatchPnp, hs, CH341DispatchPnp_passDown, IRP_MN_START_DEVICE,
      IRP_MN_QUERY_STOP_DEVICE, IRP_MN_QUERY_REMOVE_DEVICE, IRP_MN_CANCEL_REMOVE_DEVICE,
      IRP_MN_CANCEL_STOP_DEVICE, IRP_MN_STOP_DEVICE]
  · simp [CH341DispatchPnp, hs, CH341DispatchPnp_passDown, IRP_MN_START_DEVICE,
      IRP_MN_QUERY_STOP_DEVICE, IRP_MN_QUERY_REMOVE_DEVICE, IRP_MN_CANCEL_REMOVE_DEVICE,
      IRP_MN_CANCEL_STOP_DEVICE, IRP_MN_STOP_DEVICE, IRP_MN_SURPRISE_REMOVAL]
  · intro h1 h2 h3 h4 h5 h6 h7 h8
    simp [CH341DispatchPnp, hs, h1, h2, h3, h4, h5, h6, h7, h8, IoCallDriver]

theorem C13_next_state_table_witness :
    (CH341DispatchPnp (sampleExtension Started)
        { freshIrp IRP_MJ_PNP 0 0 0 0 0 [] with MinorFunction := IRP_MN_QUERY_STOP_DEVICE }
        (scriptedEnv fun _ => okResponse)).DeviceExtension =
      { sampleExtension Started with PreviousPnpState := Started, PnpState := StopPending } :=
  (C13_next_state_table (sampleExtension Started) (freshIrp IRP_MJ_PNP 0 0 0 0 0 [])
    (scriptedEnv fun _ => okResponse) (by decide)).1

/-- The calls that `CH341StopDevice` makes to the platform, in order. -/
theorem stopDevice_platformCalls (DeviceExtension : DEVICE_EXTENSION) (env : Env) :
    (CH341StopDevice DeviceExtension env).2 =
      { env with
        PlatformCalls := env.PlatformCalls ++
          ((if DeviceExtension.ComPortName.Buffer ≠ 0 then
              [PlatformCall.DeleteSymbolicLink DeviceExtension.ComPortName]
            else []) ++
            [PlatformCall.SetDeviceInterfaceState DeviceExtension.InterfaceLinkName false]) } := by
  unfold CH341StopDevice
  split_ifs <;>
    simp [IoDeleteSymbolicLink, IoSetDeviceInterfaceState, PlatformInvoke]

theorem destroyDevice_PnpState (d : DEVICE_EXTENSION) (e : Env) :
    (CH341DestroyDevice d e).2.1.PnpState = d.PnpState := by
  unfold CH341DestroyDevice
  split_ifs <;> rfl

theorem destroyDevice_PreviousPnpState (d : DEVICE_EXTENSION) (e : Env) :
    (CH341DestroyDevice d e).2.1.PreviousPnpState = d.PreviousPnpState := by
  unfold CH341DestroyDevice
  split_ifs <;> rfl

theorem destroyDevice_PlatformCalls (d : DEVICE_EXTENSION) (e : Env) :
    (CH341DestroyDevice d e).2.2.PlatformCalls = e.PlatformCalls := by
  unfold CH341DestroyDevice
  split_ifs <;> rfl

theorem destroyDevice_Sent (d : DEVICE_EXTENSION) (e : Env) :
    (CH341DestroyDevice d e).2.2.Sent = e.Sent := by
  unfold CH341DestroyDevice
  split_ifs <;> rfl

/-- C15: a remove request on a device in a state `s` other than `Deleted` moves it to `Deleted`
(saving `s`); the platform calls of `CH341StopDevice` (deleting the COM port link if there is
one, then disabling the device interface) are made once when `s` is not `SurpriseRemovePending`
and not at all when it is; the request is then passed to the lower device with a success status,
and the result is the status the lower device returns, whatever the platform answered to the
teardown. -/
theorem C15_remove (DeviceExtension : DEVICE_EXTENSION) (Irp : IRP) (env : Env)
    (hs : DeviceExtension.PnpState ≠ Deleted) :
    ∀ r, r = CH341DispatchPnp DeviceExtension
        { Irp with MinorFunction := IRP_MN_REMOVE_DEVICE } env →
      r.DeviceExtension.PnpState = Deleted ∧
      r.DeviceExtension.PreviousPnpState = DeviceExtension.PnpState ∧
      r.env.PlatformCalls =
        (if DeviceExtension.PnpState = SurpriseRemovePending then env
        else (CH341StopDevice DeviceExtension env).2).PlatformCalls ∧
      r.env.PlatformCalls = env.PlatformCalls ++
        (if DeviceExtension.PnpState = SurpriseRemovePending then []
        else
          (if DeviceExtension.ComPortName.Buffer ≠ 0 then
              [PlatformCall.DeleteSymbolicLink DeviceExtension.ComPortName]
            else []) ++
            [PlatformCall.SetDeviceInterfaceState DeviceExtension.InterfaceLinkName false]) ∧
      r.env.Sent = env.Sent ++
        [LowerRequest.Forward
          { Irp with MinorFunction := IRP_MN_REMOVE_DEVICE, Status := STATUS_SUCCESS }] ∧
      r.Status = (env.Lower env.Sent.length).CallStatus := by
  intro r hr
  subst hr
  simp only [CH341DispatchPnp, hs, if_false, IRP_MN_START_DEVICE, IRP_MN_QUERY_STOP_DEVICE,
    IRP_MN_QUERY_REMOVE_DEVICE, IRP_MN_CANCEL_REMOVE_DEVICE, IRP_MN_CANCEL_STOP_DEVICE,
    IRP_MN_STOP_DEVICE, IRP_MN_SURPRISE_REMOVAL, IRP_MN_REMOVE_DEVICE,
    destroyDevice_PnpState, destroyDevice_PreviousPnpState, destroyDevice_PlatformCalls,
    destroyDevice_Sent]
  by_cases h : DeviceExtension.PnpState = SurpriseRemovePending
  · simp [h, IoCallDriver, destroyDevice_PnpState, destroyDevice_PreviousPnpState,
      destroyDevice_PlatformCalls, destroyDevice_Sent]
  · simp [h, IoCallDriver, stopDevice_platformCalls, destroyDevice_PnpState,
      destroyDevice_PreviousPnpState, destroyDevice_PlatformCalls, destroyDevice_Sent]

theorem C15_remove_witness :
    (CH341DispatchPnp (sampleExtension Started)
        { freshIrp IRP_MJ_PNP 0 0 0 0 0 [] with MinorFunction := IRP_MN_REMOVE_DEVICE }
        (scriptedEnv fun _ => okResponse)).DeviceExtension.PnpState = Deleted :=
  (C15_remove (sampleExtension Started) (freshIrp IRP_MJ_PNP 0 0 0 0 0 [])
    (scriptedEnv fun _ => okResponse) (by decide) _ rfl).1


/-! ### Start and stop -/

/-- C12, evaluated on a start in which everything succeeds except the set-line request: the
seventeenth request the lower device receives is the set-line request carrying the defaults
(115200 baud), the lower device fails it, so that the set-line call made after `CH341UsbStart`
returns the failure `STATUS_UNSUCCESSFUL`, and yet `CH341StartDevice` and the PnP routine return
`STATUS_SUCCESS` and the state advances to `Started`. -/
theorem C12_start_succeeds_when_set_line_fails :
    (CH341DispatchPnp unconfiguredExtension sampleStart (scriptedEnv lineFailsBus)).env.Sent.drop 16
        = [LowerRequest.SubmitUrb
            (UsbBuildVendorRequest URB_FUNCTION_CLASS_DEVICE USBD_TRANSFER_DIRECTION_OUT 0
              CH341_SET_LINE_REQUEST 0 0 (CH341UsbSetLine_Line 115200 0 0 0) 8)] ∧
      (lineFailsBus 16).Status = STATUS_UNSUCCESSFUL ∧
      (CH341UsbSetLine
        (CH341UsbStart unconfiguredExtension
          (IoForwardIrpSynchronously (scriptedEnv lineFailsBus) sampleStart).2.2).2.2
        115200 0 0 0).1 = STATUS_UNSUCCESSFUL ∧
      NT_SUCCESS STATUS_UNSUCCESSFUL = false ∧
      (CH341StartDevice unconfiguredExtension
        (IoForwardIrpSynchronously (scriptedEnv lineFailsBus) sampleStart).2.2).1
        = STATUS_SUCCESS ∧
      (CH341DispatchPnp unconfiguredExtension sampleStart (scriptedEnv lineFailsBus)).Status
        = STATUS_SUCCESS ∧
      (CH341DispatchPnp unconfiguredExtension sampleStart
        (scriptedEnv lineFailsBus)).DeviceExtension.PnpState = Started := by
  decide

/-- The outcome of `CH341UsbUnconfigureDevice` when its two allocations succeed. -/
theorem unconfigureDevice_of_alloc (env : Env) (h1 : env.AllocOk env.AllocCount = true)
    (h2 : env.AllocOk (env.AllocCount + 1) = true) :
    CH341UsbUnconfigureDevice env
      = ((env.Lower env.Sent.length).Status,
         env.afterControl (UsbBuildSelectConfigurationRequest none)) := by
  unfold CH341UsbUnconfigureDevice
  simp only [ExAllocatePoolWithTag, h1, if_true]
  rw [submitUrb_of_alloc _ _ h2]
  simp only [ExFreePoolWithTag, Env.afterControl, Nat.add_eq_zero, one_ne_zero, and_false,
    if_false]
  split_ifs <;> rfl

/-- C14 as amended.  After a stop request on a device that is not `Deleted`, the two allocations
of the unconfigure step succeeding: the lower device has received one select-configuration
request with no configuration descriptor and then the stop request itself, the state is
`Stopped`, and every other field of the device extension is as before: name, lower device,
line state, and also the three endpoint handles, which keep their values. -/
theorem C14_stop_amended (DeviceExtension : DEVICE_EXTENSION) (Irp : IRP) (env : Env)
    (hs : DeviceExtension.PnpState ≠ Deleted)
    (h1 : env.AllocOk env.AllocCount = true) (h2 : env.AllocOk (env.AllocCount + 1) = true) :
    ∀ r, r = CH341DispatchPnp DeviceExtension { Irp with MinorFunction := IRP_MN_STOP_DEVICE }
        env →
      r.env.Sent = env.Sent ++
        [LowerRequest.SubmitUrb (UsbBuildSelectConfigurationRequest none),
         LowerRequest.Forward
          { Irp with MinorFunction := IRP_MN_STOP_DEVICE, Status := STATUS_SUCCESS }] ∧
      (UsbBuildSelectConfigurationRequest none).Function = URB_FUNCTION_SELECT_CONFIGURATION ∧
      (UsbBuildSelectConfigurationRequest none).ConfigurationDescriptor = none ∧
      r.DeviceExtension = { DeviceExtension with PnpState := Stopped } ∧
      r.DeviceExtension.BulkInPipe = DeviceExtension.BulkInPipe ∧
      r.DeviceExtension.BulkOutPipe = DeviceExtension.BulkOutPipe ∧
      r.DeviceExtension.InterruptInPipe = DeviceExtension.InterruptInPipe := by
  intro r hr
  subst hr
  simp [CH341DispatchPnp, hs, CH341DispatchPnp_passDown, IRP_MN_START_DEVICE,
    IRP_MN_QUERY_STOP_DEVICE, IRP_MN_QUERY_REMOVE_DEVICE, IRP_MN_CANCEL_REMOVE_DEVICE,
    IRP_MN_CANCEL_STOP_DEVICE, IRP_MN_STOP_DEVICE, CH341UsbStop,
    unconfigureDevice_of_alloc _ h1 h2, Env.afterControl, IoCallDriver,
    UsbBuildSelectConfigurationRequest, URB.fresh, URB_FUNCTION_SELECT_CONFIGURATION]

theorem C14_stop_amended_witness :
    (CH341DispatchPnp (sampleExtension StopPending)
        { sampleStart with MinorFunction := IRP_MN_STOP_DEVICE }
        (scriptedEnv fun _ => okResponse)).DeviceExtension
      = { sampleExtension StopPending with PnpState := Stopped } :=
  (C14_stop_amended (sampleExtension StopPending) sampleStart (scriptedEnv fun _ => okResponse)
    (by decide) rfl rfl _ rfl).2.2.2.1

/-- C14 as stated fails: a configured device (handles `1`, `2`, `3`) in `StopPending` receives
a stop request; one select-configuration request with no configuration is sent, and afterwards
the three endpoint handles still hold `1`, `2`, `3`. -/
theorem C14_handles_survive_stop_counterexample :
    (CH341DispatchPnp (sampleExtension StopPending)
        { sampleStart with MinorFunction := IRP_MN_STOP_DEVICE }
        (scriptedEnv fun _ => okResponse)).env.Sent.head?
      = some (LowerRequest.SubmitUrb (UsbBuildSelectConfigurationRequest none)) ∧
    (CH341DispatchPnp (sampleExtension StopPending)
        { sampleStart with MinorFunction := IRP_MN_STOP_DEVICE }
        (scriptedEnv fun _ => okResponse)).DeviceExtension.PnpState = Stopped ∧
    ¬ ((CH341DispatchPnp (sampleExtension StopPending)
          { sampleStart with MinorFunction := IRP_MN_STOP_DEVICE }
          (scriptedEnv fun _ => okResponse)).DeviceExtension.BulkInPipe = 0 ∧
        (CH341DispatchPnp (sampleExtension StopPending)
          { sampleStart with MinorFunction := IRP_MN_STOP_DEVICE }
          (scriptedEnv fun _ => okResponse)).DeviceExtension.BulkOutPipe = 0 ∧
        (CH341DispatchPnp (sampleExtension StopPending)
          { sampleStart with MinorFunction := IRP_MN_STOP_DEVICE }
          (scriptedEnv fun _ => okResponse)).DeviceExtension.InterruptInPipe = 0) := by
  decide


/-! ### Reads and writes -/

/-- C17 as amended: the completion routine of a read and that of a write.  When the status the
bus layer completed the request with and the status of the URB are both successes, the byte
count of the request becomes the transferred length recorded in the URB, whatever that length
is.  When either is a failure the routine writes nothing to the request: the byte count
reported is the one the bus layer left in the status block, whatever it is.  In every case the
status of the request is the one the bus layer set, the URB block is given back, and the routine
returns `STATUS_CONTINUE_COMPLETION`. -/
theorem C17_completion_byte_count_amended (env : Env) (Irp : IRP) (Urb : URB) (Context : Nat)
    (Routine : Env → IRP → URB → Nat → NTSTATUS × IRP × Env)
    (hR : Routine = CH341UsbReadCompletion ∨ Routine = CH341UsbWriteCompletion) :
    (NT_SUCCESS Irp.Status = true → USBD_SUCCESS Urb.Status = true →
      (Routine env Irp Urb Context).2.1.Information = Urb.TransferBufferLength) ∧
    (NT_SUCCESS Irp.Status = false ∨ USBD_SUCCESS Urb.Status = false →
      (Routine env Irp Urb Context).2.1 = Irp ∧
      (Routine env Irp Urb Context).2.1.Information = Irp.Information) ∧
    (Routine env Irp Urb Context).2.1.Status = Irp.Status ∧
    (Routine env Irp Urb Context).2.2.Freed = env.Freed ++ [Context] ∧
    (Routine env Irp Urb Context).1 = STATUS_CONTINUE_COMPLETION := by
  rcases hR with hR | hR <;> subst hR
  · refine ⟨?_, ?_, ?_, rfl, rfl⟩
    · intro h1 h2
      simp [CH341UsbReadCompletion, h1, h2]
    · intro h
      have e : (CH341UsbReadCompletion env Irp Urb Context).2.1 = Irp := by
        rcases h with h | h <;> simp [CH341UsbReadCompletion, h]
      rw [e]
      exact ⟨rfl, rfl⟩
    · simp only [CH341UsbReadCompletion]
      split_ifs <;> rfl
  · refine ⟨?_, ?_, ?_, rfl, rfl⟩
    · intro h1 h2
      simp [CH341UsbWriteCompletion, h1, h2]
    · intro h
      have e : (CH341UsbWriteCompletion env Irp Urb Context).2.1 = Irp := by
        rcases h with h | h <;> simp [CH341UsbWriteCompletion, h]
      rw [e]
      exact ⟨rfl, rfl⟩
    · simp only [CH341UsbWriteCompletion]
      split_ifs <;> rfl

/-- C17 as amended, at a read completed with success after a short transfer of three of the
four bytes asked for: the byte count reported is three. -/
theorem C17_completion_byte_count_amended_witness :
    (CH341UsbReadCompletion (scriptedEnv fun _ => okResponse) sampleRead
        { UsbBuildInterruptOrBulkTransferRequest 1 [] 4 3 with TransferBufferLength := 3 }
        1).2.1.Information = 3 :=
  (C17_completion_byte_count_amended (scriptedEnv fun _ => okResponse) sampleRead
    { UsbBuildInterruptOrBulkTransferRequest 1 [] 4 3 with TransferBufferLength := 3 } 1
    CH341UsbReadCompletion (Or.inl rfl)).1 (by decide) (by decide)

/-- C17 fails as stated.  A read of four bytes is submitted on a started device and the lower
device completes it with the failure `STATUS_UNSUCCESSFUL` and byte count 7 in the status block:
the completion routine leaves the byte count at 7, not at zero.  The same holds for a write, and
for a request completed with a success status whose URB has failed. -/
theorem C17_failed_completion_keeps_byte_count_counterexample :
    NT_SUCCESS STATUS_UNSUCCESSFUL = false ∧ USBD_SUCCESS 0xC0000004 = false ∧
    ((CH341DispatchRead (sampleExtension Started) sampleRead
        (scriptedEnv fun _ => okResponse)).env.Sent.head?.bind fun q =>
      (completeTransfer
        (CH341DispatchRead (sampleExtension Started) sampleRead
          (scriptedEnv fun _ => okResponse)).env q
        { okResponse with IoStatus := STATUS_UNSUCCESSFUL, Information := 7 }).map fun c =>
        (c.2.1.Status, c.2.1.Information)) = some (STATUS_UNSUCCESSFUL, 7) ∧
    (CH341UsbReadCompletion (scriptedEnv fun _ => okResponse)
      { sampleRead with Status := STATUS_UNSUCCESSFUL, Information := 7 }
      (UsbBuildInterruptOrBulkTransferRequest 1 [] 4 3) 1).2.1.Information = 7 ∧
    (CH341UsbWriteCompletion (scriptedEnv fun _ => okResponse)
      { sampleWrite with Status := STATUS_UNSUCCESSFUL, Information := 7 }
      (UsbBuildInterruptOrBulkTransferRequest 2 [1, 2, 3, 4] 4 0) 1).2.1.Information = 7 ∧
    (CH341UsbReadCompletion (scriptedEnv fun _ => okResponse)
      { sampleRead with Status := STATUS_SUCCESS, Information := 7 }
      { UsbBuildInterruptOrBulkTransferRequest 1 [] 4 3 with Status := 0xC0000004 }
      1).2.1.Information = 7 := by
  decide

/-- C18: a read or write of non-zero length whose URB allocation and completion-routine
registration succeed.  The lower device receives exactly one more request: the caller's
request, marked pending, set up as an internal device control carrying a bulk transfer URB on
the bulk-in handle with direction in and short transfer allowed (read) or on the bulk-out handle
with direction out (write), over the caller's buffer and for the requested length, with the
matching completion routine registered on the URB block.  The routine returns `STATUS_PENDING`
whatever the lower device answers, does not complete the request and leaves the device
extension alone. -/
theorem C18_transfer_submitted (DeviceExtension : DEVICE_EXTENSION) (Irp : IRP) (env : Env)
    (hl : Irp.Length ≠ 0) (h1 : env.AllocOk env.AllocCount = true)
    (h2 : env.AllocOk (env.AllocCount + 1) = true) :
    ((CH341DispatchRead DeviceExtension Irp env).env.Sent = env.Sent ++
        [LowerRequest.Transfer { Irp with PendingReturned := true }
          IRP_MJ_INTERNAL_DEVICE_CONTROL IOCTL_INTERNAL_USB_SUBMIT_URB
          { URB.fresh with
            Function := URB_FUNCTION_BULK_OR_INTERRUPT_TRANSFER
            PipeHandle := DeviceExtension.BulkInPipe
            TransferBuffer := Irp.SystemBuffer
            TransferBufferLength := Irp.Length
            TransferFlags := USBD_TRANSFER_DIRECTION_IN ||| USBD_SHORT_TRANSFER_OK }
          (env.AllocCount + 1) COMPLETION_ROUTINE.ReadCompletion] ∧
      (CH341DispatchRead DeviceExtension Irp env).Status = STATUS_PENDING ∧
      (CH341DispatchRead DeviceExtension Irp env).Irp = { Irp with PendingReturned := true } ∧
      (CH341DispatchRead DeviceExtension Irp env).DeviceExtension = DeviceExtension) ∧
    ((CH341DispatchWrite DeviceExtension Irp env).env.Sent = env.Sent ++
        [LowerRequest.Transfer { Irp with PendingReturned := true }
          IRP_MJ_INTERNAL_DEVICE_CONTROL IOCTL_INTERNAL_USB_SUBMIT_URB
          { URB.fresh with
            Function := URB_FUNCTION_BULK_OR_INTERRUPT_TRANSFER
            PipeHandle := DeviceExtension.BulkOutPipe
            TransferBuffer := Irp.SystemBuffer
            TransferBufferLength := Irp.Length
            TransferFlags := USBD_TRANSFER_DIRECTION_OUT }
          (env.AllocCount + 1) COMPLETION_ROUTINE.WriteCompletion] ∧
      (CH341DispatchWrite DeviceExtension Irp env).Status = STATUS_PENDING ∧
      (CH341DispatchWrite DeviceExtension Irp env).Irp = { Irp with PendingReturned := true } ∧
      (CH341DispatchWrite DeviceExtension Irp env).DeviceExtension = DeviceExtension) := by
  have hs : NT_SUCCESS STATUS_SUCCESS = true := by decide
  constructor
  · simp [CH341DispatchRead, hl, CH341UsbRead, ExAllocatePoolWithTag, h1,
      IoSetCompletionRoutineEx, h2, hs, IoCallDriver, IoMarkIrpPending,
      UsbBuildInterruptOrBulkTransferRequest]
  · simp [CH341DispatchWrite, hl, CH341UsbWrite, ExAllocatePoolWithTag, h1,
      IoSetCompletionRoutineEx, h2, hs, IoCallDriver, IoMarkIrpPending,
      UsbBuildInterruptOrBulkTransferRequest]

theorem C18_transfer_submitted_witness :
    (CH341DispatchRead (sampleExtension Started) sampleRead
        (scriptedEnv fun _ => { okResponse with CallStatus := STATUS_UNSUCCESSFUL })).Status
      = STATUS_PENDING :=
  (C18_transfer_submitted (sampleExtension Started) sampleRead
    (scriptedEnv fun _ => { okResponse with CallStatus := STATUS_UNSUCCESSFUL })
    (by decide) rfl rfl).1.2.1


/-- The outcome of `CH341UsbRead` when its URB allocation and the registration of the
completion routine succeed. -/
theorem usbRead_of_alloc (DeviceExtension : DEVICE_EXTENSION) (Irp : IRP) (env : Env)
    (h1 : env.AllocOk env.AllocCount = true) (h2 : env.AllocOk (env.AllocCount + 1) = true) :
    CH341UsbRead DeviceExtension Irp env
      = ⟨STATUS_PENDING, IoMarkIrpPending Irp, DeviceExtension,
          { env with
            AllocCount := env.AllocCount + 1 + 1
            Allocated := env.Allocated ++ [env.AllocCount + 1]
            Sent := env.Sent ++
              [LowerRequest.Transfer (IoMarkIrpPending Irp) IRP_MJ_INTERNAL_DEVICE_CONTROL
                IOCTL_INTERNAL_USB_SUBMIT_URB
                (UsbBuildInterruptOrBulkTransferRequest DeviceExtension.BulkInPipe
                  Irp.SystemBuffer Irp.Length
                  (USBD_TRANSFER_DIRECTION_IN ||| USBD_SHORT_TRANSFER_OK))
                (env.AllocCount + 1) COMPLETION_ROUTINE.ReadCompletion] }⟩ := by
  have hs : NT_SUCCESS STATUS_SUCCESS = true := by decide
  simp [CH341UsbRead, ExAllocatePoolWithTag, h1, IoSetCompletionRoutineEx, h2, hs, IoCallDriver]

/-- The outcome of `CH341UsbWrite` when its URB allocation and the registration of the
completion routine succeed. -/
theorem usbWrite_of_alloc (DeviceExtension : DEVICE_EXTENSION) (Irp : IRP) (env : Env)
    (h1 : env.AllocOk env.AllocCount = true) (h2 : env.AllocOk (env.AllocCount + 1) = true) :
    CH341UsbWrite DeviceExtension Irp env
      = ⟨STATUS_PENDING, IoMarkIrpPending Irp, DeviceExtension,
          { env with
            AllocCount := env.AllocCount + 1 + 1
            Allocated := env.Allocated ++ [env.AllocCount + 1]
            Sent := env.Sent ++
              [LowerRequest.Transfer (IoMarkIrpPending Irp) IRP_MJ_INTERNAL_DEVICE_CONTROL
                IOCTL_INTERNAL_USB_SUBMIT_URB
                (UsbBuildInterruptOrBulkTransferRequest DeviceExtension.BulkOutPipe
                  Irp.SystemBuffer Irp.Length USBD_TRANSFER_DIRECTION_OUT)
                (env.AllocCount + 1) COMPLETION_ROUTINE.WriteCompletion] }⟩ := by
  have hs : NT_SUCCESS STATUS_SUCCESS = true := by decide
  simp [CH341UsbWrite, ExAllocatePoolWithTag, h1, IoSetCompletionRoutineEx, h2, hs, IoCallDriver]

/-- C19, evaluated on both kinds of path of a read and of a write of non-zero length whose URB
allocation succeeds (the block is `env.AllocCount + 1`).  When the registration of the
completion routine succeeds too, the transfer is sent, and when the lower device completes it,
with whatever answer, the completion routine gives the block back: it is released once.  When
the registration fails, the routine completes the request with the failure and returns with
the block allocated, nothing given back and nothing sent to the lower device, so that no
completion routine will run for it: the block is left unreleased. -/
theorem C19_transfer_object_release (DeviceExtension : DEVICE_EXTENSION) (Irp : IRP) (env : Env)
    (hl : Irp.Length ≠ 0) (h1 : env.AllocOk env.AllocCount = true)
    (Dispatch : DEVICE_EXTENSION → IRP → Env → DispatchResult)
    (hD : Dispatch = CH341DispatchRead ∨ Dispatch = CH341DispatchWrite) :
    (Dispatch DeviceExtension Irp env).env.Allocated = env.Allocated ++ [env.AllocCount + 1] ∧
    (Dispatch DeviceExtension Irp env).env.Freed = env.Freed ∧
    (env.AllocOk (env.AllocCount + 1) = true →
      ∃ Request, (Dispatch DeviceExtension Irp env).env.Sent = env.Sent ++ [Request] ∧
        ∀ Answer : Response, ∃ c,
          completeTransfer (Dispatch DeviceExtension Irp env).env Request Answer = some c ∧
          c.2.2.Allocated = env.Allocated ++ [env.AllocCount + 1] ∧
          c.2.2.Freed = env.Freed ++ [env.AllocCount + 1]) ∧
    (env.AllocOk (env.AllocCount + 1) = false →
      (Dispatch DeviceExtension Irp env).Status = STATUS_INSUFFICIENT_RESOURCES ∧
      (Dispatch DeviceExtension Irp env).Irp.Completed = true ∧
      (Dispatch DeviceExtension Irp env).env.Sent = env.Sent) := by
  have hf : NT_SUCCESS STATUS_INSUFFICIENT_RESOURCES = false := by decide
  rcases hD with hD | hD <;> subst hD
  · by_cases h2 : env.AllocOk (env.AllocCount + 1) = true
    · have e : CH341DispatchRead DeviceExtension Irp env
          = CH341UsbRead DeviceExtension Irp env := by simp [CH341DispatchRead, hl]
      rw [e, usbRead_of_alloc _ _ _ h1 h2]
      exact ⟨rfl, rfl, fun _ => ⟨_, rfl, fun _ => ⟨_, rfl, rfl, rfl⟩⟩,
        fun h => by rw [h2] at h; cases h⟩
    · simp only [Bool.not_eq_true] at h2
      simp [CH341DispatchRead, hl, CH341UsbRead, ExAllocatePoolWithTag, h1,
        IoSetCompletionRoutineEx, h2, hf, IoCompleteRequest]
  · by_cases h2 : env.AllocOk (env.AllocCount + 1) = true
    · have e : CH341DispatchWrite DeviceExtension Irp env
          = CH341UsbWrite DeviceExtension Irp env := by simp [CH341DispatchWrite, hl]
      rw [e, usbWrite_of_alloc _ _ _ h1 h2]
      exact ⟨rfl, rfl, fun _ => ⟨_, rfl, fun _ => ⟨_, rfl, rfl, rfl⟩⟩,
        fun h => by rw [h2] at h; cases h⟩
    · simp only [Bool.not_eq_true] at h2
      simp [CH341DispatchWrite, hl, CH341UsbWrite, ExAllocatePoolWithTag, h1,
        IoSetCompletionRoutineEx, h2, hf, IoCompleteRequest]

theorem C19_transfer_object_release_witness :
    (CH341DispatchRead (sampleExtension Started) sampleRead firstAllocationOnly).env.Allocated
        = [1] ∧
      (CH341DispatchRead (sampleExtension Started) sampleRead firstAllocationOnly).env.Freed
        = [] ∧
      (CH341DispatchRead (sampleExtension Started) sampleRead firstAllocationOnly).env.Sent
        = [] :=
  have h := C19_transfer_object_release (sampleExtension Started) sampleRead firstAllocationOnly
    (by decide) rfl CH341DispatchRead (Or.inl rfl)
  ⟨h.1, h.2.1, (h.2.2.2 rfl).2.2⟩


/-! ### Status of a control request -/

theorem setLine_of_alloc (env : Env) (BaudRate StopBits Parity DataBits : Nat)
    (h : ∀ n, env.AllocOk n = true) :
    (CH341UsbSetLine env BaudRate StopBits Parity DataBits).1
      = (env.Lower env.Sent.length).Outcome := by
  unfold CH341UsbSetLine
  simp only [ExAllocatePoolWithTag, h, if_true]
  simp only [submitUrb_of_alloc, h]
  simp only [Response.Outcome, Response.applyTo, Nat.add_eq_zero, one_ne_zero, and_false,
    if_false]
  split_ifs <;> rfl

theorem setControlLines_of_alloc (env : Env) (DtrRts : Nat) (h : ∀ n, env.AllocOk n = true) :
    (CH341UsbSetControlLines env DtrRts).1 = (env.Lower env.Sent.length).Outcome := by
  unfold CH341UsbSetControlLines
  simp only [ExAllocatePoolWithTag, h, if_true]
  simp only [submitUrb_of_alloc, h]
  simp only [Response.Outcome, Response.applyTo, Nat.add_eq_zero, one_ne_zero, and_false,
    if_false]
  split_ifs <;> rfl

theorem getDescriptor_of_alloc (env : Env) (DescriptorType BufferLength : Nat)
    (h : ∀ n, env.AllocOk n = true) :
    (CH341UsbGetDescriptor env DescriptorType BufferLength).Status
      = (env.Lower env.Sent.length).Outcome := by
  unfold CH341UsbGetDescriptor
  simp only [ExAllocatePoolWithTag, h, if_true]
  simp only [submitUrb_of_alloc, h]
  simp only [Response.Outcome, Response.applyTo, Nat.add_eq_zero, one_ne_zero, and_false,
    if_false]
  split_ifs <;> rfl

/-- The status of each control helper is `Response.Outcome` of the answer to its request. -/
theorem controlHelper_result_of_alloc (c : ControlHelper) (env : Env)
    (h : ∀ n, env.AllocOk n = true) :
    c.result env = (env.Lower env.Sent.length).Outcome := by
  cases c with
  | GetDescriptor t l => exact getDescriptor_of_alloc env t l h
  | VendorRead v i => simp only [ControlHelper.result, vendorRead_of_alloc env v i h]
  | VendorWrite v i => simp only [ControlHelper.result, vendorWrite_of_alloc env v i h]
  | SetLine b s p d => exact setLine_of_alloc env b s p d h
  | SetControlLines d => exact setControlLines_of_alloc env d h

/-- C20: for each of the five control helpers (descriptor fetch, vendor read, vendor write,
set-line, set-control-lines), run in a system where allocations succeed, with `B` the status of
the submission to the lower device and `U` the status the bus left in the URB: the helper
returns `B` when `B` is a failure, `U` when `B` is a success and `U` a failure, and `B` when
both are successes; so its result is a success exactly when both `B` and `U` are. -/
theorem C20_control_helper_status (c : ControlHelper) (env : Env)
    (h : ∀ n, env.AllocOk n = true) :
    ∀ B U, B = (env.Lower env.Sent.length).Status → U = (env.Lower env.Sent.length).UrbStatus →
      (NT_SUCCESS B = false → c.result env = B) ∧
      (NT_SUCCESS B = true → USBD_SUCCESS U = false → c.result env = U) ∧
      (NT_SUCCESS B = true → USBD_SUCCESS U = true → c.result env = B) ∧
      (NT_SUCCESS (c.result env) = true ↔ NT_SUCCESS B = true ∧ USBD_SUCCESS U = true) := by
  intro B U hB hU
  rw [controlHelper_result_of_alloc c env h, Response.Outcome, ← hB, ← hU]
  refine ⟨?_, ?_, ?_, ?_⟩
  · intro h1
    simp [h1]
  · intro h1 h2
    simp [h1, h2]
  · intro h1 h2
    simp [h1, h2]
  · by_cases h1 : NT_SUCCESS B = true
    · by_cases h2 : USBD_SUCCESS U = true
      · simp [h1, h2]
      · simp only [Bool.not_eq_true] at h2
        have h3 : NT_SUCCESS U = false := h2
        simp [h1, h2, h3]
    · simp only [Bool.not_eq_true] at h1
      simp [h1]

theorem C20_control_helper_status_witness :
    (ControlHelper.SetLine 9600 0 0 8).result
        (scriptedEnv fun _ => { okResponse with UrbStatus := 0xC0000004 }) = 0xC0000004 :=
  ((C20_control_helper_status (ControlHelper.SetLine 9600 0 0 8)
    (scriptedEnv fun _ => { okResponse with UrbStatus := 0xC0000004 }) (fun _ => rfl)
    _ _ rfl rfl).2.1 (by decide) (by decide)).trans (by decide)


/-! ### Buffer sizes and unsupported codes -/

/-- C21: on a device that is not `Deleted`, a get-baud-rate or get-line-control request whose
output buffer length, or a set-baud-rate or set-line-control request whose input buffer length,
is smaller than the record (4 bytes for the baud rate, 3 for the line control) is completed with
`STATUS_BUFFER_TOO_SMALL`; the device extension, the line state in it included, the caller's
buffer and the system state are unchanged, so nothing has been sent to the lower device. -/
theorem C21_short_buffer_rejected (DeviceExtension : DEVICE_EXTENSION) (Irp : IRP) (env : Env)
    (hs : DeviceExtension.PnpState ≠ Deleted)
    (hc : (Irp.IoControlCode = IOCTL_SERIAL_GET_BAUD_RATE ∧
          Irp.OutputBufferLength < sizeof_SERIAL_BAUD_RATE) ∨
        (Irp.IoControlCode = IOCTL_SERIAL_GET_LINE_CONTROL ∧
          Irp.OutputBufferLength < sizeof_SERIAL_LINE_CONTROL) ∨
        (Irp.IoControlCode = IOCTL_SERIAL_SET_BAUD_RATE ∧
          Irp.InputBufferLength < sizeof_SERIAL_BAUD_RATE) ∨
        (Irp.IoControlCode = IOCTL_SERIAL_SET_LINE_CONTROL ∧
          Irp.InputBufferLength < sizeof_SERIAL_LINE_CONTROL)) :
    sizeof_SERIAL_BAUD_RATE = 4 ∧ sizeof_SERIAL_LINE_CONTROL = 3 ∧
    (CH341DispatchDeviceControl DeviceExtension Irp env).Status = STATUS_BUFFER_TOO_SMALL ∧
    (CH341DispatchDeviceControl DeviceExtension Irp env).Irp =
      { Irp with Status := STATUS_BUFFER_TOO_SMALL, Completed := true } ∧
    (CH341DispatchDeviceControl DeviceExtension Irp env).DeviceExtension = DeviceExtension ∧
    (CH341DispatchDeviceControl DeviceExtension Irp env).env = env := by
  refine ⟨rfl, rfl, ?_⟩
  rcases hc with ⟨h1, h2⟩ | ⟨h1, h2⟩ | ⟨h1, h2⟩ | ⟨h1, h2⟩
  · simp [CH341DispatchDeviceControl, hs, CH341DispatchDeviceControl_switch, h1,
      CH341GetBaudRate, h2, IoCompleteRequest]
  · simp [CH341DispatchDeviceControl, hs, CH341DispatchDeviceControl_switch, h1,
      CH341GetLineControl, h2, IoCompleteRequest, IOCTL_SERIAL_GET_LINE_CONTROL,
      IOCTL_SERIAL_GET_BAUD_RATE, IOCTL_SERIAL_SET_BAUD_RATE]
  · simp [CH341DispatchDeviceControl, hs, CH341DispatchDeviceControl_switch, h1,
      CH341SetBaudRate, h2, IoCompleteRequest, IOCTL_SERIAL_GET_BAUD_RATE,
      IOCTL_SERIAL_SET_BAUD_RATE]
  · simp [CH341DispatchDeviceControl, hs, CH341DispatchDeviceControl_switch, h1,
      CH341SetLineControl, h2, IoCompleteRequest, IOCTL_SERIAL_GET_LINE_CONTROL,
      IOCTL_SERIAL_GET_BAUD_RATE, IOCTL_SERIAL_SET_BAUD_RATE, IOCTL_SERIAL_SET_LINE_CONTROL]

theorem C21_short_buffer_rejected_witness :
    (CH341DispatchDeviceControl (sampleExtension Started)
        { sampleSetBaud with InputBufferLength := 3 }
        (scriptedEnv fun _ => okResponse)).Status = STATUS_BUFFER_TOO_SMALL :=
  (C21_short_buffer_rejected (sampleExtension Started)
    { sampleSetBaud with InputBufferLength := 3 } (scriptedEnv fun _ => okResponse)
    (by decide) (Or.inr (Or.inr (Or.inl ⟨rfl, by decide⟩)))).2.2.1

/-- C22 as amended.  On a device that is not `Deleted`, a device-control request whose code is
none of get/set baud rate, get/set line control, get/set chars, get/set handflow, get DTR/RTS,
set/clear DTR and set/clear RTS is completed with `STATUS_NOT_SUPPORTED`; the request is
otherwise untouched, the device extension and the system state are unchanged, so nothing has
been sent to the lower device. -/
theorem C22_unsupported_code_amended (DeviceExtension : DEVICE_EXTENSION) (Irp : IRP)
    (env : Env) (hs : DeviceExtension.PnpState ≠ Deleted)
    (h1 : Irp.IoControlCode ≠ IOCTL_SERIAL_GET_BAUD_RATE)
    (h2 : Irp.IoControlCode ≠ IOCTL_SERIAL_SET_BAUD_RATE)
    (h3 : Irp.IoControlCode ≠ IOCTL_SERIAL_GET_LINE_CONTROL)
    (h4 : Irp.IoControlCode ≠ IOCTL_SERIAL_SET_LINE_CONTROL)
    (h5 : Irp.IoControlCode ≠ IOCTL_SERIAL_GET_CHARS)
    (h6 : Irp.IoControlCode ≠ IOCTL_SERIAL_SET_CHARS)
    (h7 : Irp.IoControlCode ≠ IOCTL_SERIAL_GET_HANDFLOW)
    (h8 : Irp.IoControlCode ≠ IOCTL_SERIAL_SET_HANDFLOW)
    (h9 : Irp.IoControlCode ≠ IOCTL_SERIAL_CLR_DTR)
    (h10 : Irp.IoControlCode ≠ IOCTL_SERIAL_SET_DTR)
    (h11 : Irp.IoControlCode ≠ IOCTL_SERIAL_CLR_RTS)
    (h12 : Irp.IoControlCode ≠ IOCTL_SERIAL_SET_RTS)
    (h13 : Irp.IoControlCode ≠ IOCTL_SERIAL_GET_DTRRTS) :
    (CH341DispatchDeviceControl DeviceExtension Irp env).Status = STATUS_NOT_SUPPORTED ∧
    (CH341DispatchDeviceControl DeviceExtension Irp env).Irp =
      { Irp with Status := STATUS_NOT_SUPPORTED, Completed := true } ∧
    (CH341DispatchDeviceControl DeviceExtension Irp env).DeviceExtension = DeviceExtension ∧
    (CH341DispatchDeviceControl DeviceExtension Irp env).env = env := by
  simp [CH341DispatchDeviceControl, hs, CH341DispatchDeviceControl_switch, h1, h2, h3, h4, h5,
    h6, h7, h8, h9, h10, h11, h12, h13, IoCompleteRequest]

theorem C22_unsupported_code_amended_witness :
    (CH341DispatchDeviceControl (sampleExtension Started)
        (freshIrp IRP_MJ_DEVICE_CONTROL 0 IOCTL_SERIAL_CLEAR_STATS 0 0 0 [])
        (scriptedEnv fun _ => okResponse)).Status = STATUS_NOT_SUPPORTED :=
  (C22_unsupported_code_amended (sampleExtension Started)
    (freshIrp IRP_MJ_DEVICE_CONTROL 0 IOCTL_SERIAL_CLEAR_STATS 0 0 0 [])
    (scriptedEnv fun _ => okResponse) (by decide) (by decide) (by decide) (by decide)
    (by decide) (by decide) (by decide) (by decide) (by decide) (by decide) (by decide)
    (by decide) (by decide) (by decide)).1

/-- C22 fails as stated: set-chars is none of the codes the claim lists, yet on a started device
a set-chars request with a six-byte buffer is completed with `STATUS_SUCCESS` and replaces the
stored special characters. -/
theorem C22_set_chars_counterexample :
    IOCTL_SERIAL_SET_CHARS ∉
      [IOCTL_SERIAL_GET_BAUD_RATE, IOCTL_SERIAL_SET_BAUD_RATE, IOCTL_SERIAL_GET_LINE_CONTROL,
       IOCTL_SERIAL_SET_LINE_CONTROL, IOCTL_SERIAL_GET_DTRRTS, IOCTL_SERIAL_SET_DTR,
       IOCTL_SERIAL_CLR_DTR, IOCTL_SERIAL_SET_RTS, IOCTL_SERIAL_CLR_RTS] ∧
    (CH341DispatchDeviceControl (sampleExtension Started) sampleSetChars
      (scriptedEnv fun _ => okResponse)).Status = STATUS_SUCCESS ∧
    (CH341DispatchDeviceControl (sampleExtension Started) sampleSetChars
      (scriptedEnv fun _ => okResponse)).DeviceExtension.Chars = ⟨1, 2, 3, 4, 0x11, 0x13⟩ ∧
    (sampleExtension Started).Chars = ⟨0, 0, 0, 0, 0, 0⟩ := by
  decide

/-- C30, evaluated: on a device that is not `Deleted`, a set-chars request whose input buffer is
shorter than the six-byte record, or a set-handflow request whose input buffer is shorter than
the sixteen-byte record, leaves the device extension, the stored characters and handshake record
included, and the system state unchanged, but is completed with `STATUS_SUCCESS`, not with
`STATUS_BUFFER_TOO_SMALL`. -/
theorem C30_short_set_succeeds (DeviceExtension : DEVICE_EXTENSION) (Irp : IRP) (env : Env)
    (hs : DeviceExtension.PnpState ≠ Deleted)
    (hc : (Irp.IoControlCode = IOCTL_SERIAL_SET_CHARS ∧
          Irp.InputBufferLength < sizeof_SERIAL_CHARS) ∨
        (Irp.IoControlCode = IOCTL_SERIAL_SET_HANDFLOW ∧
          Irp.InputBufferLength < sizeof_SERIAL_HANDFLOW)) :
    sizeof_SERIAL_CHARS = 6 ∧ sizeof_SERIAL_HANDFLOW = 16 ∧
    (CH341DispatchDeviceControl DeviceExtension Irp env).Status = STATUS_SUCCESS ∧
    (CH341DispatchDeviceControl DeviceExtension Irp env).Status ≠ STATUS_BUFFER_TOO_SMALL ∧
    (CH341DispatchDeviceControl DeviceExtension Irp env).Irp =
      { Irp with Status := STATUS_SUCCESS, Completed := true } ∧
    (CH341DispatchDeviceControl DeviceExtension Irp env).DeviceExtension = DeviceExtension ∧
    (CH341DispatchDeviceControl DeviceExtension Irp env).env = env := by
  have hne : STATUS_SUCCESS ≠ STATUS_BUFFER_TOO_SMALL := by decide
  refine ⟨rfl, rfl, ?_⟩
  rcases hc with ⟨h1, h2⟩ | ⟨h1, h2⟩
  · simp [CH341DispatchDeviceControl, hs, CH341DispatchDeviceControl_switch, h1, h2,
      IoCompleteRequest, hne, IOCTL_SERIAL_GET_LINE_CONTROL, IOCTL_SERIAL_GET_BAUD_RATE,
      IOCTL_SERIAL_SET_BAUD_RATE, IOCTL_SERIAL_SET_LINE_CONTROL, IOCTL_SERIAL_GET_CHARS,
      IOCTL_SERIAL_SET_CHARS]
  · simp [CH341DispatchDeviceControl, hs, CH341DispatchDeviceControl_switch, h1, h2,
      IoCompleteRequest, hne, IOCTL_SERIAL_GET_LINE_CONTROL, IOCTL_SERIAL_GET_BAUD_RATE,
      IOCTL_SERIAL_SET_BAUD_RATE, IOCTL_SERIAL_SET_LINE_CONTROL, IOCTL_SERIAL_GET_CHARS,
      IOCTL_SERIAL_SET_CHARS, IOCTL_SERIAL_GET_HANDFLOW, IOCTL_SERIAL_SET_HANDFLOW]

theorem C30_short_set_succeeds_witness :
    (CH341DispatchDeviceControl (sampleExtension Started) shortSetChars
        (scriptedEnv fun _ => okResponse)).Status = STATUS_SUCCESS :=
  (C30_short_set_succeeds (sampleExtension Started) shortSetChars
    (scriptedEnv fun _ => okResponse) (by decide) (Or.inl ⟨rfl, by decide⟩)).2.2.1


/-! ### Handshake record and special characters -/

theorem length_SERIAL_HANDFLOW_bytes (h : SERIAL_HANDFLOW) : h.bytes.length = 16 := rfl

theorem length_SERIAL_CHARS_bytes (c : SERIAL_CHARS) : c.bytes.length = 8 := rfl

/-- What `RtlCopyMemory` leaves untouched: the destination from offset `m` on, when no more
than `m` bytes are copied and the source holds that many. -/
theorem drop_RtlCopyMemory (dst src : List Nat) (n m : Nat) (hn : n ≤ m)
    (hl : n ≤ src.length) : (RtlCopyMemory dst src n).drop m = dst.drop m := by
  unfold RtlCopyMemory
  rw [List.drop_append_eq_append_drop, List.length_take, Nat.min_eq_left hl,
    List.drop_eq_nil_of_le (by rw [List.length_take]; omega), List.nil_append, List.drop_drop]
  congr 1
  omega

/-- C29, evaluated: on a device that is not `Deleted`, built for a platform whose pointers are 4
or 8 bytes long.  A get-handflow request with an output buffer of at least sixteen bytes is
completed with success and byte count 16, but only the first `sizeof(pointer)` bytes of the
handshake record are copied: from offset 8 on the caller's buffer is as it was, so the Xon and
Xoff limits are never written.  A get-chars request with an output buffer of at least six bytes
is completed with success and byte count 6; with 4-byte pointers the buffer is as it was from
offset 4 on, so the Xon and Xoff characters are not written. -/
theorem C29_get_copies_pointer_size (DeviceExtension : DEVICE_EXTENSION) (Irp : IRP) (env : Env)
    (hs : DeviceExtension.PnpState ≠ Deleted)
    (hp : env.sizeof_PVOID = 4 ∨ env.sizeof_PVOID = 8) :
    (Irp.IoControlCode = IOCTL_SERIAL_GET_HANDFLOW →
      sizeof_SERIAL_HANDFLOW ≤ Irp.OutputBufferLength →
      (CH341DispatchDeviceControl DeviceExtension Irp env).Status = STATUS_SUCCESS ∧
      (CH341DispatchDeviceControl DeviceExtension Irp env).Irp.Information = 16 ∧
      (CH341DispatchDeviceControl DeviceExtension Irp env).Irp.SystemBuffer =
        DeviceExtension.HandFlow.bytes.take env.sizeof_PVOID ++
          Irp.SystemBuffer.drop env.sizeof_PVOID ∧
      (CH341DispatchDeviceControl DeviceExtension Irp env).Irp.SystemBuffer.drop 8 =
        Irp.SystemBuffer.drop 8) ∧
    (Irp.IoControlCode = IOCTL_SERIAL_GET_CHARS →
      sizeof_SERIAL_CHARS ≤ Irp.OutputBufferLength →
      (CH341DispatchDeviceControl DeviceExtension Irp env).Status = STATUS_SUCCESS ∧
      (CH341DispatchDeviceControl DeviceExtension Irp env).Irp.Information = 6 ∧
      (CH341DispatchDeviceControl DeviceExtension Irp env).Irp.SystemBuffer =
        DeviceExtension.Chars.bytes.take env.sizeof_PVOID ++
          Irp.SystemBuffer.drop env.sizeof_PVOID ∧
      (env.sizeof_PVOID = 4 →
        (CH341DispatchDeviceControl DeviceExtension Irp env).Irp.SystemBuffer.drop 4 =
          Irp.SystemBuffer.drop 4)) := by
  constructor
  · intro hc hl
    have hl2 : ¬ Irp.OutputBufferLength < sizeof_SERIAL_HANDFLOW := by omega
    have hl3 : ¬ Irp.OutputBufferLength < 16 := hl2
    have e : (CH341DispatchDeviceControl DeviceExtension Irp env).Irp.SystemBuffer
        = RtlCopyMemory Irp.SystemBuffer DeviceExtension.HandFlow.bytes env.sizeof_PVOID := by
      simp [CH341DispatchDeviceControl, hs, CH341DispatchDeviceControl_switch, hc,
        CH341GetHandFlow, hl2, IoCompleteRequest, IOCTL_SERIAL_GET_LINE_CONTROL,
        IOCTL_SERIAL_GET_BAUD_RATE, IOCTL_SERIAL_SET_BAUD_RATE, IOCTL_SERIAL_SET_LINE_CONTROL,
        IOCTL_SERIAL_GET_CHARS, IOCTL_SERIAL_SET_CHARS, IOCTL_SERIAL_GET_HANDFLOW]
    refine ⟨?_, ?_, ?_, ?_⟩
    · simp [CH341DispatchDeviceControl, hs, CH341DispatchDeviceControl_switch, hc,
        CH341GetHandFlow, hl2, IOCTL_SERIAL_GET_LINE_CONTROL,
        IOCTL_SERIAL_GET_BAUD_RATE, IOCTL_SERIAL_SET_BAUD_RATE, IOCTL_SERIAL_SET_LINE_CONTROL,
        IOCTL_SERIAL_GET_CHARS, IOCTL_SERIAL_SET_CHARS, IOCTL_SERIAL_GET_HANDFLOW]
    · simp [CH341DispatchDeviceControl, hs, CH341DispatchDeviceControl_switch, hc,
        CH341GetHandFlow, hl2, IoCompleteRequest, IOCTL_SERIAL_GET_LINE_CONTROL,
        IOCTL_SERIAL_GET_BAUD_RATE, IOCTL_SERIAL_SET_BAUD_RATE, IOCTL_SERIAL_SET_LINE_CONTROL,
        IOCTL_SERIAL_GET_CHARS, IOCTL_SERIAL_SET_CHARS, IOCTL_SERIAL_GET_HANDFLOW,
        sizeof_SERIAL_HANDFLOW, hl3]
    · rw [e]; rfl
    · rw [e]
      exact drop_RtlCopyMemory _ _ _ _ (by omega)
        (by rw [length_SERIAL_HANDFLOW_bytes]; omega)
  · intro hc hl
    have hl2 : ¬ Irp.OutputBufferLength < sizeof_SERIAL_CHARS := by omega
    have hl3 : ¬ Irp.OutputBufferLength < 6 := hl2
    have e : (CH341DispatchDeviceControl DeviceExtension Irp env).Irp.SystemBuffer
        = RtlCopyMemory Irp.SystemBuffer DeviceExtension.Chars.bytes env.sizeof_PVOID := by
      simp [CH341DispatchDeviceControl, hs, CH341DispatchDeviceControl_switch, hc,
        CH341GetChars, hl2, IoCompleteRequest, IOCTL_SERIAL_GET_LINE_CONTROL,
        IOCTL_SERIAL_GET_BAUD_RATE, IOCTL_SERIAL_SET_BAUD_RATE, IOCTL_SERIAL_SET_LINE_CONTROL,
        IOCTL_SERIAL_GET_CHARS]
    refine ⟨?_, ?_, ?_, ?_⟩
    · simp [CH341DispatchDeviceControl, hs, CH341DispatchDeviceControl_switch, hc,
        CH341GetChars, hl2, IOCTL_SERIAL_GET_LINE_CONTROL,
        IOCTL_SERIAL_GET_BAUD_RATE, IOCTL_SERIAL_SET_BAUD_RATE, IOCTL_SERIAL_SET_LINE_CONTROL,
        IOCTL_SERIAL_GET_CHARS]
    · simp [CH341DispatchDeviceControl, hs, CH341DispatchDeviceControl_switch, hc,
        CH341GetChars, hl2, IoCompleteRequest, IOCTL_SERIAL_GET_LINE_CONTROL,
        IOCTL_SERIAL_GET_BAUD_RATE, IOCTL_SERIAL_SET_BAUD_RATE, IOCTL_SERIAL_SET_LINE_CONTROL,
        IOCTL_SERIAL_GET_CHARS, sizeof_SERIAL_CHARS, hl3]
    · rw [e]; rfl
    · intro h4
      rw [e]
      exact drop_RtlCopyMemory _ _ _ _ (by omega)
        (by rw [length_SERIAL_CHARS_bytes]; omega)

/-- C29 at a started device on a platform with 8-byte pointers: a set-handflow request stores
the record (1, 0x80, 2048, 512); the get-handflow request that follows, with a sixteen-byte
buffer of `0xFF` bytes, succeeds with byte count 16 and returns the first two fields followed
by the eight `0xFF` bytes the buffer held: the limits read back are not 2048 and 512. -/
theorem C29_get_copies_pointer_size_witness :
    (CH341DispatchDeviceControl (sampleExtension Started) sampleSetHandFlow
        (scriptedEnv fun _ => okResponse)).DeviceExtension.HandFlow = ⟨1, 0x80, 2048, 512⟩ ∧
      (CH341DispatchDeviceControl
        (CH341DispatchDeviceControl (sampleExtension Started) sampleSetHandFlow
          (scriptedEnv fun _ => okResponse)).DeviceExtension
        sampleGetHandFlow (scriptedEnv fun _ => okResponse)).Irp.SystemBuffer
        = [1, 0, 0, 0, 0x80, 0, 0, 0, 255, 255, 255, 255, 255, 255, 255, 255] :=
  ⟨by decide,
    ((C29_get_copies_pointer_size
      (CH341DispatchDeviceControl (sampleExtension Started) sampleSetHandFlow
        (scriptedEnv fun _ => okResponse)).DeviceExtension
      sampleGetHandFlow (scriptedEnv fun _ => okResponse) (by decide) (Or.inr rfl)).1 rfl
      (by decide)).2.2.1.trans (by decide)⟩


/-! ### Cancelled queries -/

theorem deliver_pnp (s : DEVICE_EXTENSION × Env) (MinorFunction : Nat) :
    deliver s (pnpIrp MinorFunction)
      = ((CH341DispatchPnp s.1 (pnpIrp MinorFunction) s.2).DeviceExtension,
         (CH341DispatchPnp s.1 (pnpIrp MinorFunction) s.2).env) := rfl

theorem pnp_query_extension (DeviceExtension : DEVICE_EXTENSION) (env : Env)
    (hs : DeviceExtension.PnpState ≠ Deleted) :
    (CH341DispatchPnp DeviceExtension (pnpIrp IRP_MN_QUERY_STOP_DEVICE) env).DeviceExtension
      = { DeviceExtension with
          PreviousPnpState := DeviceExtension.PnpState, PnpState := StopPending } ∧
    (CH341DispatchPnp DeviceExtension (pnpIrp IRP_MN_QUERY_REMOVE_DEVICE) env).DeviceExtension
      = { DeviceExtension with
          PreviousPnpState := DeviceExtension.PnpState, PnpState := RemovePending } := by
  constructor <;>
    simp [CH341DispatchPnp, hs, CH341DispatchPnp_passDown, pnpIrp, freshIrp,
      IRP_MN_START_DEVICE, IRP_MN_QUERY_STOP_DEVICE, IRP_MN_QUERY_REMOVE_DEVICE]

theorem pnp_cancel_extension (DeviceExtension : DEVICE_EXTENSION) (env : Env)
    (hs : DeviceExtension.PnpState ≠ Deleted) :
    (CH341DispatchPnp DeviceExtension (pnpIrp IRP_MN_CANCEL_STOP_DEVICE) env).DeviceExtension
      = { DeviceExtension with PnpState := DeviceExtension.PreviousPnpState } ∧
    (CH341DispatchPnp DeviceExtension (pnpIrp IRP_MN_CANCEL_REMOVE_DEVICE) env).DeviceExtension
      = { DeviceExtension with PnpState := DeviceExtension.PreviousPnpState } := by
  constructor <;>
    simp [CH341DispatchPnp, hs, CH341DispatchPnp_passDown, pnpIrp, freshIrp,
      IRP_MN_START_DEVICE, IRP_MN_QUERY_STOP_DEVICE, IRP_MN_QUERY_REMOVE_DEVICE,
      IRP_MN_CANCEL_REMOVE_DEVICE, IRP_MN_CANCEL_STOP_DEVICE]

/-- C27 as amended.  A cancel-stop or cancel-remove request delivered to a device that is not
`Deleted` sets the lifecycle state to the saved state, whatever the current state is and whether
or not a query is outstanding, and changes no other field of the device extension; the
lifecycle state is therefore unchanged exactly when the saved state equals it. -/
theorem C27_cancel_restores_saved_state_amended (DeviceExtension : DEVICE_EXTENSION) (Irp : IRP)
    (env : Env) (hs : DeviceExtension.PnpState ≠ Deleted)
    (hm : Irp.MinorFunction = IRP_MN_CANCEL_STOP_DEVICE ∨
      Irp.MinorFunction = IRP_MN_CANCEL_REMOVE_DEVICE) :
    (CH341DispatchPnp DeviceExtension Irp env).DeviceExtension
      = { DeviceExtension with PnpState := DeviceExtension.PreviousPnpState } ∧
    ((CH341DispatchPnp DeviceExtension Irp env).DeviceExtension.PnpState
        = DeviceExtension.PnpState ↔
      DeviceExtension.PreviousPnpState = DeviceExtension.PnpState) := by
  have e : (CH341DispatchPnp DeviceExtension Irp env).DeviceExtension
      = { DeviceExtension with PnpState := DeviceExtension.PreviousPnpState } := by
    rcases hm with hm | hm <;>
      simp [CH341DispatchPnp, hs, CH341DispatchPnp_passDown, hm,
        IRP_MN_START_DEVICE, IRP_MN_QUERY_STOP_DEVICE, IRP_MN_QUERY_REMOVE_DEVICE,
        IRP_MN_CANCEL_REMOVE_DEVICE, IRP_MN_CANCEL_STOP_DEVICE]
  refine ⟨e, ?_⟩
  rw [e]

theorem C27_cancel_restores_saved_state_amended_witness :
    (CH341DispatchPnp (sampleExtension Started) (pnpIrp IRP_MN_CANCEL_STOP_DEVICE)
        (scriptedEnv fun _ => okResponse)).DeviceExtension
      = { sampleExtension Started with PnpState := NotStarted } :=
  (C27_cancel_restores_saved_state_amended (sampleExtension Started)
    (pnpIrp IRP_MN_CANCEL_STOP_DEVICE) (scriptedEnv fun _ => okResponse) (by decide)
    (Or.inl rfl)).1

/-- C27 fails as stated: a freshly attached device is started, which takes it to `Started` with
no query outstanding; the cancel-stop request that follows takes it to `NotStarted`, the state
saved when the device extension was zeroed. -/
theorem C27_cancel_on_started_counterexample :
    (deliverAll (freshDevice, scriptedEnv startBus) [pnpIrp IRP_MN_START_DEVICE]).1.PnpState
        = Started ∧
      (deliverAll (freshDevice, scriptedEnv startBus)
        [pnpIrp IRP_MN_START_DEVICE, pnpIrp IRP_MN_CANCEL_STOP_DEVICE]).1.PnpState
        = NotStarted := by
  decide

/-- C28 as amended.  For a device in any state other than `Deleted`, whatever the lower device
answers, the sequence query-stop, query-remove, cancel-remove, cancel-stop ends in
`StopPending`, the state the second query saved over the one the first had saved, with no other
field of the device extension changed; it returns to the initial state only from
`StopPending`. -/
theorem C28_nested_queries_amended (DeviceExtension : DEVICE_EXTENSION) (env : Env)
    (hs : DeviceExtension.PnpState ≠ Deleted) :
    (deliverAll (DeviceExtension, env)
        [pnpIrp IRP_MN_QUERY_STOP_DEVICE, pnpIrp IRP_MN_QUERY_REMOVE_DEVICE,
         pnpIrp IRP_MN_CANCEL_REMOVE_DEVICE, pnpIrp IRP_MN_CANCEL_STOP_DEVICE]).1
      = { DeviceExtension with PreviousPnpState := StopPending, PnpState := StopPending } ∧
    ((deliverAll (DeviceExtension, env)
        [pnpIrp IRP_MN_QUERY_STOP_DEVICE, pnpIrp IRP_MN_QUERY_REMOVE_DEVICE,
         pnpIrp IRP_MN_CANCEL_REMOVE_DEVICE, pnpIrp IRP_MN_CANCEL_STOP_DEVICE]).1.PnpState
        = DeviceExtension.PnpState ↔ DeviceExtension.PnpState = StopPending) := by
  have e : (deliverAll (DeviceExtension, env)
        [pnpIrp IRP_MN_QUERY_STOP_DEVICE, pnpIrp IRP_MN_QUERY_REMOVE_DEVICE,
         pnpIrp IRP_MN_CANCEL_REMOVE_DEVICE, pnpIrp IRP_MN_CANCEL_STOP_DEVICE]).1
      = { DeviceExtension with PreviousPnpState := StopPending, PnpState := StopPending } := by
    simp only [deliverAll, List.foldl_cons, List.foldl_nil, deliver_pnp]
    rw [(pnp_query_extension DeviceExtension env hs).1]
    rw [(pnp_query_extension _ _ (by simp)).2]
    rw [(pnp_cancel_extension _ _ (by simp)).2]
    rw [(pnp_cancel_extension _ _ (by simp)).1]
  refine ⟨e, ?_⟩
  rw [e]
  exact eq_comm

theorem C28_nested_queries_amended_witness :
    (deliverAll (sampleExtension Started, scriptedEnv fun _ => okResponse)
        [pnpIrp IRP_MN_QUERY_STOP_DEVICE, pnpIrp IRP_MN_QUERY_REMOVE_DEVICE,
         pnpIrp IRP_MN_CANCEL_REMOVE_DEVICE, pnpIrp IRP_MN_CANCEL_STOP_DEVICE]).1
      = { sampleExtension Started with
          PreviousPnpState := StopPending, PnpState := StopPending } :=
  (C28_nested_queries_amended (sampleExtension Started) (scriptedEnv fun _ => okResponse)
    (by decide)).1

/-- C28 fails as stated: from `Started` the sequence query-stop, query-remove, cancel-remove,
cancel-stop ends in `StopPending`, not in `Started`. -/
theorem C28_nested_queries_counterexample :
    (sampleExtension Started).PnpState = Started ∧
      (deliverAll (sampleExtension Started, scriptedEnv fun _ => okResponse)
        [pnpIrp IRP_MN_QUERY_STOP_DEVICE, pnpIrp IRP_MN_QUERY_REMOVE_DEVICE,
         pnpIrp IRP_MN_CANCEL_REMOVE_DEVICE, pnpIrp IRP_MN_CANCEL_STOP_DEVICE]).1.PnpState
        = StopPending := by
  decide


/-! ### Hardware pushes -/

/-- The outcome of `CH341UsbSetLine` when its two allocations succeed. -/
theorem usbSetLine_of_alloc (env : Env) (BaudRate StopBits Parity DataBits : Nat)
    (h1 : env.AllocOk env.AllocCount = true) (h2 : env.AllocOk (env.AllocCount + 1) = true) :
    CH341UsbSetLine env BaudRate StopBits Parity DataBits
      = ((env.Lower env.Sent.length).Outcome,
         env.afterControl
          (UsbBuildVendorRequest URB_FUNCTION_CLASS_DEVICE USBD_TRANSFER_DIRECTION_OUT 0
            CH341_SET_LINE_REQUEST 0 0 (CH341UsbSetLine_Line BaudRate StopBits Parity DataBits)
            8)) := by
  unfold CH341UsbSetLine
  simp only [ExAllocatePoolWithTag, h1, if_true]
  rw [submitUrb_of_alloc _ _ h2]
  simp only [Response.Outcome, Response.applyTo, ExFreePoolWithTag, Env.afterControl,
    Nat.add_eq_zero, one_ne_zero, and_false, if_false]
  split_ifs <;> rfl

/-- The outcome of `CH341UsbSetControlLines` when its two allocations succeed. -/
theorem usbSetControlLines_of_alloc (env : Env) (DtrRts : Nat)
    (h1 : env.AllocOk env.AllocCount = true) (h2 : env.AllocOk (env.AllocCount + 1) = true) :
    CH341UsbSetControlLines env DtrRts
      = ((env.Lower env.Sent.length).Outcome,
         env.afterControl
          (UsbBuildVendorRequest URB_FUNCTION_CLASS_DEVICE USBD_TRANSFER_DIRECTION_OUT 0
            CH341_SET_CONTROL_REQUEST DtrRts 0 [] 0)) := by
  unfold CH341UsbSetControlLines
  simp only [ExAllocatePoolWithTag, h1, if_true]
  rw [submitUrb_of_alloc _ _ h2]
  simp only [Response.Outcome, Response.applyTo, ExFreePoolWithTag, Env.afterControl,
    Nat.add_eq_zero, one_ne_zero, and_false, if_false]
  split_ifs <;> rfl

/-- C24: on a device that is not `Deleted`, the two allocations of the push succeeding.  A
set-baud-rate or set-line-control request with a buffer of at least the record size hands the
lower device exactly one more request, a class request with code `0xA1` whose eight-byte
payload starts with the baud rate (four bytes, least significant first), the stop-bits code, the
parity code and the data-bits code that the device extension holds after the update.  A set-DTR,
clear-DTR, set-RTS or clear-RTS request hands it exactly one more request, a class request with
code `0x10`, no data, whose value field is the mask the device extension holds after the
update.  In both cases the status the request is completed with is the status of that push: the
bus-level status if it is a failure, else the URB status if that is a failure, else the
bus-level status. -/
theorem C24_hardware_push (DeviceExtension : DEVICE_EXTENSION) (Irp : IRP) (env : Env)
    (hs : DeviceExtension.PnpState ≠ Deleted) (h1 : env.AllocOk env.AllocCount = true)
    (h2 : env.AllocOk (env.AllocCount + 1) = true) :
    ∀ r, r = CH341DispatchDeviceControl DeviceExtension Irp env →
      ((Irp.IoControlCode = IOCTL_SERIAL_SET_BAUD_RATE ∧
            sizeof_SERIAL_BAUD_RATE ≤ Irp.InputBufferLength) ∨
          (Irp.IoControlCode = IOCTL_SERIAL_SET_LINE_CONTROL ∧
            sizeof_SERIAL_LINE_CONTROL ≤ Irp.InputBufferLength) →
        r.env.Sent = env.Sent ++
          [LowerRequest.SubmitUrb
            { URB.fresh with
              Function := URB_FUNCTION_CLASS_DEVICE
              TransferFlags := USBD_TRANSFER_DIRECTION_OUT
              Request := 0xA1
              TransferBuffer :=
                bytesULONG r.DeviceExtension.BaudRate ++
                  [r.DeviceExtension.StopBits % 256, r.DeviceExtension.Parity % 256,
                   r.DeviceExtension.DataBits % 256]
              TransferBufferLength := 8 }] ∧
        r.Status = (env.Lower env.Sent.length).Outcome ∧
        r.Irp.Status = (env.Lower env.Sent.length).Outcome) ∧
      (Irp.IoControlCode = IOCTL_SERIAL_SET_DTR ∨ Irp.IoControlCode = IOCTL_SERIAL_CLR_DTR ∨
          Irp.IoControlCode = IOCTL_SERIAL_SET_RTS ∨ Irp.IoControlCode = IOCTL_SERIAL_CLR_RTS →
        r.env.Sent = env.Sent ++
          [LowerRequest.SubmitUrb
            { URB.fresh with
              Function := URB_FUNCTION_CLASS_DEVICE
              TransferFlags := USBD_TRANSFER_DIRECTION_OUT
              Request := 0x10
              Value := r.DeviceExtension.DtrRts }] ∧
        r.Status = (env.Lower env.Sent.length).Outcome ∧
        r.Irp.Status = (env.Lower env.Sent.length).Outcome) := by
  intro r hr
  subst hr
  constructor
  · rintro (⟨hc, hl⟩ | ⟨hc, hl⟩)
    · have n : ¬ Irp.InputBufferLength < sizeof_SERIAL_BAUD_RATE := by omega
      simp [CH341DispatchDeviceControl, hs, CH341DispatchDeviceControl_switch, hc,
        CH341SetBaudRate, n, CH341SetLine, usbSetLine_of_alloc _ _ _ _ _ h1 h2,
        Env.afterControl, IoCompleteRequest, IOCTL_SERIAL_GET_BAUD_RATE,
        IOCTL_SERIAL_SET_BAUD_RATE, UsbBuildVendorRequest, CH341UsbSetLine_Line, bytesULONG,
        CH341_SET_LINE_REQUEST, URB.fresh]
    · have n : ¬ Irp.InputBufferLength < sizeof_SERIAL_LINE_CONTROL := by omega
      simp [CH341DispatchDeviceControl, hs, CH341DispatchDeviceControl_switch, hc,
        CH341SetLineControl, n, CH341SetLine, usbSetLine_of_alloc _ _ _ _ _ h1 h2,
        Env.afterControl, IoCompleteRequest, IOCTL_SERIAL_GET_BAUD_RATE,
        IOCTL_SERIAL_SET_BAUD_RATE, IOCTL_SERIAL_GET_LINE_CONTROL,
        IOCTL_SERIAL_SET_LINE_CONTROL, UsbBuildVendorRequest, CH341UsbSetLine_Line,
        bytesULONG, CH341_SET_LINE_REQUEST, URB.fresh]
  · rintro (hc | hc | hc | hc) <;>
      simp [CH341DispatchDeviceControl, hs, CH341DispatchDeviceControl_switch, hc,
        usbSetControlLines_of_alloc _ _ h1 h2, Env.afterControl, IoCompleteRequest,
        IOCTL_SERIAL_GET_BAUD_RATE, IOCTL_SERIAL_SET_BAUD_RATE, IOCTL_SERIAL_GET_LINE_CONTROL,
        IOCTL_SERIAL_SET_LINE_CONTROL, IOCTL_SERIAL_GET_CHARS, IOCTL_SERIAL_SET_CHARS,
        IOCTL_SERIAL_GET_HANDFLOW, IOCTL_SERIAL_SET_HANDFLOW, IOCTL_SERIAL_CLR_DTR,
        IOCTL_SERIAL_SET_DTR, IOCTL_SERIAL_CLR_RTS, IOCTL_SERIAL_SET_RTS,
        UsbBuildVendorRequest, CH341_SET_CONTROL_REQUEST, URB.fresh]

theorem C24_hardware_push_witness :
    (CH341DispatchDeviceControl (sampleExtension Started) sampleSetBaud
        (scriptedEnv fun _ => okResponse)).env.Sent
      = [LowerRequest.SubmitUrb
          { URB.fresh with
            Function := URB_FUNCTION_CLASS_DEVICE
            TransferFlags := USBD_TRANSFER_DIRECTION_OUT
            Request := 0xA1
            TransferBuffer := [128, 37, 0, 0, 0, 0, 0]
            TransferBufferLength := 8 }] :=
  ((C24_hardware_push (sampleExtension Started) sampleSetBaud
    (scriptedEnv fun _ => okResponse) (by decide) rfl rfl _ rfl).1
    (Or.inl ⟨rfl, by decide⟩)).1.trans (by decide)


/-! ### First matching pipe -/

theorem configureDevice_DtrRts (DeviceExtension : DEVICE_EXTENSION) (env : Env)
    (ConfigDescriptor : List Nat) (InterfaceDescriptor : Nat) :
    (CH341UsbConfigureDevice DeviceExtension env ConfigDescriptor
      InterfaceDescriptor).2.1.DtrRts = DeviceExtension.DtrRts := by
  unfold CH341UsbConfigureDevice
  simp only []
  split_ifs <;> first | rfl | (rw [configure_pipes_frame])

theorem usbStart_DtrRts (DeviceExtension : DEVICE_EXTENSION) (env : Env) :
    (CH341UsbStart DeviceExtension env).2.1.DtrRts = DeviceExtension.DtrRts := by
  unfold CH341UsbStart
  simp only []
  split_ifs
  any_goals rfl
  split
  · rfl
  · split_ifs <;> exact configureDevice_DtrRts _ _ _ _

theorem startDevice_DtrRts (DeviceExtension : DEVICE_EXTENSION) (env : Env) :
    (CH341StartDevice DeviceExtension env).2.1.DtrRts = DeviceExtension.DtrRts := by
  rw [← usbStart_DtrRts DeviceExtension env]
  unfold CH341StartDevice
  generalize CH341UsbStart DeviceExtension env = u
  simp only []
  split_ifs <;> rfl

theorem destroyDevice_DtrRts (d : DEVICE_EXTENSION) (e : Env) :
    (CH341DestroyDevice d e).2.1.DtrRts = d.DtrRts := by
  unfold CH341DestroyDevice
  split_ifs <;> rfl

theorem dispatchPnp_DtrRts (DeviceExtension : DEVICE_EXTENSION) (Irp : IRP) (env : Env) :
    (CH341DispatchPnp DeviceExtension Irp env).DeviceExtension.DtrRts
      = DeviceExtension.DtrRts := by
  unfold CH341DispatchPnp
  simp only [CH341DispatchPnp_passDown]
  split_ifs
  all_goals first
    | (rw [destroyDevice_DtrRts])
    | (rw [startDevice_DtrRts])
    | rfl

/-- The four updates of the mask keep a mask below four below four. -/
theorem mask_update_lt_four (m : Nat) (h : m < 4) :
    (m &&& (0xFFFFFFFF ^^^ SERIAL_DTR_STATE)) % 65536 < 4 ∧
      (m ||| SERIAL_DTR_STATE) % 65536 < 4 ∧
      (m &&& (0xFFFFFFFF ^^^ SERIAL_RTS_STATE)) % 65536 < 4 ∧
      (m ||| SERIAL_RTS_STATE) % 65536 < 4 := by
  interval_cases m <;> decide

theorem setBaudRate_DtrRts (DeviceExtension : DEVICE_EXTENSION) (Irp : IRP) (env : Env) :
    (CH341SetBaudRate DeviceExtension Irp env).2.1.DtrRts = DeviceExtension.DtrRts := by
  unfold CH341SetBaudRate
  split_ifs <;> rfl

theorem setLineControl_DtrRts (DeviceExtension : DEVICE_EXTENSION) (Irp : IRP) (env : Env) :
    (CH341SetLineControl DeviceExtension Irp env).2.1.DtrRts = DeviceExtension.DtrRts := by
  unfold CH341SetLineControl
  split_ifs <;> rfl

theorem switch_DtrRts (DeviceExtension : DEVICE_EXTENSION) (Irp : IRP) (env : Env)
    (h : DeviceExtension.DtrRts < 4) :
    (CH341DispatchDeviceControl_switch DeviceExtension Irp env).DeviceExtension.DtrRts < 4 := by
  obtain ⟨m1, m2, m3, m4⟩ := mask_update_lt_four _ h
  unfold CH341DispatchDeviceControl_switch
  dsimp only
  by_cases c0 : Irp.IoControlCode = IOCTL_SERIAL_GET_BAUD_RATE
  · rw [if_pos c0]
    exact h
  rw [if_neg c0]
  by_cases c1 : Irp.IoControlCode = IOCTL_SERIAL_SET_BAUD_RATE
  · rw [if_pos c1]
    exact (setBaudRate_DtrRts _ _ _).symm ▸ h
  rw [if_neg c1]
  by_cases c2 : Irp.IoControlCode = IOCTL_SERIAL_GET_LINE_CONTROL
  · rw [if_pos c2]
    exact h
  rw [if_neg c2]
  by_cases c3 : Irp.IoControlCode = IOCTL_SERIAL_SET_LINE_CONTROL
  · rw [if_pos c3]
    exact (setLineControl_DtrRts _ _ _).symm ▸ h
  rw [if_neg c3]
  by_cases c4 : Irp.IoControlCode = IOCTL_SERIAL_GET_CHARS
  · rw [if_pos c4]
    exact h
  rw [if_neg c4]
  by_cases c5 : Irp.IoControlCode = IOCTL_SERIAL_SET_CHARS
  · rw [if_pos c5]
    split_ifs <;> exact h
  rw [if_neg c5]
  by_cases c6 : Irp.IoControlCode = IOCTL_SERIAL_GET_HANDFLOW
  · rw [if_pos c6]
    exact h
  rw [if_neg c6]
  by_cases c7 : Irp.IoControlCode = IOCTL_SERIAL_SET_HANDFLOW
  · rw [if_pos c7]
    split_ifs <;> exact h
  rw [if_neg c7]
  by_cases c8 : Irp.IoControlCode = IOCTL_SERIAL_CLR_DTR
  · rw [if_pos c8]
    exact m1
  rw [if_neg c8]
  by_cases c9 : Irp.IoControlCode = IOCTL_SERIAL_SET_DTR
  · rw [if_pos c9]
    exact m2
  rw [if_neg c9]
  by_cases c10 : Irp.IoControlCode = IOCTL_SERIAL_CLR_RTS
  · rw [if_pos c10]
    exact m3
  rw [if_neg c10]
  by_cases c11 : Irp.IoControlCode = IOCTL_SERIAL_SET_RTS
  · rw [if_pos c11]
    exact m4
  rw [if_neg c11]
  by_cases c12 : Irp.IoControlCode = IOCTL_SERIAL_GET_DTRRTS
  · rw [if_pos c12]
    exact h
  rw [if_neg c12]
  exact h

theorem dispatchDeviceControl_DtrRts (DeviceExtension : DEVICE_EXTENSION) (Irp : IRP)
    (env : Env) (h : DeviceExtension.DtrRts < 4) :
    (CH341DispatchDeviceControl DeviceExtension Irp env).DeviceExtension.DtrRts < 4 := by
  unfold CH341DispatchDeviceControl
  dsimp only
  split_ifs
  · exact h
  · exact switch_DtrRts _ _ _ h

theorem deliver_DtrRts (s : DEVICE_EXTENSION × Env) (Irp : IRP) (h : s.1.DtrRts < 4) :
    (deliver s Irp).1.DtrRts < 4 := by
  unfold deliver
  cases hd : DriverEntry Irp.MajorFunction with
  | none => exact h
  | some Dispatch =>
    unfold DriverEntry at hd
    split_ifs at hd <;> simp only [Option.some.injEq, reduceCtorEq] at hd <;> subst hd
    · simp only [dispatchPnp_DtrRts]; exact h
    · simp only [CH341DispatchPower]; split_ifs <;> exact h
    · simp only [CH341DispatchSystemControl]; split_ifs <;> exact h
    · exact dispatchDeviceControl_DtrRts _ _ _ h
    · exact dispatchDeviceControl_DtrRts _ _ _ h
    · exact h
    · exact h
    · simp only [CH341DispatchRead, CH341UsbRead]; split_ifs <;> exact h
    · simp only [CH341DispatchWrite, CH341UsbWrite]; split_ifs <;> exact h

theorem deliverAll_DtrRts (Irps : List IRP) (s : DEVICE_EXTENSION × Env)
    (h : s.1.DtrRts < 4) : (deliverAll s Irps).1.DtrRts < 4 := by
  induction Irps generalizing s with
  | nil => exact h
  | cons Irp Irps ih =>
    have h2 := ih (deliver s Irp) (deliver_DtrRts s Irp h)
    simpa only [deliverAll, List.foldl_cons] using h2

theorem assertion_of_lt_four (m : Nat) (h : m < 4) :
    CH341UsbSetControlLines_NT_ASSERT m = true ∧ (∀ i, m.testBit i = true → i = 0 ∨ i = 1) := by
  refine ⟨by interval_cases m <;> decide, fun i hi => ?_⟩
  by_contra hne
  have h2 : 2 ≤ i := by omega
  have : m < 2 ^ i := lt_of_lt_of_le h (by
    calc 4 = 2 ^ 2 := rfl
      _ ≤ 2 ^ i := Nat.pow_le_pow_right (by decide) h2)
  rw [Nat.testBit_lt_two_pow this] at hi
  cases hi


/-- The mask handed to `CH341UsbSetControlLines` by a set-DTR, clear-DTR, set-RTS or clear-RTS
request is the mask the device extension holds afterwards. -/
theorem controlLines_argument (DeviceExtension : DEVICE_EXTENSION) (Irp : IRP) (env : Env)
    (hs : DeviceExtension.PnpState ≠ Deleted)
    (hc : Irp.IoControlCode = IOCTL_SERIAL_SET_DTR ∨ Irp.IoControlCode = IOCTL_SERIAL_CLR_DTR ∨
      Irp.IoControlCode = IOCTL_SERIAL_SET_RTS ∨ Irp.IoControlCode = IOCTL_SERIAL_CLR_RTS) :
    (CH341DispatchDeviceControl DeviceExtension Irp env).env
        = (CH341UsbSetControlLines env
            (CH341DispatchDeviceControl DeviceExtension Irp env).DeviceExtension.DtrRts).2 ∧
      (CH341DispatchDeviceControl DeviceExtension Irp env).Status
        = (CH341UsbSetControlLines env
            (CH341DispatchDeviceControl DeviceExtension Irp env).DeviceExtension.DtrRts).1 := by
  rcases hc with hc | hc | hc | hc <;>
    simp [CH341DispatchDeviceControl, hs, CH341DispatchDeviceControl_switch, hc,
      IOCTL_SERIAL_GET_BAUD_RATE, IOCTL_SERIAL_SET_BAUD_RATE, IOCTL_SERIAL_GET_LINE_CONTROL,
      IOCTL_SERIAL_SET_LINE_CONTROL, IOCTL_SERIAL_GET_CHARS, IOCTL_SERIAL_SET_CHARS,
      IOCTL_SERIAL_GET_HANDFLOW, IOCTL_SERIAL_SET_HANDFLOW, IOCTL_SERIAL_CLR_DTR,
      IOCTL_SERIAL_SET_DTR, IOCTL_SERIAL_CLR_RTS, IOCTL_SERIAL_SET_RTS]

/-- C23: a device is attached (`CH341AddDevice` succeeds, with whatever names and lower device)
and then receives any sequence of requests through the dispatch table: PnP, power,
system-control, device-control, create, close, read and write requests, in a system that answers
in any way.  In the state reached the stored DTR/RTS mask has no bit set other than bit 0 (DTR)
and bit 1 (RTS) and satisfies the condition asserted in `CH341UsbSetControlLines`.  And if the
device then receives a set-DTR, clear-DTR, set-RTS or clear-RTS request, the mask handed to
`CH341UsbSetControlLines`, which is the mask stored after the update, satisfies the asserted
condition. -/
theorem C23_mask_within_DTR_RTS (DeviceName : UNICODE_STRING) (LowerDevice : Nat)
    (InterfaceLinkName ComPortName : UNICODE_STRING) (env : Env) (Irps : List IRP) :
    ∀ s, s = deliverAll
        (CH341AddDevice DeviceName LowerDevice InterfaceLinkName ComPortName, env) Irps →
      (∀ i, s.1.DtrRts.testBit i = true → i = 0 ∨ i = 1) ∧
      SERIAL_DTR_STATE = 2 ^ 0 ∧ SERIAL_RTS_STATE = 2 ^ 1 ∧
      CH341UsbSetControlLines_NT_ASSERT s.1.DtrRts = true ∧
      (∀ Irp : IRP, s.1.PnpState ≠ Deleted →
        Irp.IoControlCode = IOCTL_SERIAL_SET_DTR ∨ Irp.IoControlCode = IOCTL_SERIAL_CLR_DTR ∨
          Irp.IoControlCode = IOCTL_SERIAL_SET_RTS ∨ Irp.IoControlCode = IOCTL_SERIAL_CLR_RTS →
        ∀ r, r = CH341DispatchDeviceControl s.1 Irp s.2 →
          r.env = (CH341UsbSetControlLines s.2 r.DeviceExtension.DtrRts).2 ∧
          r.Status = (CH341UsbSetControlLines s.2 r.DeviceExtension.DtrRts).1 ∧
          CH341UsbSetControlLines_NT_ASSERT r.DeviceExtension.DtrRts = true) := by
  intro s hs
  have h0 : (CH341AddDevice DeviceName LowerDevice InterfaceLinkName ComPortName).DtrRts < 4 := by
    show 0 < 4
    decide
  have h : s.1.DtrRts < 4 := by
    rw [hs]
    exact deliverAll_DtrRts Irps _ h0
  refine ⟨(assertion_of_lt_four _ h).2, rfl, rfl, (assertion_of_lt_four _ h).1, ?_⟩
  intro Irp hd hc r hr
  subst hr
  obtain ⟨e1, e2⟩ := controlLines_argument s.1 Irp s.2 hd hc
  exact ⟨e1, e2, (assertion_of_lt_four _ (dispatchDeviceControl_DtrRts _ _ _ h)).1⟩

theorem C23_mask_within_DTR_RTS_witness :
    CH341UsbSetControlLines_NT_ASSERT
      (deliverAll (freshDevice, scriptedEnv startBus)
        [pnpIrp IRP_MN_START_DEVICE,
         freshIrp IRP_MJ_DEVICE_CONTROL 0 IOCTL_SERIAL_SET_DTR 0 0 0 [],
         freshIrp IRP_MJ_DEVICE_CONTROL 0 IOCTL_SERIAL_SET_RTS 0 0 0 [],
         sampleRead]).1.DtrRts = true :=
  (C23_mask_within_DTR_RTS ⟨44, 100⟩ 1 ⟨80, 101⟩ ⟨0, 0⟩ (scriptedEnv startBus)
    [pnpIrp IRP_MN_START_DEVICE,
     freshIrp IRP_MJ_DEVICE_CONTROL 0 IOCTL_SERIAL_SET_DTR 0 0 0 [],
     freshIrp IRP_MJ_DEVICE_CONTROL 0 IOCTL_SERIAL_SET_RTS 0 0 0 [],
     sampleRead] _ rfl).2.2.2.1


/-! ### Defaults applied at start -/

end CH341
